import Mathlib

/-!
# Virtual GPIO controller: builtin backend and virtio transport

A shallow embedding of

* `backends/gpio-builtin.c` (the in-memory line state store),
* `backends/gpio.c` (the class-dispatch wrappers `gpio_backend_*`),
* `hw/virtio/virtio-gpio.c` (request dispatch, replies, config blob),

followed by theorems about them.

Conventions of the embedding.

* A C `int` is an `Int`; where the source narrows or reinterprets a value
  the wrap is written out (`toInt32`, `bits32`, `% 2 ^ 16`).
* A byte of memory is a `Nat`; a C array is a `List Nat`.
* An access outside an allocated object is undefined behaviour.  Every
  function that touches memory returns an `Option`, and `none` stands for
  "the C program has left defined behaviour".
* A pointer field whose target may be `NULL` is an `Option` holding the
  state of the pointee.
-/

namespace QemuGpio

/-! ## Machine integers -/

/-- The bit pattern of a 32-bit `int`: its value modulo `2 ^ 32`. -/
def bits32 (x : Int) : Nat := (x % 4294967296).toNat

/-- Conversion of an integer to a 32-bit `int` (two's complement wrap). -/
def toInt32 (x : Int) : Int :=
  if x % 4294967296 < 2147483648 then x % 4294967296 else x % 4294967296 - 4294967296

/-- The C operator `&` on two `int` operands. -/
def int_and (a b : Int) : Int := toInt32 (Int.ofNat (bits32 a &&& bits32 b))

/-! ## Memory -/

/-- Read of `mem[i]`; `none` when `i` is outside the object. -/
def load (mem : List Nat) (i : Int) : Option Nat :=
  if 0 ≤ i then mem.get? i.toNat else none

/-- Write of `mem[i] = v`; `none` when `i` is outside the object. -/
def store (mem : List Nat) (i : Int) (v : Nat) : Option (List Nat) :=
  if 0 ≤ i ∧ i.toNat < mem.length then some (mem.set i.toNat v) else none

/-! ## Constants -/

/-- Value of `ERANGE` in `<errno.h>` (Linux). -/
def ERANGE : Int := 34
/-- Value of `EINVAL` in `<errno.h>` (Linux). -/
def EINVAL : Int := 22
/-- Value of `EFAULT` in `<errno.h>` (Linux). -/
def EFAULT : Int := 14
/-- Value of `EUNATCH` in `<errno.h>` (Linux). -/
def EUNATCH : Int := 49

def QEMU_GPIO_DIRECTION_OUTPUT : Int := 0
def QEMU_GPIO_DIRECTION_INPUT : Int := 1
def QEMU_GPIO_LINE_INACTIVE : Int := 0
def QEMU_GPIO_LINE_ACTIVE : Int := 1

def GPIO_EVENT_INPUT : Int := 1
def GPIO_EVENT_OUTPUT : Int := 2
def GPIO_EVENT_LEVEL : Int := 3

def MAX_GPIO : Int := 256
def FLAG_DIRECTION_INPUT : Nat := 1
def FLAG_LINE_ACTIVE : Nat := 2

/-- The complement `~flag` as it acts on one byte of `states`. -/
def byte_not (flag : Nat) : Nat := 255 ^^^ flag

/-! ## sysemu/gpio.h -/

/-- The operation table of `struct GpioBackendClass` over a backend whose
own fields have type `σ`.  An operation the variant leaves unset is `none`. -/
structure GpioBackendClass (σ : Type) where
  request : Option (σ → Int → Option (Int × σ))
  direction_input : Option (σ → Int → Option (Int × σ))
  direction_output : Option (σ → Int → Int → Option (Int × σ))
  get_direction : Option (σ → Int → Option (Int × σ))
  set_value : Option (σ → Int → Int → Option (Int × σ))
  get_value : Option (σ → Int → Option (Int × σ))
  get_ngpio : Option (σ → Option (Int × σ))

/-- The type `gpio_backend_notify_t`: a callback on a consumer of type `κ`,
returning its `int` result and the consumer as the call leaves it. -/
abbrev gpio_backend_notify_t (κ : Type) := κ → Int → Int → Int → Int × κ

/-- A backend object, `struct GpioBackend` with the fields of its variant:
`klass` is what `GPIO_BACKEND_GET_CLASS` yields, `inst` the variant's own
fields, `notify_consumer` the state of the object the consumer pointer
refers to. -/
structure GpioBackend (σ κ : Type) where
  klass : Option (GpioBackendClass σ)
  notify_proc : Option (gpio_backend_notify_t κ)
  notify_consumer : Option κ
  inst : σ

/-! ## gpio-builtin.c -/

/-- The fields `struct GpioBuiltin` adds to its parent `GpioBackend`. -/
structure GpioBuiltin where
  states : List Nat
  num_gpio : Int
deriving DecidableEq

/-- The array `states` has the size `gpio_builtin_instance_init` allocates:
`g_malloc(num_gpio + 1)`. -/
def GpioBuiltin.allocated (gpio : GpioBuiltin) : Prop :=
  (gpio.states.length : Int) = gpio.num_gpio + 1

instance (gpio : GpioBuiltin) : Decidable gpio.allocated := by
  unfold GpioBuiltin.allocated
  infer_instance

/-- The statement `states[id] |= flag`. -/
def states_or (gpio : GpioBuiltin) (id : Int) (flag : Nat) : Option GpioBuiltin :=
  (load gpio.states id).bind fun b =>
    (store gpio.states id (b ||| flag)).map fun m => { gpio with states := m }

/-- The statement `states[id] &= ~flag`. -/
def states_and_not (gpio : GpioBuiltin) (id : Int) (flag : Nat) : Option GpioBuiltin :=
  (load gpio.states id).bind fun b =>
    (store gpio.states id (b &&& byte_not flag)).map fun m => { gpio with states := m }

/-- The expression `states[id] & flag ? a : b`. -/
def states_test (gpio : GpioBuiltin) (id : Int) (flag : Nat) (a b : Int) : Option Int :=
  (load gpio.states id).map fun s => if s &&& flag ≠ 0 then a else b

def gpio_builtin_request (gpio : GpioBuiltin) (id : Int) : Option (Int × GpioBuiltin) :=
  if id ≥ gpio.num_gpio then some (-ERANGE, gpio)
  else some (0, gpio)

def gpio_builtin_set_value (gpio : GpioBuiltin) (id state : Int) :
    Option (Int × GpioBuiltin) :=
  if id ≥ gpio.num_gpio then some (-ERANGE, gpio)
  else if int_and state QEMU_GPIO_LINE_ACTIVE ≠ 0 then
    (states_or gpio id FLAG_LINE_ACTIVE).map fun g => (0, g)
  else
    (states_and_not gpio id FLAG_LINE_ACTIVE).map fun g => (0, g)

def gpio_builtin_direction_input (gpio : GpioBuiltin) (id : Int) :
    Option (Int × GpioBuiltin) :=
  if id ≥ gpio.num_gpio then some (-ERANGE, gpio)
  else (states_or gpio id FLAG_DIRECTION_INPUT).bind fun g =>
    gpio_builtin_set_value g id 0

def gpio_builtin_direction_output (gpio : GpioBuiltin) (id state : Int) :
    Option (Int × GpioBuiltin) :=
  if id ≥ gpio.num_gpio then some (-ERANGE, gpio)
  else (states_and_not gpio id FLAG_DIRECTION_INPUT).bind fun g =>
    gpio_builtin_set_value g id state

def gpio_builtin_get_direction (gpio : GpioBuiltin) (id : Int) :
    Option (Int × GpioBuiltin) :=
  if id ≥ gpio.num_gpio then some (-ERANGE, gpio)
  else (states_test gpio id FLAG_DIRECTION_INPUT
      QEMU_GPIO_DIRECTION_INPUT QEMU_GPIO_DIRECTION_OUTPUT).map fun r => (r, gpio)

def gpio_builtin_get_value (gpio : GpioBuiltin) (id : Int) :
    Option (Int × GpioBuiltin) :=
  if id ≥ gpio.num_gpio then some (-ERANGE, gpio)
  else (states_test gpio id FLAG_LINE_ACTIVE
      QEMU_GPIO_LINE_ACTIVE QEMU_GPIO_LINE_INACTIVE).map fun r => (r, gpio)

/-- The state `gpio_builtin_instance_init` builds: `MAX_GPIO` bytes `'i'`
(0x69) and a terminating zero byte. -/
def gpio_builtin_instance_init : GpioBuiltin :=
  { num_gpio := MAX_GPIO, states := List.replicate MAX_GPIO.toNat 105 ++ [0] }

def gpio_builtin_get_ngpio (gpio : GpioBuiltin) : Option (Int × GpioBuiltin) :=
  some (gpio.num_gpio, gpio)

/-- The operation table `gpio_builtin_class_init` installs. -/
def gpio_builtin_class : GpioBackendClass GpioBuiltin :=
  { request := some gpio_builtin_request
    direction_input := some gpio_builtin_direction_input
    direction_output := some gpio_builtin_direction_output
    get_direction := some gpio_builtin_get_direction
    set_value := some gpio_builtin_set_value
    get_value := some gpio_builtin_get_value
    get_ngpio := some gpio_builtin_get_ngpio }

/-! ## backends/gpio.c -/

/-- The result of a wrapper whose class operation is `op`: the expansion of
`BACKEND_CLASSOP_HEAD(op)` followed by `return klass->op(gpio, ...)`.
`call` applies the operation to the variant's fields. -/
def backend_classop {σ κ α : Type} (gpio : Option (GpioBackend σ κ))
    (op : GpioBackendClass σ → Option α) (call : α → σ → Option (Int × σ)) :
    Option (Int × Option (GpioBackend σ κ)) :=
  match gpio with
  | none => some (-EFAULT, none)
  | some g =>
    match g.klass with
    | none => some (-EFAULT, some g)
    | some klass =>
      match op klass with
      | none => some (-EUNATCH, some g)
      | some f => (call f g.inst).map fun r => (r.1, some { g with inst := r.2 })

def gpio_backend_set_notify {σ κ : Type} (gpio : Option (GpioBackend σ κ))
    (proc : Option (gpio_backend_notify_t κ)) (consumer : Option κ) :
    Int × Option (GpioBackend σ κ) :=
  match gpio with
  | none => (-EFAULT, none)
  | some g => (0, some { g with notify_proc := proc, notify_consumer := consumer })

/-- The function `gpio_backend_send_notify`.  The callback runs on the state of
the consumer the stored pointer refers to and leaves it changed in place; a
callback stored with a `NULL` consumer has no object to run on, which the
embedding takes as undefined. -/
def gpio_backend_send_notify {σ κ : Type} (gpio : Option (GpioBackend σ κ))
    (pin event value : Int) : Option (Int × Option (GpioBackend σ κ)) :=
  match gpio with
  | none => some (-EFAULT, none)
  | some g =>
    match g.notify_proc with
    | some proc =>
      g.notify_consumer.map fun c =>
        ((proc c pin event value).1,
          some { g with notify_consumer := some (proc c pin event value).2 })
    | none => some (0, some g)

def gpio_backend_request {σ κ : Type} (gpio : Option (GpioBackend σ κ)) (pin : Int) :
    Option (Int × Option (GpioBackend σ κ)) :=
  backend_classop gpio (fun k => k.request) (fun f s => f s pin)

def gpio_backend_set_value {σ κ : Type} (gpio : Option (GpioBackend σ κ)) (pin state : Int) :
    Option (Int × Option (GpioBackend σ κ)) :=
  backend_classop gpio (fun k => k.set_value) (fun f s => f s pin state)

def gpio_backend_get_value {σ κ : Type} (gpio : Option (GpioBackend σ κ)) (pin : Int) :
    Option (Int × Option (GpioBackend σ κ)) :=
  backend_classop gpio (fun k => k.get_value) (fun f s => f s pin)

def gpio_backend_direction_output {σ κ : Type} (gpio : Option (GpioBackend σ κ))
    (pin state : Int) : Option (Int × Option (GpioBackend σ κ)) :=
  backend_classop gpio (fun k => k.direction_output) (fun f s => f s pin state)

def gpio_backend_direction_input {σ κ : Type} (gpio : Option (GpioBackend σ κ)) (pin : Int) :
    Option (Int × Option (GpioBackend σ κ)) :=
  backend_classop gpio (fun k => k.direction_input) (fun f s => f s pin)

def gpio_backend_get_direction {σ κ : Type} (gpio : Option (GpioBackend σ κ)) (pin : Int) :
    Option (Int × Option (GpioBackend σ κ)) :=
  backend_classop gpio (fun k => k.get_direction) (fun f s => f s pin)

def gpio_backend_get_ngpio {σ κ : Type} (gpio : Option (GpioBackend σ κ)) :
    Option (Int × Option (GpioBackend σ κ)) :=
  backend_classop gpio (fun k => k.get_ngpio) (fun f s => f s)

/-- The errors `setattr_value` reports through `errp`. -/
inductive SetattrError where
  | visit_failed
  | illegal_property
deriving DecidableEq

/-- The function `setattr_value`, the write path of the attribute
`gpio<pin>.value`.  `visited` is the `int64_t` that `visit_type_int` delivers
(`none` when it fails), `scanned` the pin `sscanf` reads from the attribute
name (`none` when the name does not match `GPIO_FORMAT_VALUE`).  The value
narrows to the `int` parameters of the two calls; their results are
discarded. -/
def setattr_value {σ κ : Type} (gpio : Option (GpioBackend σ κ)) (visited : Option Int)
    (scanned : Option Int) : Option (Option SetattrError × Option (GpioBackend σ κ)) :=
  match visited with
  | none => some (some SetattrError.visit_failed, gpio)
  | some val =>
    match scanned with
    | none => some (some SetattrError.illegal_property, gpio)
    | some pin =>
      (gpio_backend_set_value gpio pin (toInt32 val)).bind fun r =>
        (gpio_backend_send_notify r.2 pin GPIO_EVENT_LEVEL (toInt32 val)).map fun n =>
          (none, n.2)

/-! ## standard-headers/linux/virtio_gpio.h -/

def VIRTIO_GPIO_EV_GUEST_REQUEST : Nat := 0x01
def VIRTIO_GPIO_EV_GUEST_DIRECTION_INPUT : Nat := 0x02
def VIRTIO_GPIO_EV_GUEST_DIRECTION_OUTPUT : Nat := 0x03
def VIRTIO_GPIO_EV_GUEST_GET_DIRECTION : Nat := 0x04
def VIRTIO_GPIO_EV_GUEST_GET_VALUE : Nat := 0x05
def VIRTIO_GPIO_EV_GUEST_SET_VALUE : Nat := 0x06
def VIRTIO_GPIO_EV_HOST_LEVEL : Nat := 0x11
def VIRTIO_GPIO_EV_REPLY : Nat := 0x8000

/-- The record `struct virtio_gpio_event`: `type` and `pin` are 16-bit,
`value` is 32-bit. -/
structure virtio_gpio_event where
  type : Nat
  pin : Nat
  value : Nat
deriving DecidableEq

/-- The size `sizeof(struct virtio_gpio_event)`. -/
def sizeof_virtio_gpio_event : Nat := 8

/-- The size `sizeof(struct virtio_gpio_config)`: 1 + 1 + 2 + 4 + 24 + 32. -/
def sizeof_virtio_gpio_config : Nat := 64

/-- The two bytes of a 16-bit field, low byte first. -/
def le16 (n : Nat) : List Nat := [n % 256, n / 256 % 256]

/-- The four bytes of a 32-bit field, low byte first. -/
def le32 (n : Nat) : List Nat :=
  [n % 256, n / 256 % 256, n / 65536 % 256, n / 16777216 % 256]

/-- The eight bytes of a `struct virtio_gpio_event` in memory. -/
def event_bytes (ev : virtio_gpio_event) : List Nat :=
  le16 ev.type ++ le16 ev.pin ++ le32 ev.value

/-- The `struct virtio_gpio_event` that eight bytes of memory hold. -/
def event_of_bytes (b0 b1 b2 b3 b4 b5 b6 b7 : Nat) : virtio_gpio_event :=
  { type := b0 + 256 * b1
    pin := b2 + 256 * b3
    value := b4 + 256 * b5 + 65536 * b6 + 16777216 * b7 }

/-! ## The channel provider

The virtqueue primitives live in the virtio core, outside these sources. -/

/-- Modelled from the spec: a buffer of the channel provider (a
`VirtQueueElement`).  `out_sg` holds the bytes the guest hands to the device,
`in_sg` the bytes of the area the device may write; both scatter lists are
taken flattened. -/
structure VirtQueueElement where
  out_sg : List Nat
  in_sg : List Nat
deriving DecidableEq

/-- Modelled from the spec: a channel of the channel provider (a `VirtQueue`):
whether the guest has set it up, the buffers it offers (oldest first), the
buffers the device has returned with their lengths (oldest first), and how
often the guest was signalled about it. -/
structure VirtQueue where
  ready : Bool
  avail : List VirtQueueElement
  used : List (VirtQueueElement × Nat)
  signals : Nat
deriving DecidableEq

/-- Modelled from the spec: `virtio_queue_ready`. -/
def virtio_queue_ready (vq : VirtQueue) : Bool := vq.ready

/-- Modelled from the spec: `virtqueue_pop` ("pop inbound buffer"), the oldest
offered buffer and the queue without it, or `none` (a `NULL` result) when no
buffer is offered. -/
def virtqueue_pop (vq : VirtQueue) : Option (VirtQueueElement × VirtQueue) :=
  match vq.avail with
  | [] => none
  | elem :: rest => some (elem, { vq with avail := rest })

/-- Modelled from the spec: `virtqueue_push` ("push outbound buffer"), which
returns a buffer to the guest with the number of bytes written. -/
def virtqueue_push (vq : VirtQueue) (elem : VirtQueueElement) (len : Nat) : VirtQueue :=
  { vq with used := vq.used ++ [(elem, len)] }

/-- Modelled from the spec: `virtio_notify` ("signal host"). -/
def virtio_notify (vq : VirtQueue) : VirtQueue :=
  { vq with signals := vq.signals + 1 }

/-- Modelled from the spec: `iov_from_buf`, which copies `buf` into the
scatter list at `offset` as far as the list reaches and returns the list and
the number of bytes copied. -/
def iov_from_buf (sg : List Nat) (offset : Nat) (buf : List Nat) : List Nat × Nat :=
  let n := min buf.length (sg.length - offset)
  (sg.take offset ++ buf.take n ++ sg.drop (offset + n), n)

/-- Modelled from the spec: `iov_to_buf`, the bytes (at most `bytes` of them)
the scatter list holds from `offset` on; their number is the return value. -/
def iov_to_buf (sg : List Nat) (offset bytes : Nat) : List Nat :=
  (sg.drop offset).take bytes

/-- Modelled from the spec: the queue `virtio_add_queue` creates, which the
guest has not set up yet. -/
def virtio_add_queue : VirtQueue :=
  { ready := false, avail := [], used := [], signals := 0 }

/-- Value of `VIRTIO_CONFIG_S_DRIVER_OK` in `virtio_config.h`. -/
def VIRTIO_CONFIG_S_DRIVER_OK : Nat := 4

/-! ## hw/virtio/virtio-gpio.c -/

/-- The device `struct VirtIOGPIO`.  `status` and `vm_running` are the fields
of the parent `VirtIODevice` the file reads.  A name is the byte sequence its
`char *` points to; an absent name or table is `none`. -/
structure VirtIOGPIO (σ κ : Type) where
  status : Nat
  vm_running : Bool
  vq_in : VirtQueue
  vq_out : VirtQueue
  num_gpios : Nat
  gpio_names : Option (List (Option (List Nat)))
  gpio_names_len : Nat
  gpio : Option (GpioBackend σ κ)
  name : Option (List Nat)
  reply_buffer : virtio_gpio_event
  config_buf : Option (List Nat)
  config_len : Int

def is_guest_ready {σ κ : Type} (vgpio : VirtIOGPIO σ κ) : Bool :=
  if virtio_queue_ready vgpio.vq_in = true ∧ vgpio.status &&& VIRTIO_CONFIG_S_DRIVER_OK ≠ 0 then
    true
  else
    false

/-- The function `virtio_gpio_reply`.  The assignments to `reply_buffer` narrow
the `int` arguments to the 16-bit and 32-bit fields. -/
def virtio_gpio_reply {σ κ : Type} (vgpio : VirtIOGPIO σ κ) (type pin value : Int) :
    VirtIOGPIO σ κ :=
  if virtio_queue_ready vgpio.vq_out = false then vgpio
  else
    match virtqueue_pop vgpio.vq_out with
    | none => vgpio
    | some (elem, vq) =>
      let reply : virtio_gpio_event :=
        { type := (type % 65536).toNat, pin := (pin % 65536).toNat, value := bits32 value }
      let w := iov_from_buf elem.in_sg 0 (event_bytes reply)
      { vgpio with
        reply_buffer := reply
        vq_out := virtio_notify (virtqueue_push vq { elem with in_sg := w.1 } w.2) }

/-- Lifts the result of a backend wrapper into the device that holds the
backend. -/
def with_backend {σ κ : Type} (vgpio : VirtIOGPIO σ κ)
    (r : Option (Int × Option (GpioBackend σ κ))) : Option (Int × VirtIOGPIO σ κ) :=
  r.map fun x => (x.1, { vgpio with gpio := x.2 })

/-- The function `do_request`.  `reqbuf.pin` widens to `int` unchanged,
`reqbuf.value` converts from `uint32_t` to `int`. -/
def do_request {σ κ : Type} (vgpio : VirtIOGPIO σ κ) (reqbuf : virtio_gpio_event) :
    Option (Int × VirtIOGPIO σ κ) :=
  if reqbuf.type = VIRTIO_GPIO_EV_GUEST_REQUEST then
    with_backend vgpio (gpio_backend_request vgpio.gpio reqbuf.pin)
  else if reqbuf.type = VIRTIO_GPIO_EV_GUEST_DIRECTION_INPUT then
    with_backend vgpio (gpio_backend_direction_input vgpio.gpio reqbuf.pin)
  else if reqbuf.type = VIRTIO_GPIO_EV_GUEST_DIRECTION_OUTPUT then
    with_backend vgpio
      (gpio_backend_direction_output vgpio.gpio reqbuf.pin (toInt32 reqbuf.value))
  else if reqbuf.type = VIRTIO_GPIO_EV_GUEST_GET_DIRECTION then
    with_backend vgpio (gpio_backend_get_direction vgpio.gpio reqbuf.pin)
  else if reqbuf.type = VIRTIO_GPIO_EV_GUEST_GET_VALUE then
    with_backend vgpio (gpio_backend_get_value vgpio.gpio reqbuf.pin)
  else if reqbuf.type = VIRTIO_GPIO_EV_GUEST_SET_VALUE then
    with_backend vgpio (gpio_backend_set_value vgpio.gpio reqbuf.pin (toInt32 reqbuf.value))
  else
    some (-EINVAL, vgpio)

/-- The function `virtio_gpio_notify`. -/
def virtio_gpio_notify {σ κ : Type} (vgpio : VirtIOGPIO σ κ) (pin event value : Int) :
    Int × VirtIOGPIO σ κ :=
  if event = GPIO_EVENT_LEVEL then
    (0, virtio_gpio_reply vgpio (Int.ofNat VIRTIO_GPIO_EV_HOST_LEVEL) pin value)
  else if event = GPIO_EVENT_INPUT then (0, vgpio)
  else if event = GPIO_EVENT_OUTPUT then (0, vgpio)
  else (0, vgpio)

/-- The body of the inner loop of `virtio_gpio_process` for one record:
`do_request` is evaluated first, as an argument of `virtio_gpio_reply`. -/
def process_record {σ κ : Type} (vgpio : VirtIOGPIO σ κ) (reqbuf : virtio_gpio_event) :
    Option ( VirtIOGPIO σ κ) :=
  (do_request vgpio reqbuf).map fun r =>
    virtio_gpio_reply r.2 (Int.ofNat (reqbuf.type ||| VIRTIO_GPIO_EV_REPLY))
      (Int.ofNat reqbuf.pin) r.1

/-- The inner loop of `virtio_gpio_process` over the bytes of one buffer that
lie at and after `offset`: it runs while `iov_to_buf` still yields a whole
record of `sizeof(reqbuf)` bytes, and each round advances `offset` by that
size. -/
def process_records {σ κ : Type} (vgpio : VirtIOGPIO σ κ) :
    List Nat → Option ( VirtIOGPIO σ κ)
  | b0 :: b1 :: b2 :: b3 :: b4 :: b5 :: b6 :: b7 :: rest =>
    (process_record vgpio (event_of_bytes b0 b1 b2 b3 b4 b5 b6 b7)).bind fun v =>
      process_records v rest
  | _ => some vgpio

/-- The outer loop of `virtio_gpio_process` over the buffers `virtqueue_pop`
yields from `vq_in`, oldest first.  The list is the queue of offered buffers
of `vgpio.vq_in`; nothing the loop body calls adds to it. -/
def process_buffers {σ κ : Type} (vgpio : VirtIOGPIO σ κ) :
    List VirtQueueElement → Option ( VirtIOGPIO σ κ)
  | [] => some vgpio
  | elem :: rest =>
    (process_records { vgpio with vq_in := { vgpio.vq_in with avail := rest } }
        elem.out_sg).bind fun v =>
      process_buffers
        { v with vq_in := virtio_notify (virtqueue_push v.vq_in elem sizeof_virtio_gpio_event) }
        rest

def virtio_gpio_process {σ κ : Type} (vgpio : VirtIOGPIO σ κ) : Option ( VirtIOGPIO σ κ) :=
  if is_guest_ready vgpio = false then some vgpio
  else process_buffers vgpio vgpio.vq_in.avail

def virtio_gpio_handle_rx {σ κ : Type} (vgpio : VirtIOGPIO σ κ) : Option ( VirtIOGPIO σ κ) :=
  virtio_gpio_process vgpio

/-- The function `virtio_gpio_vm_state_change`; `running` is its `int`
argument. -/
def virtio_gpio_vm_state_change {σ κ : Type} (vgpio : VirtIOGPIO σ κ) (running : Int) :
    Option ( VirtIOGPIO σ κ) :=
  if running ≠ 0 ∧ is_guest_ready vgpio = true then virtio_gpio_process vgpio
  else some vgpio

/-- The function `virtio_gpio_set_status`; `status` is the `uint8_t` the
driver writes. -/
def virtio_gpio_set_status {σ κ : Type} (vgpio : VirtIOGPIO σ κ) (status : Nat) :
    Option ( VirtIOGPIO σ κ) :=
  if vgpio.vm_running = false then some vgpio
  else virtio_gpio_process { vgpio with status := status }

/-! ### Building the config blob -/

/-- The bytes of the C string a `char *` points to: those before the first
zero byte. -/
def cstr (s : List Nat) : List Nat := s.takeWhile fun b => b ≠ 0

def strlen (s : List Nat) : Nat := (cstr s).length

/-- Write of the bytes `bs` to `mem` from index `off` on; `none` when they do
not fit into the object. -/
def store_bytes (mem : List Nat) (off : Nat) (bs : List Nat) : Option (List Nat) :=
  if off + bs.length ≤ mem.length then
    some (mem.take off ++ bs ++ mem.drop (off + bs.length))
  else none

/-- The bytes `strncpy(dst, src, n)` writes: the string cut to `n` bytes,
filled with zero bytes up to `n`. -/
def strncpy_bytes (src : List Nat) (n : Nat) : List Nat :=
  (cstr src).take n ++ List.replicate (n - ((cstr src).take n).length) 0

/-- The object `calloc(1, size)` returns for an `int` size: zero bytes.  A
negative size converts to a `size_t` no allocation satisfies; the caller
dereferences the `NULL` it gets, so the result is `none`. -/
def calloc (size : Int) : Option (List Nat) :=
  if 0 ≤ size then some (List.replicate size.toNat 0) else none

/-- The loop of `str_array_size` from index `x` on, with `n` rounds left.
`ret += ...` adds in `size_t` and narrows to `int`. -/
def str_array_size_loop (str : List (Option (List Nat))) :
    Nat → Nat → Int → Option Int
  | 0, _, ret => some ret
  | n + 1, x, ret =>
    match str.get? x with
    | none => none
    | some (some s) => str_array_size_loop str n (x + 1) (toInt32 (ret + (strlen s + 1)))
    | some none => str_array_size_loop str n (x + 1) (toInt32 (ret + 1))

/-- The function `str_array_size`: `x` runs from 0 while `x < len`. -/
def str_array_size (str : List (Option (List Nat))) (len : Int) : Option Int :=
  str_array_size_loop str len.toNat 0 0

/-- The name-copy loop of `virtio_gpio_device_realize` from index `x` on, with
`n` rounds left; `bufptr` is an offset into `config_buf`.  The result is the
buffer and the final `bufptr`. -/
def copy_names (names : Option (List (Option (List Nat)))) :
    Nat → Nat → List Nat → Nat → Option (List Nat × Nat)
  | 0, _, buf, bufptr => some (buf, bufptr)
  | n + 1, x, buf, bufptr =>
    match names with
    | none => none
    | some t =>
      match t.get? x with
      | none => none
      | some (some s) =>
        (store_bytes buf bufptr (cstr s ++ [0])).bind fun b =>
          copy_names names n (x + 1) b (bufptr + (strlen s + 1))
      | some none =>
        (store_bytes buf bufptr [0]).bind fun b =>
          copy_names names n (x + 1) b (bufptr + 1)

/-- The errors `virtio_gpio_device_realize` reports through `errp`. -/
inductive RealizeError where
  | gpio_expects_valid_object
  | num_gpios_invalid
  | num_gpios_less_than_len_gpio_names
deriving DecidableEq

/-- The function `virtio_gpio_default_backend`.  `created` is the builtin
backend `object_new` and `user_creatable_complete` deliver, `none` when the
completion fails. -/
def virtio_gpio_default_backend {σ κ : Type} (vgpio : VirtIOGPIO σ κ)
    (created : Option (GpioBackend σ κ)) : VirtIOGPIO σ κ :=
  if vgpio.gpio.isSome = true then vgpio else { vgpio with gpio := created }

/-- Lines 250-256 of `virtio_gpio_device_realize`: the line count.  The `int`
result of `gpio_backend_get_ngpio` converts to the `uint32_t` field. -/
def resolve_num_gpios {σ κ : Type} (vgpio : VirtIOGPIO σ κ) : Option ( VirtIOGPIO σ κ) :=
  let v : VirtIOGPIO σ κ :=
    if vgpio.num_gpios < 1 ∧ vgpio.gpio_names_len > 0 then
      { vgpio with num_gpios := vgpio.gpio_names_len }
    else vgpio
  if v.num_gpios < 1 then
    (gpio_backend_get_ngpio v.gpio).map fun r => { v with num_gpios := bits32 r.1, gpio := r.2 }
  else some v

/-- Lines 269-275 of `virtio_gpio_device_realize`: the value of `nbuf_len`.
The sum with the `uint32_t` difference is formed in 32 bits and converts to
`int`. -/
def count_buffer_space {σ κ : Type} (vgpio : VirtIOGPIO σ κ) : Option Int :=
  match vgpio.gpio_names with
  | some t =>
    (str_array_size t (toInt32 vgpio.gpio_names_len)).map fun r =>
      toInt32 (r + ((vgpio.num_gpios : Int) - (vgpio.gpio_names_len : Int)) % 4294967296)
  | none => some (toInt32 vgpio.num_gpios)

/-- Lines 280-286 of `virtio_gpio_device_realize`: the stores to the fields
of `struct virtio_gpio_config` at their offsets 0, 2, 4, 32 and 32 + 31.  The
line count narrows to the 16-bit field, `nbuf_len` converts to the 32-bit
field; a `NULL` name is dereferenced by `strncpy`. -/
def fill_config (buf : List Nat) (num_gpios : Nat) (nbuf_len : Int) (name : Option (List Nat)) :
    Option (List Nat) :=
  (store_bytes buf 0 [1]).bind fun b1 =>
  (store_bytes b1 2 (le16 (num_gpios % 65536))).bind fun b2 =>
  (store_bytes b2 4 (le32 (bits32 nbuf_len))).bind fun b3 =>
  name.bind fun nm =>
  (store_bytes b3 32 (strncpy_bytes nm 32)).bind fun b4 =>
  store_bytes b4 (32 + 31) [0]

/-- What lines 269-299 of `virtio_gpio_device_realize` compute: `nbuf_len`,
`config_len`, the buffer as the stores to the header fields leave it, the
buffer after the name-copy loop, and the value of `bufptr` (an offset into the
buffer) when that loop ends. -/
structure ConfigBuild where
  nbuf_len : Int
  config_len : Int
  header_filled : List Nat
  config_buf : List Nat
  bufptr : Nat
deriving DecidableEq

/-- Lines 269-299 of `virtio_gpio_device_realize`, on the device with its line
count resolved.  `sizeof(struct virtio_gpio_config) + nbuf_len` is formed in
`size_t` and narrows to the `int` field `config_len`. -/
def build_config {σ κ : Type} (vgpio : VirtIOGPIO σ κ) : Option ConfigBuild :=
  (count_buffer_space vgpio).bind fun nbuf_len =>
  (calloc (toInt32 ((sizeof_virtio_gpio_config : Int) + nbuf_len))).bind fun buf =>
  (fill_config buf vgpio.num_gpios nbuf_len vgpio.name).bind fun hdr =>
  (copy_names vgpio.gpio_names vgpio.gpio_names_len 0 hdr sizeof_virtio_gpio_config).map
    fun r =>
      { nbuf_len := nbuf_len
        config_len := toInt32 ((sizeof_virtio_gpio_config : Int) + nbuf_len)
        header_filled := hdr
        config_buf := r.1
        bufptr := r.2 }

/-- The function `virtio_gpio_device_realize`.  The result is the error
reported through `errp`, if any, and the device.  The callback and consumer
that line 303 registers with the backend are `virtio_gpio_notify` and the
device; they arrive as `notify` and `consumer`, typed by the backend. -/
def virtio_gpio_device_realize {σ κ : Type} (vgpio : VirtIOGPIO σ κ)
    (created : Option (GpioBackend σ κ)) (notify : gpio_backend_notify_t κ) (consumer : κ) :
    Option (Option RealizeError × VirtIOGPIO σ κ) :=
  let v0 := virtio_gpio_default_backend vgpio created
  if v0.gpio.isNone = true then some (some RealizeError.gpio_expects_valid_object, v0)
  else
    (resolve_num_gpios v0).bind fun v1 =>
    if v1.num_gpios < 1 then some (some RealizeError.num_gpios_invalid, v1)
    else if v1.gpio_names_len > v1.num_gpios then
      some (some RealizeError.num_gpios_less_than_len_gpio_names, v1)
    else
      (build_config v1).map fun c =>
        (none,
          { v1 with
            config_len := c.config_len
            config_buf := some c.config_buf
            reply_buffer := { type := 0, pin := 0, value := 0 }
            gpio := (gpio_backend_set_notify v1.gpio (some notify) (some consumer)).2
            vq_out := virtio_add_queue
            vq_in := virtio_add_queue })

/-- The function `virtio_gpio_get_config`: the `config_len` bytes `memcpy`
takes from `config_buf`. -/
def virtio_gpio_get_config {σ κ : Type} (vgpio : VirtIOGPIO σ κ) : Option (List Nat) :=
  vgpio.config_buf.bind fun b =>
    if 0 ≤ vgpio.config_len ∧ vgpio.config_len.toNat ≤ b.length then
      some (b.take vgpio.config_len.toNat)
    else none

/-! ## Auxiliary definitions for the statements -/

/-- The bytes one entry of the name table takes in the name region: the
string with its terminating zero byte, or the zero byte alone. -/
def name_entry_bytes : Option (List Nat) → List Nat
  | some s => cstr s ++ [0]
  | none => [0]

/-- The entries of a name table packed one after the other. -/
def packed_names : List (Option (List Nat)) → List Nat
  | [] => []
  | e :: t => name_entry_bytes e ++ packed_names t

/-- The sum of `strlen(name) + 1` over the present entries of a name table
plus 1 for each absent entry. -/
def packed_size : List (Option (List Nat)) → Nat
  | [] => 0
  | some s :: t => strlen s + 1 + packed_size t
  | none :: t => 1 + packed_size t

/-- The name table the device is configured with: the first `gpio_names_len`
entries of `gpio_names`, and no entry without a table. -/
def name_table {σ κ : Type} (vgpio : VirtIOGPIO σ κ) : List (Option (List Nat)) :=
  match vgpio.gpio_names with
  | some t => t.take vgpio.gpio_names_len
  | none => []

/-- The size of the name region of the device: the entries of its name table
and one zero byte for each line beyond the table. -/
def name_region_size {σ κ : Type} (vgpio : VirtIOGPIO σ κ) : Nat :=
  packed_size (name_table vgpio) + (vgpio.num_gpios - vgpio.gpio_names_len)

/-- The 64 bytes of `struct virtio_gpio_config` for a line count, a value of
`names_size` and a device name: version 1, a reserved byte, the 16-bit line
count, the 32-bit `names_size`, 24 reserved bytes, and the name cut to 31
bytes and filled with zero bytes to 32. -/
def config_header (num_gpios names_size : Nat) (name : List Nat) : List Nat :=
  [1, 0] ++ le16 num_gpios ++ le32 names_size ++ List.replicate 24 0 ++
    (cstr name).take 31 ++ List.replicate (32 - ((cstr name).take 31).length) 0

/-- The records a buffer holds: one for each whole run of eight bytes, in the
order of the bytes; bytes left over at the end make no record. -/
def records_of : List Nat → List virtio_gpio_event
  | b0 :: b1 :: b2 :: b3 :: b4 :: b5 :: b6 :: b7 :: rest =>
    event_of_bytes b0 b1 b2 b3 b4 b5 b6 b7 :: records_of rest
  | _ => []

/-- The body of the record loop run on a list of records, first to last. -/
def process_record_list {σ κ : Type} (vgpio : VirtIOGPIO σ κ) :
    List virtio_gpio_event → Option ( VirtIOGPIO σ κ)
  | [] => some vgpio
  | r :: rs => (process_record vgpio r).bind fun v => process_record_list v rs

/-- The entry `virtio_gpio_reply` pushes to the outbound queue when it is
called with `type`, `pin` and `value` and pops the buffer `slot`: the buffer
with the reply record written to it, and the number of bytes written. -/
def reply_entry (type pin value : Int) (slot : VirtQueueElement) : VirtQueueElement × Nat :=
  let reply : virtio_gpio_event :=
    { type := (type % 65536).toNat, pin := (pin % 65536).toNat, value := bits32 value }
  let w := iov_from_buf slot.in_sg 0 (event_bytes reply)
  ({ slot with in_sg := w.1 }, w.2)

/-- The byte `gpio_builtin_set_value` leaves in `states[id]`. -/
def set_value_byte (b : Nat) (state : Int) : Nat :=
  if int_and state QEMU_GPIO_LINE_ACTIVE ≠ 0 then b ||| FLAG_LINE_ACTIVE
  else b &&& byte_not FLAG_LINE_ACTIVE


/-! ## Example states -/

/-- A builtin backend object of four lines, all inputs and inactive. -/
def four_line_backend : GpioBackend GpioBuiltin Unit :=
  { klass := some gpio_builtin_class
    notify_proc := none
    notify_consumer := none
    inst := { states := [105, 105, 105, 105, 0], num_gpio := 4 } }

/-- An outbound buffer of eight writable bytes. -/
def reply_slot : VirtQueueElement := { out_sg := [], in_sg := [0, 0, 0, 0, 0, 0, 0, 0] }

/-- A running device over `four_line_backend` whose outbound queue is ready
and offers three buffers. -/
def four_line_device : VirtIOGPIO GpioBuiltin Unit :=
  { status := 4
    vm_running := true
    vq_in := { ready := true, avail := [], used := [], signals := 0 }
    vq_out := { ready := true, avail := [reply_slot, reply_slot, reply_slot], used := [],
                signals := 0 }
    num_gpios := 4
    gpio_names := none
    gpio_names_len := 0
    gpio := some four_line_backend
    name := some [103, 112, 105, 111]
    reply_buffer := { type := 0, pin := 0, value := 0 }
    config_buf := none
    config_len := 0 }

/-- The device `four_line_device` with one inbound buffer that holds the
record `(6, 1, 1)`, and an outbound queue the guest has not set up. -/
def unready_out_device : VirtIOGPIO GpioBuiltin Unit :=
  { four_line_device with
    vq_in := { ready := true, avail := [⟨[6, 0, 1, 0, 1, 0, 0, 0], []⟩], used := [],
               signals := 0 }
    vq_out := { ready := false, avail := [reply_slot], used := [], signals := 0 } }

/-- The callback an example device registers: it does nothing. -/
def idle_notify : gpio_backend_notify_t Unit := fun c _ _ _ => (0, c)

/-- A device of four lines over `four_line_backend`, named `gpio`, with a name
table of two entries: the name `ab` and an absent name. -/
def named_device : VirtIOGPIO GpioBuiltin Unit :=
  { four_line_device with
    gpio_names := some [some [97, 98], none]
    gpio_names_len := 2 }

/-- The device `virtio_gpio_device_realize` makes of `named_device`. -/
def named_device_realized : VirtIOGPIO GpioBuiltin Unit :=
  { named_device with
    config_len := 70
    config_buf := some
      [1, 0, 4, 0, 6, 0, 0, 0,
       0, 0, 0, 0, 0, 0, 0, 0, 0, 0, 0, 0, 0, 0, 0, 0, 0, 0, 0, 0, 0, 0, 0, 0,
       103, 112, 105, 111, 0, 0, 0, 0, 0, 0, 0, 0, 0, 0, 0, 0,
       0, 0, 0, 0, 0, 0, 0, 0, 0, 0, 0, 0, 0, 0, 0, 0,
       97, 98, 0, 0, 0, 0]
    reply_buffer := { type := 0, pin := 0, value := 0 }
    gpio := some { four_line_backend with
      notify_proc := some idle_notify
      notify_consumer := some () }
    vq_out := virtio_add_queue
    vq_in := virtio_add_queue }

/-- The device `four_line_device` with the property `num-gpios` set to
65536. -/
def wide_device : VirtIOGPIO GpioBuiltin Unit :=
  { four_line_device with num_gpios := 65536 }

/-- The device `named_device` with the property `num-gpios` set to 65537. -/
def wide_named_device : VirtIOGPIO GpioBuiltin Unit :=
  { named_device with num_gpios := 65537 }

/-- A backend object whose variant implements every operation of the builtin
backend but `get_ngpio`. -/
def no_ngpio_backend : GpioBackend GpioBuiltin Unit :=
  { four_line_backend with klass := some { gpio_builtin_class with get_ngpio := none } }

/-- A consumer that keeps a record of the calls it receives: each entry is the
tag of the callback and the pin, event and value it was called with. -/
abbrev CallLog := List (Nat × Int × Int × Int)

/-- A callback that returns `ret` and adds its call, under `tag`, to the
record of the consumer. -/
def logging_notify (tag : Nat) (ret : Int) : gpio_backend_notify_t CallLog :=
  fun c pin event value => (ret, c ++ [(tag, pin, event, value)])

/-- A builtin backend object of four lines with no notification link, for a
consumer of type `CallLog`. -/
def logged_backend : GpioBackend GpioBuiltin CallLog :=
  { klass := some gpio_builtin_class
    notify_proc := none
    notify_consumer := none
    inst := { states := [105, 105, 105, 105, 0], num_gpio := 4 } }

/-- A builtin backend object of four lines whose notification link is the
one `virtio_gpio_device_realize` registers: the callback `virtio_gpio_notify`
with the device `four_line_device` as consumer. -/
def linked_backend : GpioBackend GpioBuiltin ( VirtIOGPIO GpioBuiltin Unit) :=
  { klass := some gpio_builtin_class
    notify_proc := some virtio_gpio_notify
    notify_consumer := some four_line_device
    inst := { states := [105, 105, 105, 105, 0], num_gpio := 4 } }

/-- The device `four_line_device` with one inbound buffer that holds the
record `(6, 1, 1)`, marked not running by the host; its inbound queue is ready
and its status has `DRIVER_OK`. -/
def stopped_device : VirtIOGPIO GpioBuiltin Unit :=
  { four_line_device with
    vm_running := false
    vq_in := { ready := true, avail := [⟨[6, 0, 1, 0, 1, 0, 0, 0], []⟩], used := [],
               signals := 0 } }

/-- The device `four_line_device` with one inbound buffer that holds the
record `(6, 1, 1)`, running, with a status that lacks `DRIVER_OK`. -/
def driver_not_ok_device : VirtIOGPIO GpioBuiltin Unit :=
  { four_line_device with
    status := 0
    vq_in := { ready := true, avail := [⟨[6, 0, 1, 0, 1, 0, 0, 0], []⟩], used := [],
               signals := 0 } }

/-- The device `four_line_device` with one inbound buffer of 19 bytes: the
records `(6, 1, 1)` and `(5, 1, 0)` and three more bytes. -/
def two_record_device : VirtIOGPIO GpioBuiltin Unit :=
  { four_line_device with
    vq_in :=
      { ready := true
        avail := [⟨[6, 0, 1, 0, 1, 0, 0, 0, 5, 0, 1, 0, 0, 0, 0, 0, 9, 9, 9], []⟩]
        used := []
        signals := 0 } }

/-- The buffer `two_record_device` offers on its inbound queue. -/
def two_record_buffer : VirtQueueElement :=
  ⟨[6, 0, 1, 0, 1, 0, 0, 0, 5, 0, 1, 0, 0, 0, 0, 0, 9, 9, 9], []⟩

/-- The device `two_record_device` after the two records of its buffer were
answered and before the buffer is returned. -/
def two_record_answered : VirtIOGPIO GpioBuiltin Unit :=
  { two_record_device with
    gpio := some { four_line_backend with
      inst := { states := [105, 107, 105, 105, 0], num_gpio := 4 } }
    reply_buffer := ⟨0x8005, 1, 1⟩
    vq_in := { ready := true, avail := [], used := [], signals := 0 }
    vq_out :=
      { ready := true
        avail := [reply_slot]
        used := [(⟨[], [6, 128, 1, 0, 0, 0, 0, 0]⟩, 8), (⟨[], [5, 128, 1, 0, 1, 0, 0, 0]⟩, 8)]
        signals := 2 } }

/-- The state behind `four_line_backend` with line 1 an active output and
line 2 an active input. -/
def mixed_lines : GpioBuiltin := { states := [105, 106, 107, 105, 0], num_gpio := 4 }

/-- The backend object `object_new(TYPE_GPIO_BUILTIN)` creates in
`virtio_gpio_default_backend`: the builtin variant as
`gpio_builtin_instance_init` leaves it, with its 256 lines. -/
def default_backend : GpioBackend GpioBuiltin Unit :=
  { klass := some gpio_builtin_class
    notify_proc := none
    notify_consumer := none
    inst := gpio_builtin_instance_init }

/-- A device configured with four lines (`num-gpios=4`), named `gpio`, with no
name table and no backend linked to it. -/
def unbacked_device : VirtIOGPIO GpioBuiltin Unit :=
  { four_line_device with gpio := none }

/-- The device `virtio_gpio_device_realize` makes of `unbacked_device`: a blob
of 68 bytes that publishes four lines, over the default backend. -/
def unbacked_device_realized : VirtIOGPIO GpioBuiltin Unit :=
  { unbacked_device with
    config_len := 68
    config_buf := some
      [1, 0, 4, 0, 4, 0, 0, 0,
       0, 0, 0, 0, 0, 0, 0, 0, 0, 0, 0, 0, 0, 0, 0, 0, 0, 0, 0, 0, 0, 0, 0, 0,
       103, 112, 105, 111, 0, 0, 0, 0, 0, 0, 0, 0, 0, 0, 0, 0,
       0, 0, 0, 0, 0, 0, 0, 0, 0, 0, 0, 0, 0, 0, 0, 0,
       0, 0, 0, 0]
    reply_buffer := { type := 0, pin := 0, value := 0 }
    gpio := some { default_backend with
      notify_proc := some idle_notify
      notify_consumer := some () }
    vq_out := virtio_add_queue
    vq_in := virtio_add_queue }

/-- A builtin backend object of four lines whose notification link is the
callback `logging_notify 1 0` with an empty record of calls. -/
def logging_backend : GpioBackend GpioBuiltin CallLog :=
  { logged_backend with
    notify_proc := some (logging_notify 1 0)
    notify_consumer := some [] }

/-- The backend `logging_backend` over a variant that implements every
operation of the builtin backend but `set_value`. -/
def no_set_value_backend : GpioBackend GpioBuiltin CallLog :=
  { logging_backend with klass := some { gpio_builtin_class with set_value := none } }

/-! ## Lemmas: memory and flag bits -/

theorem load_of_lt (mem : List Nat) (i : Int) (h0 : 0 ≤ i) (h1 : i.toNat < mem.length) :
    load mem i = some (mem.get ⟨i.toNat, h1⟩) := by
  unfold load
  rw [if_pos h0]
  exact List.get?_eq_get h1

theorem store_of_lt (mem : List Nat) (i : Int) (v : Nat) (h0 : 0 ≤ i)
    (h1 : i.toNat < mem.length) : store mem i v = some (mem.set i.toNat v) := by
  unfold store
  rw [if_pos ⟨h0, h1⟩]

theorem load_set_same (mem : List Nat) (i : Int) (v : Nat) (h0 : 0 ≤ i)
    (h1 : i.toNat < mem.length) : load (mem.set i.toNat v) i = some v := by
  unfold load
  rw [if_pos h0]
  simp [List.get?_eq_getElem?, h1]

theorem or_flag_test (b k : Nat) : (b ||| 2 ^ k) &&& 2 ^ k ≠ 0 := by
  intro h
  have h2 := congrArg (fun x => Nat.testBit x k) h
  simp [Nat.testBit_two_pow_self] at h2

theorem or_direction_input_test (b : Nat) :
    (b ||| FLAG_DIRECTION_INPUT) &&& FLAG_DIRECTION_INPUT ≠ 0 := or_flag_test b 0

theorem or_line_active_test (b : Nat) :
    (b ||| FLAG_LINE_ACTIVE) &&& FLAG_LINE_ACTIVE ≠ 0 := or_flag_test b 1

theorem and_not_flag_test (b f : Nat) (hf : byte_not f &&& f = 0) :
    (b &&& byte_not f) &&& f = 0 := by
  rw [Nat.and_assoc, hf, Nat.and_zero]

theorem or_flag_other (b f g : Nat) (hfg : f &&& g = 0) : (b ||| f) &&& g = b &&& g := by
  rw [Nat.and_distrib_right, hfg, Nat.or_zero]

theorem and_not_flag_other (b f g : Nat) (hfg : byte_not f &&& g = g) :
    (b &&& byte_not f) &&& g = b &&& g := by
  rw [Nat.and_assoc, hfg]

theorem int_and_one (s : Int) : int_and s QEMU_GPIO_LINE_ACTIVE = s % 2 := by
  unfold int_and bits32 toInt32 QEMU_GPIO_LINE_ACTIVE
  have h1 : ((1 : Int) % 4294967296).toNat = 1 := by decide
  rw [h1, Nat.and_one_is_mod]
  simp only [Int.ofNat_eq_coe]
  omega

/-! ## Lemmas: the builtin operations on an allocated line -/

theorem in_range_lt (g : GpioBuiltin) (id : Int) (hg : g.allocated) (h0 : 0 ≤ id)
    (h1 : id < g.num_gpio) : id.toNat < g.states.length := by
  unfold GpioBuiltin.allocated at hg
  omega

theorem states_or_eq (g : GpioBuiltin) (id : Int) (f : Nat) (h0 : 0 ≤ id)
    (h1 : id.toNat < g.states.length) :
    states_or g id f =
      some { g with states := g.states.set id.toNat (g.states.get ⟨id.toNat, h1⟩ ||| f) } := by
  unfold states_or
  rw [load_of_lt _ _ h0 h1]
  simp [store_of_lt _ _ _ h0 h1]

theorem states_and_not_eq (g : GpioBuiltin) (id : Int) (f : Nat) (h0 : 0 ≤ id)
    (h1 : id.toNat < g.states.length) :
    states_and_not g id f =
      some { g with
        states := g.states.set id.toNat (g.states.get ⟨id.toNat, h1⟩ &&& byte_not f) } := by
  unfold states_and_not
  rw [load_of_lt _ _ h0 h1]
  simp [store_of_lt _ _ _ h0 h1]

theorem states_test_eq (g : GpioBuiltin) (id : Int) (f : Nat) (a b : Int) (h0 : 0 ≤ id)
    (h1 : id.toNat < g.states.length) :
    states_test g id f a b =
      some (if g.states.get ⟨id.toNat, h1⟩ &&& f ≠ 0 then a else b) := by
  unfold states_test
  rw [load_of_lt _ _ h0 h1]
  rfl

theorem set_value_eq (g : GpioBuiltin) (id state : Int) (h0 : 0 ≤ id) (hn : id < g.num_gpio)
    (h1 : id.toNat < g.states.length) :
    gpio_builtin_set_value g id state =
      some (0, { g with
        states := g.states.set id.toNat (set_value_byte (g.states.get ⟨id.toNat, h1⟩) state) }) := by
  unfold gpio_builtin_set_value set_value_byte
  rw [if_neg (by omega)]
  by_cases hs : int_and state QEMU_GPIO_LINE_ACTIVE ≠ 0
  · rw [if_pos hs, if_pos hs, states_or_eq g id _ h0 h1]; rfl
  · rw [if_neg hs, if_neg hs, states_and_not_eq g id _ h0 h1]; rfl

theorem get_value_eq (g : GpioBuiltin) (id : Int) (h0 : 0 ≤ id) (hn : id < g.num_gpio)
    (h1 : id.toNat < g.states.length) :
    gpio_builtin_get_value g id =
      some (if g.states.get ⟨id.toNat, h1⟩ &&& FLAG_LINE_ACTIVE ≠ 0 then QEMU_GPIO_LINE_ACTIVE
        else QEMU_GPIO_LINE_INACTIVE, g) := by
  unfold gpio_builtin_get_value
  rw [if_neg (by omega), states_test_eq g id _ _ _ h0 h1]; rfl

theorem get_direction_eq (g : GpioBuiltin) (id : Int) (h0 : 0 ≤ id) (hn : id < g.num_gpio)
    (h1 : id.toNat < g.states.length) :
    gpio_builtin_get_direction g id =
      some (if g.states.get ⟨id.toNat, h1⟩ &&& FLAG_DIRECTION_INPUT ≠ 0
        then QEMU_GPIO_DIRECTION_INPUT else QEMU_GPIO_DIRECTION_OUTPUT, g) := by
  unfold gpio_builtin_get_direction
  rw [if_neg (by omega), states_test_eq g id _ _ _ h0 h1]; rfl

theorem direction_input_eq (g : GpioBuiltin) (id : Int) (h0 : 0 ≤ id) (hn : id < g.num_gpio)
    (h1 : id.toNat < g.states.length) :
    gpio_builtin_direction_input g id =
      some (0, { g with
        states := g.states.set id.toNat
          (set_value_byte (g.states.get ⟨id.toNat, h1⟩ ||| FLAG_DIRECTION_INPUT) 0) }) := by
  unfold gpio_builtin_direction_input
  rw [if_neg (by omega), states_or_eq g id _ h0 h1]
  simp only [Option.some_bind]
  have h2 : id.toNat < (g.states.set id.toNat
      (g.states.get ⟨id.toNat, h1⟩ ||| FLAG_DIRECTION_INPUT)).length := by simpa using h1
  rw [set_value_eq ⟨g.states.set id.toNat
      (g.states.get ⟨id.toNat, h1⟩ ||| FLAG_DIRECTION_INPUT), g.num_gpio⟩ id 0 h0 hn h2]
  simp

theorem direction_output_eq (g : GpioBuiltin) (id state : Int) (h0 : 0 ≤ id)
    (hn : id < g.num_gpio) (h1 : id.toNat < g.states.length) :
    gpio_builtin_direction_output g id state =
      some (0, { g with
        states := g.states.set id.toNat
          (set_value_byte (g.states.get ⟨id.toNat, h1⟩ &&& byte_not FLAG_DIRECTION_INPUT)
            state) }) := by
  unfold gpio_builtin_direction_output
  rw [if_neg (by omega), states_and_not_eq g id _ h0 h1]
  simp only [Option.some_bind]
  have h2 : id.toNat < (g.states.set id.toNat
      (g.states.get ⟨id.toNat, h1⟩ &&& byte_not FLAG_DIRECTION_INPUT)).length := by
    simpa using h1
  rw [set_value_eq ⟨g.states.set id.toNat
      (g.states.get ⟨id.toNat, h1⟩ &&& byte_not FLAG_DIRECTION_INPUT), g.num_gpio⟩
      id state h0 hn h2]
  simp

theorem set_value_byte_active (b : Nat) (state : Int) :
    (set_value_byte b state &&& FLAG_LINE_ACTIVE ≠ 0) ↔ state % 2 = 1 := by
  unfold set_value_byte
  rw [int_and_one]
  by_cases hs : state % 2 ≠ 0
  · rw [if_pos hs]
    have := or_flag_test b 1
    simp only [FLAG_LINE_ACTIVE]
    constructor
    · intro _; omega
    · intro _; simpa using this
  · rw [if_neg hs]
    have := and_not_flag_test b FLAG_LINE_ACTIVE (by decide)
    constructor
    · intro h; exact absurd this h
    · intro h; omega

theorem set_value_byte_direction (b : Nat) (state : Int) :
    set_value_byte b state &&& FLAG_DIRECTION_INPUT = b &&& FLAG_DIRECTION_INPUT := by
  unfold set_value_byte
  split
  · exact or_flag_other b _ _ (by decide)
  · exact and_not_flag_other b _ _ (by decide)

theorem out_of_range_request (g : GpioBuiltin) (id : Int) (h : id ≥ g.num_gpio) :
    gpio_builtin_request g id = some (-ERANGE, g) := by
  unfold gpio_builtin_request; rw [if_pos h]


/-! ## The builtin backend -/

/-- C1: on every allocated builtin backend state, for every pin in
`[0, num_gpio)` and every level `v` in {0, 1}, `gpio_builtin_set_value`
returns 0 and a following `gpio_builtin_get_value` returns `v`; the direction
of the line plays no part. -/
theorem c1_set_value_then_get_value (g : GpioBuiltin) (pin v : Int) (hg : g.allocated)
    (h0 : 0 ≤ pin) (h1 : pin < g.num_gpio) (hv : v = 0 ∨ v = 1) :
    ∃ g', gpio_builtin_set_value g pin v = some (0, g') ∧
      gpio_builtin_get_value g' pin = some (v, g') := by
  have hl := in_range_lt g pin hg h0 h1
  refine ⟨_, set_value_eq g pin v h0 h1 hl, ?_⟩
  have hl2 : pin.toNat < (g.states.set pin.toNat
      (set_value_byte (g.states.get ⟨pin.toNat, hl⟩) v)).length := by simpa using hl
  rw [get_value_eq ⟨g.states.set pin.toNat (set_value_byte (g.states.get ⟨pin.toNat, hl⟩) v),
    g.num_gpio⟩ pin h0 h1 hl2]
  have hb := set_value_byte_active (g.states.get ⟨pin.toNat, hl⟩) v
  simp only [List.get_eq_getElem, List.getElem_set_self] at hb ⊢
  rcases hv with hv | hv
  · subst hv
    rw [if_neg (by rw [hb]; decide)]; rfl
  · subst hv
    rw [if_pos (by rw [hb]; decide)]; rfl

/-- C1 on a four-line state: line 2, an input, is set active and read back. -/
theorem c1_set_value_then_get_value_witness :
    ∃ g', gpio_builtin_set_value ⟨[105, 105, 105, 105, 0], 4⟩ 2 1 = some (0, g') ∧
      gpio_builtin_get_value g' 2 = some (1, g') :=
  c1_set_value_then_get_value ⟨[105, 105, 105, 105, 0], 4⟩ 2 1 (by decide) (by decide)
    (by decide) (by decide)

/-- C3: on every allocated builtin backend state and for every pin in
`[0, num_gpio)`, `gpio_builtin_direction_input` returns 0, after which
`gpio_builtin_get_direction` returns `QEMU_GPIO_DIRECTION_INPUT` and
`gpio_builtin_get_value` returns `QEMU_GPIO_LINE_INACTIVE`, whatever the
line held before. -/
theorem c3_direction_input_clears_value (g : GpioBuiltin) (pin : Int) (hg : g.allocated)
    (h0 : 0 ≤ pin) (h1 : pin < g.num_gpio) :
    ∃ g', gpio_builtin_direction_input g pin = some (0, g') ∧
      gpio_builtin_get_direction g' pin = some (QEMU_GPIO_DIRECTION_INPUT, g') ∧
      gpio_builtin_get_value g' pin = some (QEMU_GPIO_LINE_INACTIVE, g') := by
  have hl := in_range_lt g pin hg h0 h1
  refine ⟨_, direction_input_eq g pin h0 h1 hl, ?_, ?_⟩
  · have hl2 : pin.toNat < (g.states.set pin.toNat (set_value_byte
        (g.states.get ⟨pin.toNat, hl⟩ ||| FLAG_DIRECTION_INPUT) 0)).length := by simpa using hl
    rw [get_direction_eq ⟨g.states.set pin.toNat (set_value_byte
        (g.states.get ⟨pin.toNat, hl⟩ ||| FLAG_DIRECTION_INPUT) 0), g.num_gpio⟩ pin h0 h1 hl2]
    simp only [List.get_eq_getElem, List.getElem_set_self]
    rw [set_value_byte_direction, if_pos (or_direction_input_test _)]
  · have hl2 : pin.toNat < (g.states.set pin.toNat (set_value_byte
        (g.states.get ⟨pin.toNat, hl⟩ ||| FLAG_DIRECTION_INPUT) 0)).length := by simpa using hl
    rw [get_value_eq ⟨g.states.set pin.toNat (set_value_byte
        (g.states.get ⟨pin.toNat, hl⟩ ||| FLAG_DIRECTION_INPUT) 0), g.num_gpio⟩ pin h0 h1 hl2]
    have hb := set_value_byte_active (g.states.get ⟨pin.toNat, hl⟩ ||| FLAG_DIRECTION_INPUT) 0
    simp only [List.get_eq_getElem, List.getElem_set_self] at hb ⊢
    rw [if_neg (by rw [hb]; decide)]

/-- C3 on a four-line state whose line 2 is an active output. -/
theorem c3_direction_input_clears_value_witness :
    ∃ g', gpio_builtin_direction_input ⟨[105, 105, 106, 105, 0], 4⟩ 2 = some (0, g') ∧
      gpio_builtin_get_direction g' 2 = some (QEMU_GPIO_DIRECTION_INPUT, g') ∧
      gpio_builtin_get_value g' 2 = some (QEMU_GPIO_LINE_INACTIVE, g') :=
  c3_direction_input_clears_value ⟨[105, 105, 106, 105, 0], 4⟩ 2 (by decide) (by decide)
    (by decide)

theorem out_of_range_set_value (g : GpioBuiltin) (id state : Int) (h : id ≥ g.num_gpio) :
    gpio_builtin_set_value g id state = some (-ERANGE, g) := by
  unfold gpio_builtin_set_value; rw [if_pos h]

theorem out_of_range_direction_input (g : GpioBuiltin) (id : Int) (h : id ≥ g.num_gpio) :
    gpio_builtin_direction_input g id = some (-ERANGE, g) := by
  unfold gpio_builtin_direction_input; rw [if_pos h]

theorem out_of_range_direction_output (g : GpioBuiltin) (id state : Int)
    (h : id ≥ g.num_gpio) : gpio_builtin_direction_output g id state = some (-ERANGE, g) := by
  unfold gpio_builtin_direction_output; rw [if_pos h]

theorem out_of_range_get_direction (g : GpioBuiltin) (id : Int) (h : id ≥ g.num_gpio) :
    gpio_builtin_get_direction g id = some (-ERANGE, g) := by
  unfold gpio_builtin_get_direction; rw [if_pos h]

theorem out_of_range_get_value (g : GpioBuiltin) (id : Int) (h : id ≥ g.num_gpio) :
    gpio_builtin_get_value g id = some (-ERANGE, g) := by
  unfold gpio_builtin_get_value; rw [if_pos h]

/-! ## Lemmas: wrappers, dispatch and replies -/

theorem backend_classop_some {σ κ α : Type} (b : GpioBackend σ κ) (k : GpioBackendClass σ)
    (op : GpioBackendClass σ → Option α) (call : α → σ → Option (Int × σ)) (f : α)
    (hk : b.klass = some k) (hf : op k = some f) :
    backend_classop (some b) op call =
      (call f b.inst).map fun r => (r.1, some { b with inst := r.2 }) := by
  unfold backend_classop
  simp only [hk, hf]

theorem event_bytes_length (r : virtio_gpio_event) : (event_bytes r).length = 8 := rfl

theorem reply_type_field (t : Nat) (h : t < 65536) :
    ((Int.ofNat (t ||| VIRTIO_GPIO_EV_REPLY)) % 65536).toNat = t ||| VIRTIO_GPIO_EV_REPLY := by
  have h2 : t ||| VIRTIO_GPIO_EV_REPLY < 2 ^ 16 :=
    Nat.or_lt_two_pow (by simpa using h) (by decide)
  simp only [Int.ofNat_eq_coe]
  omega

theorem reply_pin_field (p : Nat) (h : p < 65536) : ((Int.ofNat p) % 65536).toNat = p := by
  simp only [Int.ofNat_eq_coe]
  omega

/-- What `virtio_gpio_reply` does when the outbound queue is ready and offers
a buffer `e` of at least eight writable bytes. -/
theorem reply_pushed {σ κ : Type} (v : VirtIOGPIO σ κ) (t p val : Int)
    (e : VirtQueueElement) (rest : List VirtQueueElement)
    (hr : v.vq_out.ready = true) (ha : v.vq_out.avail = e :: rest)
    (hl : 8 ≤ e.in_sg.length) :
    virtio_gpio_reply v t p val =
      { v with
        reply_buffer := ⟨(t % 65536).toNat, (p % 65536).toNat, bits32 val⟩
        vq_out :=
          { ready := true
            avail := rest
            used := v.vq_out.used ++
              [(⟨e.out_sg, event_bytes ⟨(t % 65536).toNat, (p % 65536).toNat, bits32 val⟩ ++
                e.in_sg.drop 8⟩, 8)]
            signals := v.vq_out.signals + 1 } } := by
  unfold virtio_gpio_reply virtio_queue_ready virtqueue_pop
  rw [if_neg (by simp [hr])]
  simp only [ha]
  have hm : min (event_bytes ⟨(t % 65536).toNat, (p % 65536).toNat, bits32 val⟩).length
      (e.in_sg.length - 0) = 8 := by
    rw [event_bytes_length]; omega
  simp only [iov_from_buf, hm, virtio_notify, virtqueue_push, hr]
  simp [List.take_of_length_le, event_bytes_length]

/-- What `virtio_gpio_reply` does when the outbound queue is not ready or
offers no buffer: nothing. -/
theorem reply_dropped {σ κ : Type} (v : VirtIOGPIO σ κ) (t p val : Int)
    (h : v.vq_out.ready = false ∨ v.vq_out.avail = []) :
    virtio_gpio_reply v t p val = v := by
  unfold virtio_gpio_reply virtio_queue_ready virtqueue_pop
  rcases h with h | h
  · rw [if_pos h]
  · by_cases hr : v.vq_out.ready = false
    · rw [if_pos hr]
    · rw [if_neg hr]; simp only [h]

/-- The result of `do_request` on a device whose backend is the builtin
variant, for a pin at or beyond `num_gpio` and a request type in 1..6. -/
theorem do_request_out_of_range {κ : Type} (v : VirtIOGPIO GpioBuiltin κ)
    (b : GpioBackend GpioBuiltin κ) (rec : virtio_gpio_event)
    (hb : v.gpio = some b) (hk : b.klass = some gpio_builtin_class)
    (hp : (rec.pin : Int) ≥ b.inst.num_gpio) (ht : 1 ≤ rec.type ∧ rec.type ≤ 6) :
    do_request v rec = some (-ERANGE, v) := by
  have hv : ({ v with gpio := some { b with inst := b.inst } } : VirtIOGPIO GpioBuiltin κ) = v := by
    rw [← hb]
  obtain ⟨t1, t6⟩ := ht
  unfold do_request with_backend
  simp only [hb, gpio_backend_request, gpio_backend_direction_input,
    gpio_backend_direction_output, gpio_backend_get_direction, gpio_backend_get_value,
    gpio_backend_set_value,
    VIRTIO_GPIO_EV_GUEST_REQUEST, VIRTIO_GPIO_EV_GUEST_DIRECTION_INPUT,
    VIRTIO_GPIO_EV_GUEST_DIRECTION_OUTPUT, VIRTIO_GPIO_EV_GUEST_GET_DIRECTION,
    VIRTIO_GPIO_EV_GUEST_GET_VALUE, VIRTIO_GPIO_EV_GUEST_SET_VALUE]
  have h1 : rec.type = 1 ∨ rec.type = 2 ∨ rec.type = 3 ∨ rec.type = 4 ∨ rec.type = 5 ∨
      rec.type = 6 := by omega
  rcases h1 with h | h | h | h | h | h <;> simp only [h, if_true, if_false,
    Nat.reduceEqDiff, OfNat.ofNat_ne_one, Nat.succ_ne_self]
  · rw [backend_classop_some b gpio_builtin_class _ _ gpio_builtin_request hk rfl,
      out_of_range_request _ _ hp]
    simp only [Option.map_some']; rw [hv]
  · rw [backend_classop_some b gpio_builtin_class _ _ gpio_builtin_direction_input hk rfl,
      out_of_range_direction_input _ _ hp]
    simp only [Option.map_some']; rw [hv]
  · rw [backend_classop_some b gpio_builtin_class _ _ gpio_builtin_direction_output hk rfl,
      out_of_range_direction_output _ _ _ hp]
    simp only [Option.map_some']; rw [hv]
  · rw [backend_classop_some b gpio_builtin_class _ _ gpio_builtin_get_direction hk rfl,
      out_of_range_get_direction _ _ hp]
    simp only [Option.map_some']; rw [hv]
  · rw [backend_classop_some b gpio_builtin_class _ _ gpio_builtin_get_value hk rfl,
      out_of_range_get_value _ _ hp]
    simp only [Option.map_some']; rw [hv]
  · rw [backend_classop_some b gpio_builtin_class _ _ gpio_builtin_set_value hk rfl,
      out_of_range_set_value _ _ _ hp]
    simp only [Option.map_some']; rw [hv]

/-! ## Out-of-range pins -/

/-- C2: for every builtin backend state `g` and every pin at or beyond
`num_gpio`, each of the six operations returns `-ERANGE` and leaves `g` as it
is; and on a device over such a backend whose outbound queue is ready and
offers a buffer, a request record of any type 1..6 for such a pin is answered
with the reply `(type | 0x8000, pin, -ERANGE as a 32-bit value)` while the
backend stays unchanged. -/
theorem c2_out_of_range_pin (g : GpioBuiltin) (pin state : Int) (h : pin ≥ g.num_gpio) :
    gpio_builtin_request g pin = some (-ERANGE, g) ∧
    gpio_builtin_direction_input g pin = some (-ERANGE, g) ∧
    gpio_builtin_direction_output g pin state = some (-ERANGE, g) ∧
    gpio_builtin_get_direction g pin = some (-ERANGE, g) ∧
    gpio_builtin_set_value g pin state = some (-ERANGE, g) ∧
    gpio_builtin_get_value g pin = some (-ERANGE, g) ∧
    ∀ (κ : Type) (v : VirtIOGPIO GpioBuiltin κ) (b : GpioBackend GpioBuiltin κ)
      (rec : virtio_gpio_event) (e : VirtQueueElement) (rest : List VirtQueueElement),
      v.gpio = some b → b.klass = some gpio_builtin_class → b.inst = g →
      (rec.pin : Int) = pin → rec.pin < 65536 → 1 ≤ rec.type ∧ rec.type ≤ 6 →
      v.vq_out.ready = true → v.vq_out.avail = e :: rest → 8 ≤ e.in_sg.length →
      ∃ v', process_record v rec = some v' ∧
        v'.gpio = v.gpio ∧
        v'.reply_buffer = ⟨rec.type ||| 0x8000, rec.pin, bits32 (-ERANGE)⟩ ∧
        v'.vq_out.avail = rest ∧
        v'.vq_out.used = v.vq_out.used ++
          [(⟨e.out_sg, event_bytes ⟨rec.type ||| 0x8000, rec.pin, bits32 (-ERANGE)⟩ ++
            e.in_sg.drop 8⟩, 8)] := by
  refine ⟨out_of_range_request g pin h, out_of_range_direction_input g pin h,
    out_of_range_direction_output g pin state h, out_of_range_get_direction g pin h,
    out_of_range_set_value g pin state h, out_of_range_get_value g pin h, ?_⟩
  intro κ v b rec e rest hb hk hg hp hp16 ht hr ha hl
  have hd := do_request_out_of_range v b rec hb hk (by rw [hg, hp]; exact h) ht
  have ht16 : rec.type < 65536 := by omega
  unfold process_record
  rw [hd]
  simp only [Option.map_some']
  rw [reply_pushed v _ _ _ e rest hr ha hl, reply_type_field _ ht16, reply_pin_field _ hp16]
  exact ⟨_, rfl, rfl, rfl, rfl, rfl⟩

/-- C2 for the record `(6, 99, 0)` on a four-line backend. -/
theorem c2_out_of_range_pin_witness :
    ∃ v', process_record four_line_device ⟨6, 99, 0⟩ = some v' ∧
      v'.gpio = four_line_device.gpio ∧
      v'.reply_buffer = ⟨0x8006, 99, 4294967262⟩ ∧
      v'.vq_out.avail = [reply_slot, reply_slot] ∧
      v'.vq_out.used = [(⟨[], [6, 128, 99, 0, 222, 255, 255, 255]⟩, 8)] :=
  (c2_out_of_range_pin ⟨[105, 105, 105, 105, 0], 4⟩ 99 0 (by decide)).2.2.2.2.2.2
    Unit four_line_device four_line_backend ⟨6, 99, 0⟩ reply_slot [reply_slot, reply_slot]
    rfl rfl rfl rfl (by decide) (by decide) rfl rfl (by decide)

/-! ## Requests on the wire -/

theorem do_request_direction_output {κ : Type} (v : VirtIOGPIO GpioBuiltin κ)
    (b : GpioBackend GpioBuiltin κ) (rec : virtio_gpio_event)
    (hb : v.gpio = some b) (hk : b.klass = some gpio_builtin_class) (ht : rec.type = 3) :
    do_request v rec =
      (gpio_builtin_direction_output b.inst rec.pin (toInt32 rec.value)).map fun r =>
        (r.1, { v with gpio := some { b with inst := r.2 } }) := by
  unfold do_request with_backend
  simp only [ht, hb, VIRTIO_GPIO_EV_GUEST_REQUEST, VIRTIO_GPIO_EV_GUEST_DIRECTION_INPUT,
    VIRTIO_GPIO_EV_GUEST_DIRECTION_OUTPUT, if_true, if_false, Nat.reduceEqDiff,
    OfNat.ofNat_ne_one, gpio_backend_direction_output]
  rw [backend_classop_some b gpio_builtin_class _ _ gpio_builtin_direction_output hk rfl]
  simp only [Option.map_map]
  rfl

theorem do_request_get_direction {κ : Type} (v : VirtIOGPIO GpioBuiltin κ)
    (b : GpioBackend GpioBuiltin κ) (rec : virtio_gpio_event)
    (hb : v.gpio = some b) (hk : b.klass = some gpio_builtin_class) (ht : rec.type = 4) :
    do_request v rec =
      (gpio_builtin_get_direction b.inst rec.pin).map fun r =>
        (r.1, { v with gpio := some { b with inst := r.2 } }) := by
  unfold do_request with_backend
  simp only [ht, hb, VIRTIO_GPIO_EV_GUEST_REQUEST, VIRTIO_GPIO_EV_GUEST_DIRECTION_INPUT,
    VIRTIO_GPIO_EV_GUEST_DIRECTION_OUTPUT, VIRTIO_GPIO_EV_GUEST_GET_DIRECTION, if_true,
    if_false, Nat.reduceEqDiff, OfNat.ofNat_ne_one, gpio_backend_get_direction]
  rw [backend_classop_some b gpio_builtin_class _ _ gpio_builtin_get_direction hk rfl]
  simp only [Option.map_map]
  rfl

theorem do_request_get_value {κ : Type} (v : VirtIOGPIO GpioBuiltin κ)
    (b : GpioBackend GpioBuiltin κ) (rec : virtio_gpio_event)
    (hb : v.gpio = some b) (hk : b.klass = some gpio_builtin_class) (ht : rec.type = 5) :
    do_request v rec =
      (gpio_builtin_get_value b.inst rec.pin).map fun r =>
        (r.1, { v with gpio := some { b with inst := r.2 } }) := by
  unfold do_request with_backend
  simp only [ht, hb, VIRTIO_GPIO_EV_GUEST_REQUEST, VIRTIO_GPIO_EV_GUEST_DIRECTION_INPUT,
    VIRTIO_GPIO_EV_GUEST_DIRECTION_OUTPUT, VIRTIO_GPIO_EV_GUEST_GET_DIRECTION,
    VIRTIO_GPIO_EV_GUEST_GET_VALUE, if_true, if_false, Nat.reduceEqDiff,
    OfNat.ofNat_ne_one, gpio_backend_get_value]
  rw [backend_classop_some b gpio_builtin_class _ _ gpio_builtin_get_value hk rfl]
  simp only [Option.map_map]
  rfl

/-- One round of the record loop when `do_request` returns `ret` and the
outbound queue is ready and offers a buffer `e` of eight writable bytes. -/
theorem process_record_pushed {σ κ : Type} (v v1 : VirtIOGPIO σ κ) (rec : virtio_gpio_event)
    (ret : Int) (e : VirtQueueElement) (rest : List VirtQueueElement)
    (hd : do_request v rec = some (ret, v1))
    (ht : rec.type < 65536) (hp : rec.pin < 65536)
    (hr : v1.vq_out.ready = true) (ha : v1.vq_out.avail = e :: rest)
    (hl : 8 ≤ e.in_sg.length) :
    process_record v rec =
      some { v1 with
        reply_buffer := ⟨rec.type ||| VIRTIO_GPIO_EV_REPLY, rec.pin, bits32 ret⟩
        vq_out :=
          { ready := true
            avail := rest
            used := v1.vq_out.used ++
              [(⟨e.out_sg, event_bytes ⟨rec.type ||| VIRTIO_GPIO_EV_REPLY, rec.pin, bits32 ret⟩ ++
                e.in_sg.drop 8⟩, 8)]
            signals := v1.vq_out.signals + 1 } } := by
  unfold process_record
  rw [hd]
  simp only [Option.map_some']
  rw [reply_pushed v1 _ _ _ e rest hr ha hl, reply_type_field _ ht, reply_pin_field _ hp]

theorem and_not_direction_input_test (b : Nat) :
    (b &&& byte_not FLAG_DIRECTION_INPUT) &&& FLAG_DIRECTION_INPUT = 0 :=
  and_not_flag_test b FLAG_DIRECTION_INPUT (by decide)

/-- The builtin backend after `direction_output`: the line is an output and
holds bit 0 of the requested level. -/
theorem direction_output_then_get (g : GpioBuiltin) (pin state : Int) (hg : g.allocated)
    (h0 : 0 ≤ pin) (h1 : pin < g.num_gpio) :
    ∃ g', gpio_builtin_direction_output g pin state = some (0, g') ∧
      gpio_builtin_get_direction g' pin = some (QEMU_GPIO_DIRECTION_OUTPUT, g') ∧
      gpio_builtin_get_value g' pin = some (state % 2, g') := by
  have hl := in_range_lt g pin hg h0 h1
  have hl2 : pin.toNat < (g.states.set pin.toNat (set_value_byte
      (g.states.get ⟨pin.toNat, hl⟩ &&& byte_not FLAG_DIRECTION_INPUT) state)).length := by
    simpa using hl
  refine ⟨_, direction_output_eq g pin state h0 h1 hl, ?_, ?_⟩
  · rw [get_direction_eq ⟨g.states.set pin.toNat (set_value_byte
        (g.states.get ⟨pin.toNat, hl⟩ &&& byte_not FLAG_DIRECTION_INPUT) state), g.num_gpio⟩
        pin h0 h1 hl2]
    simp only [List.get_eq_getElem, List.getElem_set_self]
    rw [set_value_byte_direction, if_neg (by rw [and_not_direction_input_test]; simp)]
  · rw [get_value_eq ⟨g.states.set pin.toNat (set_value_byte
        (g.states.get ⟨pin.toNat, hl⟩ &&& byte_not FLAG_DIRECTION_INPUT) state), g.num_gpio⟩
        pin h0 h1 hl2]
    have hb := set_value_byte_active
      (g.states.get ⟨pin.toNat, hl⟩ &&& byte_not FLAG_DIRECTION_INPUT) state
    simp only [List.get_eq_getElem, List.getElem_set_self] at hb ⊢
    by_cases hs : state % 2 = 1
    · rw [if_pos (hb.mpr hs), hs]; rfl
    · rw [if_neg (fun hc => hs (hb.mp hc))]
      have : state % 2 = 0 := by omega
      rw [this]; rfl

theorem toInt32_of_small (x : Int) (h0 : 0 ≤ x) (h1 : x < 2147483648) : toInt32 x = x := by
  unfold toInt32
  have : x % 4294967296 = x := by omega
  rw [this, if_pos h1]

/-- C4: on every device over an allocated builtin backend whose outbound queue
is ready and offers three buffers, for every pin `p` below `num_gpio` and every
level `val` in {0, 1}: the record `(3, p, val)` is answered with
`(3 | 0x8000, p, 0)`; after it a get-direction record `(4, p, _)` is answered
with value 0 and a get-value record `(5, p, _)` with `(5 | 0x8000, p, val)`. -/
theorem c4_direction_output_on_the_wire {κ : Type} (v : VirtIOGPIO GpioBuiltin κ)
    (b : GpioBackend GpioBuiltin κ) (p val x y : Nat)
    (e1 e2 e3 : VirtQueueElement) (rest : List VirtQueueElement)
    (hb : v.gpio = some b) (hk : b.klass = some gpio_builtin_class) (hg : b.inst.allocated)
    (hp : (p : Int) < b.inst.num_gpio) (hp16 : p < 65536) (hv : val = 0 ∨ val = 1)
    (hr : v.vq_out.ready = true) (ha : v.vq_out.avail = e1 :: e2 :: e3 :: rest)
    (h1 : 8 ≤ e1.in_sg.length) (h2 : 8 ≤ e2.in_sg.length) (h3 : 8 ≤ e3.in_sg.length) :
    ∃ v1 v2 v3,
      process_record v ⟨3, p, val⟩ = some v1 ∧
      v1.reply_buffer = ⟨3 ||| 0x8000, p, 0⟩ ∧
      v1.vq_out.used = v.vq_out.used ++
        [(⟨e1.out_sg, event_bytes ⟨3 ||| 0x8000, p, 0⟩ ++ e1.in_sg.drop 8⟩, 8)] ∧
      process_record v1 ⟨4, p, x⟩ = some v2 ∧
      v2.reply_buffer = ⟨4 ||| 0x8000, p, 0⟩ ∧
      v2.vq_out.used = v1.vq_out.used ++
        [(⟨e2.out_sg, event_bytes ⟨4 ||| 0x8000, p, 0⟩ ++ e2.in_sg.drop 8⟩, 8)] ∧
      process_record v2 ⟨5, p, y⟩ = some v3 ∧
      v3.reply_buffer = ⟨5 ||| 0x8000, p, val⟩ ∧
      v3.vq_out.used = v2.vq_out.used ++
        [(⟨e3.out_sg, event_bytes ⟨5 ||| 0x8000, p, val⟩ ++ e3.in_sg.drop 8⟩, 8)] := by
  obtain ⟨g1, hdo, hgd, hgv⟩ :=
    direction_output_then_get b.inst p (toInt32 val) hg (by omega) hp
  have hval : toInt32 (val : Int) % 2 = val := by
    rw [toInt32_of_small _ (by omega) (by omega)]; omega
  rw [hval] at hgv
  -- the direction-output record
  have hd1 : do_request v ⟨3, p, val⟩ =
      some (0, { v with gpio := some { b with inst := g1 } }) := by
    rw [do_request_direction_output v b _ hb hk rfl]
    show Option.map _ (gpio_builtin_direction_output b.inst (p : Int) (toInt32 (val : Int))) = _
    rw [hdo]; rfl
  have hp1 := process_record_pushed v _ ⟨3, p, val⟩ 0 e1 (e2 :: e3 :: rest) hd1
    (show (3 : Nat) < 65536 by decide) hp16 hr ha h1
  -- the get-direction record
  have hd2 := do_request_get_direction _ { b with inst := g1 } ⟨4, p, x⟩
    (congrArg VirtIOGPIO.gpio (rfl : ({ ({ v with gpio := some { b with inst := g1 } } :
        VirtIOGPIO GpioBuiltin κ) with
      reply_buffer := ⟨3 ||| VIRTIO_GPIO_EV_REPLY, p, bits32 0⟩
      vq_out :=
        { ready := true
          avail := e2 :: e3 :: rest
          used := v.vq_out.used ++
            [(⟨e1.out_sg, event_bytes ⟨3 ||| VIRTIO_GPIO_EV_REPLY, p, bits32 0⟩ ++
              e1.in_sg.drop 8⟩, 8)]
          signals := v.vq_out.signals + 1 } } : VirtIOGPIO GpioBuiltin κ) = _)) hk rfl
  simp only [hgd, Option.map_some'] at hd2
  have hp2 := process_record_pushed _ _ ⟨4, p, x⟩ _ e2 (e3 :: rest) hd2
    (show (4 : Nat) < 65536 by decide) hp16 rfl rfl h2
  -- the get-value record
  have hd3 := do_request_get_value _ { b with inst := g1 } ⟨5, p, y⟩
    (congrArg VirtIOGPIO.gpio (rfl : ({ ({ v with gpio := some { b with inst := g1 } } :
        VirtIOGPIO GpioBuiltin κ) with
      reply_buffer := ⟨4 ||| VIRTIO_GPIO_EV_REPLY, p, bits32 QEMU_GPIO_DIRECTION_OUTPUT⟩
      vq_out :=
        { ready := true
          avail := e3 :: rest
          used := (v.vq_out.used ++
            [(⟨e1.out_sg, event_bytes ⟨3 ||| VIRTIO_GPIO_EV_REPLY, p, bits32 0⟩ ++
              e1.in_sg.drop 8⟩, 8)]) ++
            [(⟨e2.out_sg, event_bytes
              ⟨4 ||| VIRTIO_GPIO_EV_REPLY, p, bits32 QEMU_GPIO_DIRECTION_OUTPUT⟩ ++
              e2.in_sg.drop 8⟩, 8)]
          signals := v.vq_out.signals + 1 + 1 } } : VirtIOGPIO GpioBuiltin κ) = _)) hk rfl
  simp only [hgv, Option.map_some'] at hd3
  have hp3 := process_record_pushed _ _ ⟨5, p, y⟩ _ e3 rest hd3
    (show (5 : Nat) < 65536 by decide) hp16 rfl rfl h3
  have hbv : bits32 (val : Int) = val := by unfold bits32; omega
  simp only [hbv] at hp3
  exact ⟨_, _, _, hp1, rfl, rfl, hp2, rfl, rfl, hp3, rfl, rfl⟩

/-- C4 for pin 2 and level 1 on a four-line backend. -/
theorem c4_direction_output_on_the_wire_witness :
    ∃ v1 v2 v3,
      process_record four_line_device ⟨3, 2, 1⟩ = some v1 ∧
      v1.reply_buffer = ⟨0x8003, 2, 0⟩ ∧
      v1.vq_out.used = [(⟨[], [3, 128, 2, 0, 0, 0, 0, 0]⟩, 8)] ∧
      process_record v1 ⟨4, 2, 0⟩ = some v2 ∧
      v2.reply_buffer = ⟨0x8004, 2, 0⟩ ∧
      v2.vq_out.used = v1.vq_out.used ++ [(⟨[], [4, 128, 2, 0, 0, 0, 0, 0]⟩, 8)] ∧
      process_record v2 ⟨5, 2, 0⟩ = some v3 ∧
      v3.reply_buffer = ⟨0x8005, 2, 1⟩ ∧
      v3.vq_out.used = v2.vq_out.used ++ [(⟨[], [5, 128, 2, 0, 1, 0, 0, 0]⟩, 8)] :=
  c4_direction_output_on_the_wire four_line_device four_line_backend 2 1 0 0
    reply_slot reply_slot reply_slot [] rfl rfl (by decide) (by decide) (by decide)
    (by decide) rfl rfl (by decide) (by decide) (by decide)

theorem with_backend_some {σ κ : Type} (v v1 : VirtIOGPIO σ κ)
    (r : Option (Int × Option (GpioBackend σ κ))) (ret : Int)
    (h : with_backend v r = some (ret, v1)) : ∃ g, v1 = { v with gpio := g } := by
  unfold with_backend at h
  cases r with
  | none => simp at h
  | some x =>
    simp only [Option.map_some', Option.some.injEq, Prod.mk.injEq] at h
    exact ⟨x.2, h.2.symm⟩

/-- The function `do_request` changes nothing of the device but its backend. -/
theorem do_request_frame {σ κ : Type} (v v1 : VirtIOGPIO σ κ) (rec : virtio_gpio_event)
    (ret : Int) (h : do_request v rec = some (ret, v1)) : ∃ g, v1 = { v with gpio := g } := by
  unfold do_request at h
  split at h
  · exact with_backend_some v v1 _ ret h
  · split at h
    · exact with_backend_some v v1 _ ret h
    · split at h
      · exact with_backend_some v v1 _ ret h
      · split at h
        · exact with_backend_some v v1 _ ret h
        · split at h
          · exact with_backend_some v v1 _ ret h
          · split at h
            · exact with_backend_some v v1 _ ret h
            · simp only [Option.some.injEq, Prod.mk.injEq] at h
              exact ⟨v.gpio, h.2.symm⟩

/-- C5: for every request record with 16-bit `type` and `pin`, `do_request`
returns what the wrapper selected by `type` returns (1 request,
2 direction_input, 3 direction_output with the record's value,
4 get_direction, 5 get_value, 6 set_value with the record's value), and the
reply `virtio_gpio_process` builds for the record has type `type | 0x8000`, the
record's pin, and as value that return code in 32 bits: a negative code `c`
appears as `2 ^ 32 + c`, a non-negative one as itself. -/
theorem c5_reply_carries_return_code {σ κ : Type} (v : VirtIOGPIO σ κ)
    (rec : virtio_gpio_event) (ht : rec.type < 65536) (hp : rec.pin < 65536) :
    (rec.type = 1 → do_request v rec =
      (gpio_backend_request v.gpio rec.pin).map fun x => (x.1, { v with gpio := x.2 })) ∧
    (rec.type = 2 → do_request v rec =
      (gpio_backend_direction_input v.gpio rec.pin).map fun x =>
        (x.1, { v with gpio := x.2 })) ∧
    (rec.type = 3 → do_request v rec =
      (gpio_backend_direction_output v.gpio rec.pin (toInt32 rec.value)).map fun x =>
        (x.1, { v with gpio := x.2 })) ∧
    (rec.type = 4 → do_request v rec =
      (gpio_backend_get_direction v.gpio rec.pin).map fun x =>
        (x.1, { v with gpio := x.2 })) ∧
    (rec.type = 5 → do_request v rec =
      (gpio_backend_get_value v.gpio rec.pin).map fun x => (x.1, { v with gpio := x.2 })) ∧
    (rec.type = 6 → do_request v rec =
      (gpio_backend_set_value v.gpio rec.pin (toInt32 rec.value)).map fun x =>
        (x.1, { v with gpio := x.2 })) ∧
    ∀ (ret : Int) (v1 : VirtIOGPIO σ κ) (e : VirtQueueElement) (rest : List VirtQueueElement),
      do_request v rec = some (ret, v1) →
      v.vq_out.ready = true → v.vq_out.avail = e :: rest → 8 ≤ e.in_sg.length →
      ∃ v', process_record v rec = some v' ∧
        v'.gpio = v1.gpio ∧
        v'.reply_buffer = ⟨rec.type ||| 0x8000, rec.pin, bits32 ret⟩ ∧
        v'.vq_out.avail = rest ∧
        v'.vq_out.used = v.vq_out.used ++
          [(⟨e.out_sg, event_bytes ⟨rec.type ||| 0x8000, rec.pin, bits32 ret⟩ ++
            e.in_sg.drop 8⟩, 8)] ∧
        (-4294967296 ≤ ret → ret < 0 → (bits32 ret : Int) = 4294967296 + ret) ∧
        (0 ≤ ret → ret < 4294967296 → (bits32 ret : Int) = ret) := by
  refine ⟨?_, ?_, ?_, ?_, ?_, ?_, ?_⟩
  · intro h; unfold do_request with_backend; simp [h, VIRTIO_GPIO_EV_GUEST_REQUEST]
  · intro h; unfold do_request with_backend
    simp [h, VIRTIO_GPIO_EV_GUEST_REQUEST, VIRTIO_GPIO_EV_GUEST_DIRECTION_INPUT]
  · intro h; unfold do_request with_backend
    simp [h, VIRTIO_GPIO_EV_GUEST_REQUEST, VIRTIO_GPIO_EV_GUEST_DIRECTION_INPUT,
      VIRTIO_GPIO_EV_GUEST_DIRECTION_OUTPUT]
  · intro h; unfold do_request with_backend
    simp [h, VIRTIO_GPIO_EV_GUEST_REQUEST, VIRTIO_GPIO_EV_GUEST_DIRECTION_INPUT,
      VIRTIO_GPIO_EV_GUEST_DIRECTION_OUTPUT, VIRTIO_GPIO_EV_GUEST_GET_DIRECTION]
  · intro h; unfold do_request with_backend
    simp [h, VIRTIO_GPIO_EV_GUEST_REQUEST, VIRTIO_GPIO_EV_GUEST_DIRECTION_INPUT,
      VIRTIO_GPIO_EV_GUEST_DIRECTION_OUTPUT, VIRTIO_GPIO_EV_GUEST_GET_DIRECTION,
      VIRTIO_GPIO_EV_GUEST_GET_VALUE]
  · intro h; unfold do_request with_backend
    simp [h, VIRTIO_GPIO_EV_GUEST_REQUEST, VIRTIO_GPIO_EV_GUEST_DIRECTION_INPUT,
      VIRTIO_GPIO_EV_GUEST_DIRECTION_OUTPUT, VIRTIO_GPIO_EV_GUEST_GET_DIRECTION,
      VIRTIO_GPIO_EV_GUEST_GET_VALUE, VIRTIO_GPIO_EV_GUEST_SET_VALUE]
  · intro ret v1 e rest hd hr ha hl
    obtain ⟨g, hg⟩ := do_request_frame v v1 rec ret hd
    have hr1 : v1.vq_out.ready = true := by rw [hg]; exact hr
    have ha1 : v1.vq_out.avail = e :: rest := by rw [hg]; exact ha
    have hu1 : v1.vq_out.used = v.vq_out.used := by rw [hg]
    refine ⟨_, process_record_pushed v v1 rec ret e rest hd ht hp hr1 ha1 hl, rfl, rfl, rfl,
      ?_, ?_, ?_⟩
    · rw [← hu1]; rfl
    · intro h1 h2; unfold bits32; omega
    · intro h1 h2; unfold bits32; omega

/-- C5 for a get-value record on pin 7 of a four-line backend, which returns `-ERANGE`. -/
theorem c5_reply_carries_return_code_witness :
    ∃ v', process_record four_line_device ⟨5, 7, 0⟩ = some v' ∧
      v'.gpio = four_line_device.gpio ∧
      v'.reply_buffer = ⟨0x8005, 7, 4294967262⟩ ∧
      v'.vq_out.avail = [reply_slot, reply_slot] ∧
      v'.vq_out.used = [(⟨[], [5, 128, 7, 0, 222, 255, 255, 255]⟩, 8)] ∧
      (-4294967296 ≤ (-34 : Int) → (-34 : Int) < 0 →
        (bits32 (-34) : Int) = 4294967296 + (-34)) ∧
      (0 ≤ (-34 : Int) → (-34 : Int) < 4294967296 → (bits32 (-34) : Int) = (-34)) :=
  (c5_reply_carries_return_code four_line_device ⟨5, 7, 0⟩ (by decide) (by decide)).2.2.2.2.2.2
    (-34) four_line_device reply_slot [reply_slot, reply_slot] rfl rfl rfl (by decide)

/-! ## Replies and the state of the outbound queue -/

/-- C6, counterexample: with an outbound queue that is not ready,
`virtio_gpio_process` takes the inbound buffer with the record `(6, 1, 1)`,
dispatches it (line 1 becomes active, the buffer is returned and signalled)
and pushes no reply. -/
theorem c6_counterexample_reply_dropped :
    ∃ v', virtio_gpio_process unready_out_device = some v' ∧
      v'.vq_in.avail = [] ∧
      v'.vq_in.used = [(⟨[6, 0, 1, 0, 1, 0, 0, 0], []⟩, 8)] ∧
      v'.gpio.map (fun b => b.inst.states) = some [105, 107, 105, 105, 0] ∧
      v'.vq_out.used = [] ∧
      v'.vq_out.used.length ≠ unready_out_device.vq_out.used.length + 1 :=
  ⟨_, rfl, rfl, rfl, rfl, rfl, by decide⟩

/-- The function `virtio_gpio_reply` pushes exactly one buffer when the
outbound queue is ready and offers one. -/
theorem reply_pushes_one {σ κ : Type} (v : VirtIOGPIO σ κ) (t p val : Int)
    (e : VirtQueueElement) (rest : List VirtQueueElement)
    (hr : v.vq_out.ready = true) (ha : v.vq_out.avail = e :: rest) :
    (virtio_gpio_reply v t p val).vq_out.used.length = v.vq_out.used.length + 1 ∧
    (virtio_gpio_reply v t p val).vq_out.avail = rest ∧
    (virtio_gpio_reply v t p val).gpio = v.gpio ∧
    (virtio_gpio_reply v t p val).reply_buffer =
      ⟨(t % 65536).toNat, (p % 65536).toNat, bits32 val⟩ := by
  unfold virtio_gpio_reply virtio_queue_ready virtqueue_pop
  rw [if_neg (by simp [hr])]
  simp only [ha]
  simp [virtio_notify, virtqueue_push]

/-- C6, amended: for every record `do_request` dispatches, exactly one reply
is pushed to the outbound queue when that queue is ready and offers a buffer;
when it is not ready, or offers no buffer, the request is dispatched all the
same and nothing is pushed: the device is left as `do_request` left it. -/
theorem c6_one_reply_when_channel_ready {σ κ : Type} (v v1 : VirtIOGPIO σ κ)
    (rec : virtio_gpio_event) (ret : Int) (hd : do_request v rec = some (ret, v1)) :
    (∀ (e : VirtQueueElement) (rest : List VirtQueueElement),
      v.vq_out.ready = true → v.vq_out.avail = e :: rest →
      ∃ v', process_record v rec = some v' ∧
        v'.vq_out.used.length = v.vq_out.used.length + 1 ∧
        v'.vq_out.avail = rest ∧
        v'.gpio = v1.gpio) ∧
    (v.vq_out.ready = false ∨ v.vq_out.avail = [] →
      process_record v rec = some v1 ∧ v1.vq_out = v.vq_out) := by
  obtain ⟨g, hg⟩ := do_request_frame v v1 rec ret hd
  have hq : v1.vq_out = v.vq_out := by rw [hg]
  constructor
  · intro e rest hr ha
    have h := reply_pushes_one v1 (Int.ofNat (rec.type ||| VIRTIO_GPIO_EV_REPLY))
      (Int.ofNat rec.pin) ret e rest (by rw [hq]; exact hr) (by rw [hq]; exact ha)
    refine ⟨_, ?_, ?_, h.2.1, h.2.2.1⟩
    · unfold process_record; rw [hd]; rfl
    · rw [h.1, hq]
  · intro h
    refine ⟨?_, hq⟩
    unfold process_record
    rw [hd]
    simp only [Option.map_some']
    rw [reply_dropped v1 _ _ _ (by rw [hq]; exact h)]

/-- C6, amended, for a request-line record on a device whose outbound queue is ready. -/
theorem c6_one_reply_when_channel_ready_witness :
    (∀ (e : VirtQueueElement) (rest : List VirtQueueElement),
      four_line_device.vq_out.ready = true → four_line_device.vq_out.avail = e :: rest →
      ∃ v', process_record four_line_device ⟨1, 0, 0⟩ = some v' ∧
        v'.vq_out.used.length = four_line_device.vq_out.used.length + 1 ∧
        v'.vq_out.avail = rest ∧
        v'.gpio = four_line_device.gpio) ∧
    (four_line_device.vq_out.ready = false ∨ four_line_device.vq_out.avail = [] →
      process_record four_line_device ⟨1, 0, 0⟩ = some four_line_device ∧
        four_line_device.vq_out = four_line_device.vq_out) :=
  c6_one_reply_when_channel_ready four_line_device four_line_device ⟨1, 0, 0⟩ 0 rfl

/-! ## Unknown request types -/

/-- C7: for every request record whose type is none of 1..6, on every device
and whatever its backend, `do_request` returns `-EINVAL` and leaves the device,
its backend included, as it is; the record is answered like any other: the
reply passed to `virtio_gpio_reply` is `(type | 0x8000, pin, -EINVAL)`, and an
outbound queue that is ready and offers a buffer receives it. -/
theorem c7_unknown_type_is_answered {σ κ : Type} (v : VirtIOGPIO σ κ)
    (rec : virtio_gpio_event) (ht : ¬ (1 ≤ rec.type ∧ rec.type ≤ 6))
    (ht16 : rec.type < 65536) (hp16 : rec.pin < 65536) :
    do_request v rec = some (-EINVAL, v) ∧
    process_record v rec =
      some (virtio_gpio_reply v (Int.ofNat (rec.type ||| 0x8000)) (Int.ofNat rec.pin)
        (-EINVAL)) ∧
    ∀ (e : VirtQueueElement) (rest : List VirtQueueElement),
      v.vq_out.ready = true → v.vq_out.avail = e :: rest → 8 ≤ e.in_sg.length →
      ∃ v', process_record v rec = some v' ∧
        v'.gpio = v.gpio ∧
        v'.reply_buffer = ⟨rec.type ||| 0x8000, rec.pin, bits32 (-EINVAL)⟩ ∧
        v'.vq_out.avail = rest ∧
        v'.vq_out.used = v.vq_out.used ++
          [(⟨e.out_sg, event_bytes ⟨rec.type ||| 0x8000, rec.pin, bits32 (-EINVAL)⟩ ++
            e.in_sg.drop 8⟩, 8)] := by
  have hd : do_request v rec = some (-EINVAL, v) := by
    unfold do_request
    simp only [VIRTIO_GPIO_EV_GUEST_REQUEST, VIRTIO_GPIO_EV_GUEST_DIRECTION_INPUT,
      VIRTIO_GPIO_EV_GUEST_DIRECTION_OUTPUT, VIRTIO_GPIO_EV_GUEST_GET_DIRECTION,
      VIRTIO_GPIO_EV_GUEST_GET_VALUE, VIRTIO_GPIO_EV_GUEST_SET_VALUE]
    rw [if_neg (by omega), if_neg (by omega), if_neg (by omega), if_neg (by omega),
      if_neg (by omega), if_neg (by omega)]
  refine ⟨hd, ?_, ?_⟩
  · unfold process_record; rw [hd]; rfl
  · intro e rest hr ha hl
    exact ⟨_, process_record_pushed v v rec _ e rest hd ht16 hp16 hr ha hl, rfl, rfl, rfl, rfl⟩

/-- C7 for a record whose type `0x8005` carries the reply bit. -/
theorem c7_unknown_type_is_answered_witness :
    ∃ v', process_record four_line_device ⟨0x8005, 1, 0⟩ = some v' ∧
      v'.gpio = four_line_device.gpio ∧
      v'.reply_buffer = ⟨0x8005, 1, 4294967274⟩ ∧
      v'.vq_out.avail = [reply_slot, reply_slot] ∧
      v'.vq_out.used = [(⟨[], [5, 128, 1, 0, 234, 255, 255, 255]⟩, 8)] :=
  (c7_unknown_type_is_answered four_line_device ⟨0x8005, 1, 0⟩ (by decide) (by decide)
    (by decide)).2.2 reply_slot [reply_slot, reply_slot] rfl rfl (by decide)

/-! ## Lemmas: the config blob -/

theorem toInt32_spec (x : Int) :
    (toInt32 x - x) % 4294967296 = 0 ∧ -2147483648 ≤ toInt32 x ∧ toInt32 x < 2147483648 := by
  unfold toInt32
  split <;> omega

theorem store_bytes_some (mem : List Nat) (off : Nat) (bs : List Nat)
    (h : off + bs.length ≤ mem.length) :
    store_bytes mem off bs = some (mem.take off ++ bs ++ mem.drop (off + bs.length)) := by
  unfold store_bytes
  rw [if_pos h]

/-- A store over the middle part of a buffer. -/
theorem store_bytes_append (A old new Z : List Nat) (h : old.length = new.length) :
    store_bytes (A ++ old ++ Z) A.length new = some (A ++ new ++ Z) := by
  rw [store_bytes_some _ _ _ (by simp only [List.length_append]; omega)]
  congr 2
  · congr 1
    rw [List.append_assoc, List.take_left']
    rfl
  · rw [← h, List.append_assoc, ← List.length_append, ← List.append_assoc, List.drop_left']
    rfl

theorem packed_size_ge_length (t : List (Option (List Nat))) : t.length ≤ packed_size t := by
  induction t with
  | nil => exact Nat.le_refl _
  | cons e t ih =>
    cases e with
    | none => simp only [packed_size, List.length_cons]; omega
    | some s => simp only [packed_size, List.length_cons]; omega

theorem name_entry_bytes_length (e : Option (List Nat)) :
    (name_entry_bytes e).length = packed_size [e] := by
  cases e with
  | none => rfl
  | some s => simp [name_entry_bytes, packed_size, strlen]

theorem packed_size_cons (e : Option (List Nat)) (t : List (Option (List Nat))) :
    packed_size (e :: t) = packed_size [e] + packed_size t := by
  cases e with
  | none => simp [packed_size]
  | some s => simp [packed_size]

theorem drop_take_succ (t : List (Option (List Nat))) (x n : Nat) (e : Option (List Nat))
    (h : t.get? x = some e) :
    (t.drop x).take (n + 1) = e :: (t.drop (x + 1)).take n := by
  have hx : x < t.length := by
    rcases Nat.lt_or_ge x t.length with hlt | hge
    · exact hlt
    · rw [List.get?_eq_none.mpr hge] at h; exact Option.noConfusion h
  have he : t[x] = e := by
    rw [List.get?_eq_getElem?, List.getElem?_eq_getElem hx] at h
    exact Option.some.inj h
  rw [List.drop_eq_getElem_cons hx, List.take_succ_cons, he]

/-- One round of the name-copy loop. -/
theorem copy_names_succ (t : List (Option (List Nat))) (n x : Nat) (buf : List Nat)
    (bufptr : Nat) (e : Option (List Nat)) (h : t.get? x = some e) :
    copy_names (some t) (n + 1) x buf bufptr =
      (store_bytes buf bufptr (name_entry_bytes e)).bind fun b =>
        copy_names (some t) n (x + 1) b (bufptr + packed_size [e]) := by
  cases e with
  | none => simp only [copy_names, h, name_entry_bytes, packed_size]
  | some s => simp only [copy_names, h, name_entry_bytes, packed_size, Nat.add_zero]

/-- The name-copy loop, when the table has the entries it reads and the buffer
the room it writes. -/
theorem copy_names_append (t : List (Option (List Nat))) :
    ∀ (n x : Nat) (A Z : List Nat), x + n ≤ t.length →
      packed_size ((t.drop x).take n) ≤ Z.length →
      copy_names (some t) n x (A ++ Z) A.length =
        some (A ++ packed_names ((t.drop x).take n) ++
          Z.drop (packed_size ((t.drop x).take n)),
          A.length + packed_size ((t.drop x).take n)) := by
  intro n
  induction n with
  | zero =>
    intro x A Z _ _
    simp [copy_names, packed_names, packed_size]
  | succ n ih =>
    intro x A Z hx hz
    have hlt : x < t.length := by omega
    have hget : t.get? x = some t[x] := by
      rw [List.get?_eq_getElem?, List.getElem?_eq_getElem hlt]
    have hseg := drop_take_succ t x n t[x] hget
    rw [hseg] at hz ⊢
    rw [packed_size_cons] at hz ⊢
    rw [copy_names_succ t n x _ _ _ hget]
    have hlen := name_entry_bytes_length t[x]
    have hst : store_bytes (A ++ Z) A.length (name_entry_bytes t[x]) =
        some (A ++ name_entry_bytes t[x] ++ Z.drop (packed_size [t[x]])) := by
      have hsplit : A ++ Z = A ++ Z.take (packed_size [t[x]]) ++ Z.drop (packed_size [t[x]]) := by
        rw [List.append_assoc, List.take_append_drop]
      rw [hsplit]
      exact store_bytes_append A _ _ _ (by rw [List.length_take, hlen]; omega)
    rw [hst]
    simp only [Option.some_bind]
    have hA : A.length + packed_size [t[x]] = (A ++ name_entry_bytes t[x]).length := by
      rw [List.length_append, hlen]
    rw [hA, ih (x + 1) (A ++ name_entry_bytes t[x]) (Z.drop (packed_size [t[x]]))
      (by omega) (by rw [List.length_drop]; omega)]
    refine congrArg some (Prod.ext ?_ ?_)
    · simp only [packed_names, List.append_assoc, List.drop_drop]
    · simp only [List.length_append, hlen]
      omega

theorem str_array_size_loop_succ (t : List (Option (List Nat))) (n x : Nat) (ret : Int)
    (e : Option (List Nat)) (h : t.get? x = some e) :
    str_array_size_loop t (n + 1) x ret =
      str_array_size_loop t n (x + 1) (toInt32 (ret + (packed_size [e] : Nat))) := by
  cases e with
  | none => simp only [str_array_size_loop, h, packed_size]; rfl
  | some s =>
    simp only [str_array_size_loop, h, packed_size, Nat.add_zero]
    congr 2

/-- The loop of `str_array_size` over entries the table has: its result is
the sum of the entry sizes modulo `2 ^ 32`, as an `int`. -/
theorem str_array_size_loop_eq (t : List (Option (List Nat))) :
    ∀ (n x : Nat) (ret : Int), x + n ≤ t.length →
      -2147483648 ≤ ret → ret < 2147483648 →
      ∃ r, str_array_size_loop t n x ret = some r ∧
        (r - (ret + (packed_size ((t.drop x).take n) : Nat))) % 4294967296 = 0 ∧
        -2147483648 ≤ r ∧ r < 2147483648 := by
  intro n
  induction n with
  | zero =>
    intro x ret _ h1 h2
    refine ⟨ret, rfl, ?_, h1, h2⟩
    simp [packed_size]
  | succ n ih =>
    intro x ret hx _ _
    have hlt : x < t.length := by omega
    have hget : t.get? x = some t[x] := by
      rw [List.get?_eq_getElem?, List.getElem?_eq_getElem hlt]
    rw [str_array_size_loop_succ t n x ret _ hget, drop_take_succ t x n _ hget,
      packed_size_cons t[x] ((t.drop (x + 1)).take n)]
    have hs := toInt32_spec (ret + (packed_size [t[x]] : Nat))
    obtain ⟨r, hr, hc, hlo, hhi⟩ := ih (x + 1) (toInt32 (ret + (packed_size [t[x]] : Nat)))
      (by omega) hs.2.1 hs.2.2
    refine ⟨r, hr, ?_, hlo, hhi⟩
    push_cast
    omega

theorem str_array_size_loop_inv (t : List (Option (List Nat))) :
    ∀ (n x : Nat) (ret r : Int), x ≤ t.length →
      str_array_size_loop t n x ret = some r → x + n ≤ t.length := by
  intro n
  induction n with
  | zero => intro x ret r hx _; exact hx
  | succ n ih =>
    intro x ret r _ h
    cases hg : t.get? x with
    | none =>
      simp only [str_array_size_loop, hg] at h
      exact Option.noConfusion h
    | some e =>
      have hlt : x < t.length := by
        rcases Nat.lt_or_ge x t.length with hlt | hge
        · exact hlt
        · rw [List.get?_eq_none.mpr hge] at hg; exact Option.noConfusion hg
      rw [str_array_size_loop_succ t n x ret e hg] at h
      have := ih (x + 1) _ r (by omega) h
      omega

theorem zeros_add (a b : Nat) :
    List.replicate (a + b) 0 = List.replicate a 0 ++ List.replicate b 0 :=
  List.replicate_add a b 0

theorem strncpy_field (nm : List Nat) :
    (strncpy_bytes nm 32).take 31 ++ [0] =
      (cstr nm).take 31 ++ List.replicate (32 - ((cstr nm).take 31).length) 0 := by
  unfold strncpy_bytes
  rcases Nat.lt_or_ge (cstr nm).length 32 with h | h
  · have h32 : (cstr nm).take 32 = cstr nm := List.take_of_length_le (by omega)
    have h31 : (cstr nm).take 31 = cstr nm := List.take_of_length_le (by omega)
    rw [h32, h31, List.take_append_eq_append_take, List.take_of_length_le (by omega),
      List.take_replicate]
    have e1 : min (31 - (cstr nm).length) (32 - (cstr nm).length) = 31 - (cstr nm).length := by
      omega
    have e2 : 32 - (cstr nm).length = (31 - (cstr nm).length) + 1 := by omega
    rw [e1, e2, List.replicate_succ', List.append_assoc]
  · have hl32 : ((cstr nm).take 32).length = 32 := by rw [List.length_take]; omega
    have hl31 : ((cstr nm).take 31).length = 31 := by rw [List.length_take]; omega
    rw [hl32, hl31]
    simp only [Nat.sub_self, List.replicate_zero, List.append_nil, List.take_take]
    rfl

theorem strncpy_bytes_length (nm : List Nat) (n : Nat) : (strncpy_bytes nm n).length = n := by
  unfold strncpy_bytes
  simp only [List.length_append, List.length_replicate, List.length_take]
  omega

/-- The stores to the header fields, on a zeroed buffer of at least 64
bytes. -/
theorem fill_config_zeros (m num_gpios : Nat) (nbuf_len : Int) (nm : List Nat) :
    fill_config (List.replicate (64 + m) 0) num_gpios nbuf_len (some nm) =
      some (config_header (num_gpios % 65536) (bits32 nbuf_len) nm ++ List.replicate m 0) := by
  have s1 : store_bytes (List.replicate 64 0 ++ List.replicate m 0) 0 [1] =
      some ([] ++ [1] ++ (List.replicate 63 0 ++ List.replicate m 0)) :=
    store_bytes_append [] [0] [1] (List.replicate 63 0 ++ List.replicate m 0) rfl
  have s2 : store_bytes ([] ++ [1] ++ (List.replicate 63 0 ++ List.replicate m 0)) 2
        (le16 (num_gpios % 65536)) =
      some ([1, 0] ++ le16 (num_gpios % 65536) ++
        (List.replicate 60 0 ++ List.replicate m 0)) :=
    store_bytes_append [1, 0] [0, 0] (le16 (num_gpios % 65536))
      (List.replicate 60 0 ++ List.replicate m 0) rfl
  have s3 : store_bytes ([1, 0] ++ le16 (num_gpios % 65536) ++
        (List.replicate 60 0 ++ List.replicate m 0)) 4 (le32 (bits32 nbuf_len)) =
      some ([1, 0] ++ le16 (num_gpios % 65536) ++ le32 (bits32 nbuf_len) ++
        (List.replicate 56 0 ++ List.replicate m 0)) :=
    store_bytes_append ([1, 0] ++ le16 (num_gpios % 65536)) [0, 0, 0, 0]
      (le32 (bits32 nbuf_len)) (List.replicate 56 0 ++ List.replicate m 0) rfl
  have s4 : store_bytes ([1, 0] ++ le16 (num_gpios % 65536) ++ le32 (bits32 nbuf_len) ++
        (List.replicate 56 0 ++ List.replicate m 0)) 32 (strncpy_bytes nm 32) =
      some ([1, 0] ++ le16 (num_gpios % 65536) ++ le32 (bits32 nbuf_len) ++
        List.replicate 24 0 ++ strncpy_bytes nm 32 ++ List.replicate m 0) :=
    store_bytes_append
      ([1, 0] ++ le16 (num_gpios % 65536) ++ le32 (bits32 nbuf_len) ++ List.replicate 24 0)
      (List.replicate 32 0) (strncpy_bytes nm 32) (List.replicate m 0)
      (by rw [strncpy_bytes_length]; rfl)
  have hlen : ([1, 0] ++ le16 (num_gpios % 65536) ++ le32 (bits32 nbuf_len) ++
      List.replicate 24 0 ++ (strncpy_bytes nm 32).take 31).length = 32 + 31 := by
    simp only [List.length_append, List.length_take, strncpy_bytes_length, le16, le32,
      List.length_cons, List.length_nil, List.length_replicate]
    omega
  have s5 : store_bytes ([1, 0] ++ le16 (num_gpios % 65536) ++ le32 (bits32 nbuf_len) ++
        List.replicate 24 0 ++ strncpy_bytes nm 32 ++ List.replicate m 0) (32 + 31) [0] =
      some (config_header (num_gpios % 65536) (bits32 nbuf_len) nm ++ List.replicate m 0) := by
    have h := store_bytes_append
      ([1, 0] ++ le16 (num_gpios % 65536) ++ le32 (bits32 nbuf_len) ++
        List.replicate 24 0 ++ (strncpy_bytes nm 32).take 31)
      ((strncpy_bytes nm 32).drop 31) [0] (List.replicate m 0)
      (by rw [List.length_drop, strncpy_bytes_length]; rfl)
    rw [hlen] at h
    have e1 : [1, 0] ++ le16 (num_gpios % 65536) ++ le32 (bits32 nbuf_len) ++
        List.replicate 24 0 ++ (strncpy_bytes nm 32).take 31 ++ (strncpy_bytes nm 32).drop 31 =
        [1, 0] ++ le16 (num_gpios % 65536) ++ le32 (bits32 nbuf_len) ++
        List.replicate 24 0 ++ strncpy_bytes nm 32 := by
      rw [List.append_assoc _ ((strncpy_bytes nm 32).take 31), List.take_append_drop]
    have e2 : [1, 0] ++ le16 (num_gpios % 65536) ++ le32 (bits32 nbuf_len) ++
        List.replicate 24 0 ++ (strncpy_bytes nm 32).take 31 ++ [0] =
        config_header (num_gpios % 65536) (bits32 nbuf_len) nm := by
      unfold config_header
      rw [List.append_assoc _ ((strncpy_bytes nm 32).take 31), strncpy_field,
        ← List.append_assoc]
    rw [e1, e2] at h
    exact h
  have hbuf : List.replicate (64 + m) 0 = List.replicate 64 0 ++ List.replicate m 0 :=
    zeros_add 64 m
  unfold fill_config
  rw [hbuf, s1]
  simp only [Option.some_bind]
  rw [s2]
  simp only [Option.some_bind]
  rw [s3]
  simp only [Option.some_bind]
  rw [s4]
  simp only [Option.some_bind]
  exact s5

theorem config_header_length (n s : Nat) (nm : List Nat) :
    (config_header n s nm).length = 64 := by
  unfold config_header
  simp only [List.length_append, List.length_take, le16, le32, List.length_cons,
    List.length_nil, List.length_replicate]
  omega

theorem str_array_size_table_ok (t : List (Option (List Nat))) (k : Nat)
    (hk : k ≤ t.length) (hs : packed_size (t.take k) < 2147483648) (hk31 : k < 2147483648) :
    str_array_size t (toInt32 k) = some ((packed_size (t.take k) : Nat) : Int) := by
  unfold str_array_size
  rw [toInt32_of_small _ (by omega) (by omega)]
  simp only [Int.toNat_ofNat]
  obtain ⟨r', hr', hc, hlo, hhi⟩ := str_array_size_loop_eq t k 0 0 (by omega) (by omega)
    (by omega)
  simp only [List.drop_zero, zero_add] at hc
  rw [hr']
  congr 1
  omega

theorem bits32_of_nat (x : Nat) (h : x < 4294967296) : bits32 (x : Int) = x := by
  unfold bits32
  omega

theorem count_buffer_space_ok {σ κ : Type} (v : VirtIOGPIO σ κ)
    (hk : v.gpio_names_len ≤ v.num_gpios)
    (htab : match v.gpio_names with
      | none => v.gpio_names_len = 0
      | some t => v.gpio_names_len ≤ t.length)
    (hsz : 64 + name_region_size v < 2147483648) :
    count_buffer_space v = some ((name_region_size v : Nat) : Int) := by
  have hT : name_region_size v =
      packed_size (name_table v) + (v.num_gpios - v.gpio_names_len) := rfl
  unfold count_buffer_space
  cases hn : v.gpio_names with
  | none =>
    rw [hn] at htab
    simp only at htab
    have : name_table v = [] := by unfold name_table; rw [hn]
    rw [hT, this] at hsz ⊢
    simp only [packed_size, htab, Nat.sub_zero, zero_add] at hsz ⊢
    rw [toInt32_of_small _ (by omega) (by omega)]
  | some t =>
    rw [hn] at htab
    simp only at htab
    have htb : name_table v = t.take v.gpio_names_len := by unfold name_table; rw [hn]
    rw [hT, htb] at hsz ⊢
    have hge := packed_size_ge_length (t.take v.gpio_names_len)
    rw [List.length_take, Nat.min_eq_left htab] at hge
    simp only
    rw [str_array_size_table_ok t _ htab (by omega) (by omega)]
    simp only [Option.map_some']
    congr 1
    have hspec := toInt32_spec ((packed_size (t.take v.gpio_names_len) : Nat) +
      ((v.num_gpios : Int) - (v.gpio_names_len : Int)) % 4294967296)
    push_cast
    omega

theorem calloc_ok (n : Nat) : calloc (n : Int) = some (List.replicate n 0) := by
  unfold calloc
  rw [if_pos (by omega)]
  simp only [Int.toNat_ofNat]

theorem config_len_ok (T : Nat) (h : 64 + T < 2147483648) :
    toInt32 ((sizeof_virtio_gpio_config : Int) + (T : Int)) = ((64 + T : Nat) : Int) := by
  have e : (sizeof_virtio_gpio_config : Int) + (T : Int) = ((64 + T : Nat) : Int) := by
    unfold sizeof_virtio_gpio_config
    push_cast
    rfl
  rw [e, toInt32_of_small _ (by omega) (by omega)]

/-- Lines 269-299 on a device with a name, a table that has the entries its
length announces, and a blob of less than `2 ^ 31` bytes. -/
theorem build_config_ok {σ κ : Type} (v : VirtIOGPIO σ κ) (nm : List Nat)
    (hname : v.name = some nm) (hk : v.gpio_names_len ≤ v.num_gpios)
    (htab : match v.gpio_names with
      | none => v.gpio_names_len = 0
      | some t => v.gpio_names_len ≤ t.length)
    (hsz : 64 + name_region_size v < 2147483648) :
    build_config v = some
      { nbuf_len := (name_region_size v : Nat)
        config_len := ((64 + name_region_size v : Nat) : Int)
        header_filled := config_header (v.num_gpios % 65536) (name_region_size v) nm ++
          List.replicate (name_region_size v) 0
        config_buf := config_header (v.num_gpios % 65536) (name_region_size v) nm ++
          packed_names (name_table v) ++
          List.replicate (v.num_gpios - v.gpio_names_len) 0
        bufptr := 64 + packed_size (name_table v) } := by
  have hT : name_region_size v =
      packed_size (name_table v) + (v.num_gpios - v.gpio_names_len) := rfl
  unfold build_config
  rw [count_buffer_space_ok v hk htab hsz, Option.some_bind, config_len_ok _ hsz, calloc_ok,
    Option.some_bind, hname, fill_config_zeros, bits32_of_nat _ (by omega), Option.some_bind]
  have h64 : sizeof_virtio_gpio_config =
      (config_header (v.num_gpios % 65536) (name_region_size v) nm).length := by
    rw [config_header_length]; rfl
  cases hn : v.gpio_names with
  | none =>
    rw [hn] at htab
    simp only at htab
    have htb : name_table v = [] := by unfold name_table; rw [hn]
    rw [htab]
    simp only [copy_names, Option.map_some', hT, htb, packed_size, packed_names,
      List.append_nil, Nat.add_zero, zero_add, htab, Nat.sub_zero, sizeof_virtio_gpio_config]
  | some t =>
    rw [hn] at htab
    simp only at htab
    have htb : name_table v = t.take v.gpio_names_len := by unfold name_table; rw [hn]
    rw [h64, copy_names_append t v.gpio_names_len 0 _ _ (by omega)
      (by rw [List.length_replicate, List.drop_zero, hT, htb]; omega)]
    simp only [Option.map_some', List.drop_zero, config_header_length, htb,
      List.drop_replicate, hT, Nat.add_sub_cancel_left]

theorem config_header_num_gpios (n s : Nat) (nm X : List Nat) :
    ((config_header n s nm ++ X).drop 2).take 2 = le16 n := rfl

theorem named_device_realize :
    virtio_gpio_device_realize named_device none idle_notify () =
      some (none, named_device_realized) := rfl

/-! ## The config blob -/

/-- The function `virtio_gpio_device_realize` on a device that has a backend,
a line count of its own, a name, a table with the entries its length
announces, and a blob of less than `2 ^ 31` bytes: it succeeds. -/
theorem realize_ok {σ κ : Type} (v : VirtIOGPIO σ κ) (b : GpioBackend σ κ) (nm : List Nat)
    (created : Option (GpioBackend σ κ)) (notify : gpio_backend_notify_t κ) (consumer : κ)
    (hg : v.gpio = some b) (h1 : 1 ≤ v.num_gpios) (hk : v.gpio_names_len ≤ v.num_gpios)
    (hname : v.name = some nm)
    (htab : match v.gpio_names with
      | none => v.gpio_names_len = 0
      | some t => v.gpio_names_len ≤ t.length)
    (hsz : 64 + name_region_size v < 2147483648) :
    virtio_gpio_device_realize v created notify consumer =
      some (none,
        { v with
          config_len := ((64 + name_region_size v : Nat) : Int)
          config_buf := some (config_header (v.num_gpios % 65536) (name_region_size v) nm ++
            packed_names (name_table v) ++
            List.replicate (v.num_gpios - v.gpio_names_len) 0)
          reply_buffer := { type := 0, pin := 0, value := 0 }
          gpio := some { b with notify_proc := some notify, notify_consumer := some consumer }
          vq_out := virtio_add_queue
          vq_in := virtio_add_queue }) := by
  have h0 : virtio_gpio_default_backend v created = v := by
    unfold virtio_gpio_default_backend
    rw [if_pos (by rw [hg]; rfl)]
  have hr : resolve_num_gpios v = some v := by
    unfold resolve_num_gpios
    have hn : ¬ v.num_gpios < 1 := by omega
    simp only [hn, false_and, if_false]
  unfold virtio_gpio_device_realize
  simp only
  rw [h0, if_neg (by rw [hg]; simp), hr, Option.some_bind, if_neg (by omega),
    if_neg (by omega), build_config_ok v nm hname hk htab hsz, Option.map_some']
  simp only [hg, gpio_backend_set_notify]

/-- C10, the code at the failing input: realizing a device with
`num-gpios=65536` succeeds with a resolved line count of 65536 and a name
region of 65536 empty strings, while bytes 2-3 of the blob, the 16-bit field
`num_gpios`, hold 0. -/
theorem c10_line_count_field_truncated :
    ∃ v' blob, virtio_gpio_device_realize wide_device none idle_notify () = some (none, v') ∧
      v'.num_gpios = 65536 ∧
      v'.config_buf = some blob ∧
      (blob.drop 2).take 2 = le16 0 ∧
      blob.drop 64 = List.replicate 65536 0 := by
  refine ⟨_, _, realize_ok wide_device four_line_backend [103, 112, 105, 111] none idle_notify ()
    rfl (by decide) (by decide) rfl rfl (by decide), rfl, rfl, ?_, ?_⟩
  · rw [List.append_assoc, config_header_num_gpios]
    rfl
  · rw [List.append_assoc, ← config_header_length (wide_device.num_gpios % 65536)
      (name_region_size wide_device) [103, 112, 105, 111], List.drop_left']
    · rfl
    · rfl

/-- C9, the code at the failing input: realizing a device with
`num-gpios=65537`, the name `gpio` and the name table (`ab`, absent) succeeds
with a line count of 65537; the blob is version 1, a zero byte, the line
count field, `names_size` 65539, 24 zero bytes, the name field and the name
region, and bytes 2-3 hold 1, 0 (the value 1), not the line count. -/
theorem c9_blob_line_count_bytes_wrap :
    ∃ v', virtio_gpio_device_realize wide_named_device none idle_notify () = some (none, v') ∧
      v'.num_gpios = 65537 ∧
      v'.config_buf = some
        ([1, 0] ++ [1, 0] ++ [3, 0, 1, 0] ++ List.replicate 24 0 ++
          ([103, 112, 105, 111] ++ List.replicate 28 0) ++
          ([97, 98, 0] ++ [0] ++ List.replicate 65535 0)) := by
  refine ⟨_, realize_ok wide_named_device four_line_backend [103, 112, 105, 111] none
    idle_notify () rfl (by decide) (by decide) rfl
    (show (2 : Nat) ≤ [some [97, 98], none].length by decide) (by decide), rfl, ?_⟩
  show some (config_header (65537 % 65536) (name_region_size wide_named_device)
    [103, 112, 105, 111] ++ packed_names (name_table wide_named_device) ++
    List.replicate (65537 - 2) 0) = _
  have e1 : name_region_size wide_named_device = 65539 := by decide
  have e2 : packed_names (name_table wide_named_device) = [97, 98, 0, 0] := by decide
  have e3 : config_header (65537 % 65536) 65539 [103, 112, 105, 111] =
      [1, 0] ++ [1, 0] ++ [3, 0, 1, 0] ++ List.replicate 24 0 ++
        ([103, 112, 105, 111] ++ List.replicate 28 0) := by decide
  rw [e1, e2, e3]
  simp only [List.append_assoc, List.cons_append, List.nil_append]

/-! ## The line count -/

theorem instance_init_byte (n : Nat) (h : n < 256)
    (hl : n < gpio_builtin_instance_init.states.length) :
    gpio_builtin_instance_init.states.get ⟨n, hl⟩ = 105 := by
  unfold gpio_builtin_instance_init
  simp only [List.get_eq_getElem]
  have h256 : MAX_GPIO.toNat = 256 := rfl
  rw [List.getElem_append_left (by rw [List.length_replicate, h256]; exact h)]
  exact List.getElem_replicate _ _

/-- C12: the state `gpio_builtin_instance_init` builds has `num_gpio` 256, and
for every pin in `[0, 256)` `gpio_builtin_get_direction` returns
`QEMU_GPIO_DIRECTION_INPUT` and `gpio_builtin_get_value` returns
`QEMU_GPIO_LINE_INACTIVE`. -/
theorem c12_initial_lines_are_inactive_inputs (pin : Int) (h0 : 0 ≤ pin) (h1 : pin < 256) :
    gpio_builtin_instance_init.num_gpio = 256 ∧
    gpio_builtin_get_direction gpio_builtin_instance_init pin =
      some (QEMU_GPIO_DIRECTION_INPUT, gpio_builtin_instance_init) ∧
    gpio_builtin_get_value gpio_builtin_instance_init pin =
      some (QEMU_GPIO_LINE_INACTIVE, gpio_builtin_instance_init) := by
  have hn : gpio_builtin_instance_init.num_gpio = 256 := rfl
  have hlen : gpio_builtin_instance_init.states.length = 257 := by
    unfold gpio_builtin_instance_init
    simp only [List.length_append, List.length_replicate, List.length_singleton]
    rfl
  have hl : pin.toNat < gpio_builtin_instance_init.states.length := by rw [hlen]; omega
  have hb := instance_init_byte pin.toNat (by omega) hl
  refine ⟨hn, ?_, ?_⟩
  · rw [get_direction_eq _ pin h0 (by rw [hn]; exact h1) hl, hb]
    rfl
  · rw [get_value_eq _ pin h0 (by rw [hn]; exact h1) hl, hb]
    rfl

/-- C12 for pin 255, the last line. -/
theorem c12_initial_lines_are_inactive_inputs_witness :
    gpio_builtin_instance_init.num_gpio = 256 ∧
    gpio_builtin_get_direction gpio_builtin_instance_init 255 =
      some (QEMU_GPIO_DIRECTION_INPUT, gpio_builtin_instance_init) ∧
    gpio_builtin_get_value gpio_builtin_instance_init 255 =
      some (QEMU_GPIO_LINE_INACTIVE, gpio_builtin_instance_init) :=
  c12_initial_lines_are_inactive_inputs 255 (by decide) (by decide)

/-! ## Notifications -/

theorem level_type_field :
    ((Int.ofNat VIRTIO_GPIO_EV_HOST_LEVEL) % 65536).toNat = VIRTIO_GPIO_EV_HOST_LEVEL := by
  decide

/-- A level notification on a device whose outbound queue is ready and offers
a buffer of eight writable bytes. -/
theorem notify_level_pushed {σ κ : Type} (v : VirtIOGPIO σ κ) (pin value : Int)
    (e : VirtQueueElement) (rest : List VirtQueueElement)
    (hr : v.vq_out.ready = true) (ha : v.vq_out.avail = e :: rest)
    (hl : 8 ≤ e.in_sg.length) :
    (virtio_gpio_notify v pin GPIO_EVENT_LEVEL value).2 =
      { v with
        reply_buffer := ⟨VIRTIO_GPIO_EV_HOST_LEVEL, (pin % 65536).toNat, bits32 value⟩
        vq_out :=
          { ready := true
            avail := rest
            used := v.vq_out.used ++
              [(⟨e.out_sg,
                event_bytes ⟨VIRTIO_GPIO_EV_HOST_LEVEL, (pin % 65536).toNat, bits32 value⟩ ++
                  e.in_sg.drop 8⟩, 8)]
            signals := v.vq_out.signals + 1 } } := by
  have h := reply_pushed v (Int.ofNat VIRTIO_GPIO_EV_HOST_LEVEL) pin value e rest hr ha hl
  rw [level_type_field] at h
  exact h

/-- C13: for every pin, value and event `virtio_gpio_notify` returns 0.  For
`GPIO_EVENT_LEVEL` with the outbound queue ready and offering a buffer it
pushes exactly one event `(0x11, pin, value)` (pin and value in the width of
their fields); for `GPIO_EVENT_INPUT` and `GPIO_EVENT_OUTPUT` it leaves the
device as it is; and with the outbound queue not ready the level notification
leaves the device as it is: nothing is pushed and nothing is kept. -/
theorem c13_notify_forwards_level_only {σ κ : Type} (v : VirtIOGPIO σ κ) (pin value : Int) :
    (∀ event : Int, (virtio_gpio_notify v pin event value).1 = 0) ∧
    (∀ (e : VirtQueueElement) (rest : List VirtQueueElement),
      v.vq_out.ready = true → v.vq_out.avail = e :: rest → 8 ≤ e.in_sg.length →
      (virtio_gpio_notify v pin GPIO_EVENT_LEVEL value).2 =
        { v with
          reply_buffer := ⟨VIRTIO_GPIO_EV_HOST_LEVEL, (pin % 65536).toNat, bits32 value⟩
          vq_out :=
            { ready := true
              avail := rest
              used := v.vq_out.used ++
                [(⟨e.out_sg,
                  event_bytes ⟨VIRTIO_GPIO_EV_HOST_LEVEL, (pin % 65536).toNat, bits32 value⟩ ++
                    e.in_sg.drop 8⟩, 8)]
              signals := v.vq_out.signals + 1 } }) ∧
    (0 ≤ pin → pin < 65536 → ((pin % 65536).toNat : Int) = pin) ∧
    (0 ≤ value → value < 4294967296 → (bits32 value : Int) = value) ∧
    (virtio_gpio_notify v pin GPIO_EVENT_INPUT value).2 = v ∧
    (virtio_gpio_notify v pin GPIO_EVENT_OUTPUT value).2 = v ∧
    (v.vq_out.ready = false → (virtio_gpio_notify v pin GPIO_EVENT_LEVEL value).2 = v) := by
  refine ⟨?_, ?_, ?_, ?_, rfl, rfl, ?_⟩
  · intro event
    unfold virtio_gpio_notify
    split
    · rfl
    · split
      · rfl
      · split <;> rfl
  · intro e rest hr ha hl
    exact notify_level_pushed v pin value e rest hr ha hl
  · intro h0 h1; omega
  · intro h0 h1; unfold bits32; omega
  · intro hr
    exact reply_dropped v _ pin value (Or.inl hr)

/-- C13 on `four_line_device` for pin 3 and value 1. -/
theorem c13_notify_forwards_level_only_witness :
    (virtio_gpio_notify four_line_device 3 GPIO_EVENT_LEVEL 1).2 =
      { four_line_device with
        reply_buffer := ⟨0x11, 3, 1⟩
        vq_out :=
          { ready := true
            avail := [reply_slot, reply_slot]
            used := [(⟨[], [17, 0, 3, 0, 1, 0, 0, 0]⟩, 8)]
            signals := 1 } } :=
  (c13_notify_forwards_level_only four_line_device 3 1).2.1 reply_slot [reply_slot, reply_slot]
    rfl rfl (by decide)

/-- C14: `gpio_backend_set_notify` returns 0 on every backend object and
`-EFAULT` on a `NULL` handle, and replaces the stored callback and consumer;
so after `set_notify(p1, c1); set_notify(p2, c2)` a
`gpio_backend_send_notify(pin, event, value)` is the one call
`p2(c2, pin, event, value)`: it returns the result of that call and leaves the
consumer `c2` as that call leaves it, with `p1` and `c1` gone from the backend.
With no callback stored `send_notify` returns 0 and changes nothing. -/
theorem c14_single_notification_link {σ κ : Type} (b : GpioBackend σ κ)
    (p1 p2 : gpio_backend_notify_t κ) (c1 c2 : κ) (pin event value : Int) :
    (∀ (proc : Option (gpio_backend_notify_t κ)) (consumer : Option κ),
      gpio_backend_set_notify (some b) proc consumer =
        (0, some { b with notify_proc := proc, notify_consumer := consumer })) ∧
    (∀ (proc : Option (gpio_backend_notify_t κ)) (consumer : Option κ),
      gpio_backend_set_notify (none : Option (GpioBackend σ κ)) proc consumer =
        (-EFAULT, none)) ∧
    (gpio_backend_set_notify
        (gpio_backend_set_notify (some b) (some p1) (some c1)).2 (some p2) (some c2)).2 =
      some { b with notify_proc := some p2, notify_consumer := some c2 } ∧
    gpio_backend_send_notify
        (gpio_backend_set_notify
          (gpio_backend_set_notify (some b) (some p1) (some c1)).2 (some p2) (some c2)).2
        pin event value =
      some ((p2 c2 pin event value).1,
        some { b with
          notify_proc := some p2
          notify_consumer := some (p2 c2 pin event value).2 }) ∧
    (b.notify_proc = none →
      gpio_backend_send_notify (some b) pin event value = some (0, some b)) := by
  refine ⟨fun _ _ => rfl, fun _ _ => rfl, rfl, rfl, ?_⟩
  intro h
  unfold gpio_backend_send_notify
  simp only [h]

/-- C14 with two callbacks that record their calls: after the second
registration a notification is recorded once, by the second callback, in the
second consumer, and its result 7 is returned. -/
theorem c14_single_notification_link_witness :
    gpio_backend_send_notify
        (gpio_backend_set_notify
          (gpio_backend_set_notify (some logged_backend) (some (logging_notify 1 9))
            (some [])).2
          (some (logging_notify 2 7)) (some [])).2
        5 GPIO_EVENT_LEVEL 1 =
      some (7,
        some { logged_backend with
          notify_proc := some (logging_notify 2 7)
          notify_consumer := some [(2, 5, GPIO_EVENT_LEVEL, 1)] }) ∧
    gpio_backend_send_notify (some logged_backend) 5 GPIO_EVENT_LEVEL 1 =
      some (0, some logged_backend) :=
  ⟨(c14_single_notification_link logged_backend (logging_notify 1 9) (logging_notify 2 7)
    [] [] 5 GPIO_EVENT_LEVEL 1).2.2.2.1,
   (c14_single_notification_link logged_backend (logging_notify 1 9) (logging_notify 2 7)
    [] [] 5 GPIO_EVENT_LEVEL 1).2.2.2.2 rfl⟩

theorem backend_classop_frame {σ κ α : Type} (b : GpioBackend σ κ)
    (op : GpioBackendClass σ → Option α) (call : α → σ → Option (Int × σ))
    (r : Int) (g1 : Option (GpioBackend σ κ))
    (h : backend_classop (some b) op call = some (r, g1)) :
    ∃ b1, g1 = some b1 ∧ b1.notify_proc = b.notify_proc ∧
      b1.notify_consumer = b.notify_consumer ∧ b1.klass = b.klass := by
  unfold backend_classop at h
  cases hk : b.klass with
  | none =>
    simp only [hk, Option.some.injEq, Prod.mk.injEq] at h
    exact ⟨b, h.2.symm, rfl, rfl, hk⟩
  | some k =>
    simp only [hk] at h
    cases ho : op k with
    | none =>
      simp only [ho, Option.some.injEq, Prod.mk.injEq] at h
      exact ⟨b, h.2.symm, rfl, rfl, hk⟩
    | some f =>
      simp only [ho] at h
      cases hc : call f b.inst with
      | none => simp [hc] at h
      | some x =>
        simp only [hc, Option.map_some', Option.some.injEq, Prod.mk.injEq] at h
        exact ⟨_, h.2.symm, rfl, rfl, rfl⟩

theorem bits32_toInt32 (x : Int) : bits32 (toInt32 x) = bits32 x := by
  have h := toInt32_spec x
  unfold bits32
  omega

/-- C15: a write of `val` to the attribute `gpio<pin>.value` whose
`gpio_backend_set_value` call returns (whatever its result), on a backend
whose notification link is `virtio_gpio_notify` with a device whose outbound
queue is ready and offers a buffer, pushes exactly one event
`(0x11, pin, val)` (pin and value in the width of their fields) to that queue
and reports no error; with no callback stored the same write reports no error
and leaves the backend as `gpio_backend_set_value` left it, consumer
included. -/
theorem c15_attribute_write_notifies_once {σ σ' κ' : Type}
    (b : GpioBackend σ ( VirtIOGPIO σ' κ')) (vg : VirtIOGPIO σ' κ') (pin val r : Int)
    (g1 : Option (GpioBackend σ ( VirtIOGPIO σ' κ')))
    (e : VirtQueueElement) (rest : List VirtQueueElement)
    (hset : gpio_backend_set_value (some b) pin (toInt32 val) = some (r, g1)) :
    (b.notify_proc = some virtio_gpio_notify → b.notify_consumer = some vg →
      vg.vq_out.ready = true → vg.vq_out.avail = e :: rest → 8 ≤ e.in_sg.length →
      ∃ b', setattr_value (some b) (some val) (some pin) = some (none, some b') ∧
        b'.notify_consumer = some
          { vg with
            reply_buffer := ⟨VIRTIO_GPIO_EV_HOST_LEVEL, (pin % 65536).toNat, bits32 val⟩
            vq_out :=
              { ready := true
                avail := rest
                used := vg.vq_out.used ++
                  [(⟨e.out_sg,
                    event_bytes ⟨VIRTIO_GPIO_EV_HOST_LEVEL, (pin % 65536).toNat, bits32 val⟩ ++
                      e.in_sg.drop 8⟩, 8)]
                signals := vg.vq_out.signals + 1 } }) ∧
    (0 ≤ pin → pin < 65536 → ((pin % 65536).toNat : Int) = pin) ∧
    (0 ≤ val → val < 4294967296 → (bits32 val : Int) = val) ∧
    (b.notify_proc = none →
      setattr_value (some b) (some val) (some pin) = some (none, g1) ∧
      ∃ b1, g1 = some b1 ∧ b1.notify_consumer = b.notify_consumer) := by
  have hset' := hset
  unfold gpio_backend_set_value at hset'
  obtain ⟨b1, hg1, hp1, hc1, _⟩ := backend_classop_frame b _ _ r g1 hset'
  refine ⟨?_, ?_, ?_, ?_⟩
  · intro hp hc hr ha hl
    have hn := notify_level_pushed vg pin (toInt32 val) e rest hr ha hl
    refine ⟨{ b1 with
      notify_consumer := some (virtio_gpio_notify vg pin GPIO_EVENT_LEVEL (toInt32 val)).2 },
      ?_, ?_⟩
    · unfold setattr_value
      simp only [hset, Option.some_bind, hg1]
      unfold gpio_backend_send_notify
      simp only [hp1, hp, hc1, hc, Option.map_some']
    · show some _ = some _
      rw [hn, bits32_toInt32]
  · intro h0 h1; omega
  · intro h0 h1; unfold bits32; omega
  · intro hp
    refine ⟨?_, b1, hg1, hc1⟩
    unfold setattr_value
    simp only [hset, Option.some_bind, hg1]
    unfold gpio_backend_send_notify
    simp only [hp1, hp, Option.map_some']

/-- C15 for a write of 1 to `gpio2.value` on `linked_backend`, and for the
same write with the callback removed. -/
theorem c15_attribute_write_notifies_once_witness :
    (∃ b', setattr_value (some linked_backend) (some 1) (some 2) = some (none, some b') ∧
      b'.notify_consumer = some
        { four_line_device with
          reply_buffer := ⟨0x11, 2, 1⟩
          vq_out :=
            { ready := true
              avail := [reply_slot, reply_slot]
              used := [(⟨[], [17, 0, 2, 0, 1, 0, 0, 0]⟩, 8)]
              signals := 1 } }) ∧
    (setattr_value (some { linked_backend with notify_proc := none }) (some 1) (some 2) =
        some (none, some { linked_backend with
          notify_proc := none
          inst := { states := [105, 105, 107, 105, 0], num_gpio := 4 } }) ∧
      ∃ b1, some { linked_backend with
          notify_proc := none
          inst := { states := [105, 105, 107, 105, 0], num_gpio := 4 } } = some b1 ∧
        b1.notify_consumer = some four_line_device) :=
  ⟨(c15_attribute_write_notifies_once linked_backend four_line_device 2 1 0
      (some { linked_backend with inst := { states := [105, 105, 107, 105, 0], num_gpio := 4 } })
      reply_slot [reply_slot, reply_slot] rfl).1 rfl rfl rfl rfl (by decide),
   (c15_attribute_write_notifies_once { linked_backend with notify_proc := none }
      four_line_device 2 1 0
      (some { linked_backend with
        notify_proc := none
        inst := { states := [105, 105, 107, 105, 0], num_gpio := 4 } })
      reply_slot [reply_slot, reply_slot] rfl).2.2.2 rfl⟩

/-! ## The backend interface wrappers -/

theorem backend_classop_null {σ κ α : Type} (op : GpioBackendClass σ → Option α)
    (call : α → σ → Option (Int × σ)) :
    backend_classop (none : Option (GpioBackend σ κ)) op call = some (-EFAULT, none) := rfl

theorem backend_classop_no_class {σ κ α : Type} (b : GpioBackend σ κ)
    (op : GpioBackendClass σ → Option α) (call : α → σ → Option (Int × σ))
    (hk : b.klass = none) : backend_classop (some b) op call = some (-EFAULT, some b) := by
  unfold backend_classop
  simp only [hk]

theorem backend_classop_no_op {σ κ α : Type} (b : GpioBackend σ κ) (k : GpioBackendClass σ)
    (op : GpioBackendClass σ → Option α) (call : α → σ → Option (Int × σ))
    (hk : b.klass = some k) (ho : op k = none) :
    backend_classop (some b) op call = some (-EUNATCH, some b) := by
  unfold backend_classop
  simp only [hk, ho]

/-- C16: each of the seven wrappers returns `-EFAULT` on a `NULL` handle and
on an object without class, `-EUNATCH` when the class leaves the operation
unset, in all three cases with the handle and the object as they were; and
otherwise it returns exactly what the operation of the class returns on the
same arguments, the object holding the fields the operation leaves. -/
theorem c16_wrappers_dispatch_or_fail {σ κ : Type} (b : GpioBackend σ κ) (pin state : Int) :
    (gpio_backend_request (none : Option (GpioBackend σ κ)) pin = some (-EFAULT, none) ∧
      gpio_backend_set_value (none : Option (GpioBackend σ κ)) pin state =
        some (-EFAULT, none) ∧
      gpio_backend_get_value (none : Option (GpioBackend σ κ)) pin = some (-EFAULT, none) ∧
      gpio_backend_direction_output (none : Option (GpioBackend σ κ)) pin state =
        some (-EFAULT, none) ∧
      gpio_backend_direction_input (none : Option (GpioBackend σ κ)) pin =
        some (-EFAULT, none) ∧
      gpio_backend_get_direction (none : Option (GpioBackend σ κ)) pin =
        some (-EFAULT, none) ∧
      gpio_backend_get_ngpio (none : Option (GpioBackend σ κ)) = some (-EFAULT, none)) ∧
    (b.klass = none →
      gpio_backend_request (some b) pin = some (-EFAULT, some b) ∧
      gpio_backend_set_value (some b) pin state = some (-EFAULT, some b) ∧
      gpio_backend_get_value (some b) pin = some (-EFAULT, some b) ∧
      gpio_backend_direction_output (some b) pin state = some (-EFAULT, some b) ∧
      gpio_backend_direction_input (some b) pin = some (-EFAULT, some b) ∧
      gpio_backend_get_direction (some b) pin = some (-EFAULT, some b) ∧
      gpio_backend_get_ngpio (some b) = some (-EFAULT, some b)) ∧
    (∀ k : GpioBackendClass σ, b.klass = some k →
      (k.request = none → gpio_backend_request (some b) pin = some (-EUNATCH, some b)) ∧
      (k.set_value = none →
        gpio_backend_set_value (some b) pin state = some (-EUNATCH, some b)) ∧
      (k.get_value = none → gpio_backend_get_value (some b) pin = some (-EUNATCH, some b)) ∧
      (k.direction_output = none →
        gpio_backend_direction_output (some b) pin state = some (-EUNATCH, some b)) ∧
      (k.direction_input = none →
        gpio_backend_direction_input (some b) pin = some (-EUNATCH, some b)) ∧
      (k.get_direction = none →
        gpio_backend_get_direction (some b) pin = some (-EUNATCH, some b)) ∧
      (k.get_ngpio = none → gpio_backend_get_ngpio (some b) = some (-EUNATCH, some b))) ∧
    (∀ k : GpioBackendClass σ, b.klass = some k →
      (∀ f, k.request = some f → gpio_backend_request (some b) pin =
        (f b.inst pin).map fun r => (r.1, some { b with inst := r.2 })) ∧
      (∀ f, k.set_value = some f → gpio_backend_set_value (some b) pin state =
        (f b.inst pin state).map fun r => (r.1, some { b with inst := r.2 })) ∧
      (∀ f, k.get_value = some f → gpio_backend_get_value (some b) pin =
        (f b.inst pin).map fun r => (r.1, some { b with inst := r.2 })) ∧
      (∀ f, k.direction_output = some f → gpio_backend_direction_output (some b) pin state =
        (f b.inst pin state).map fun r => (r.1, some { b with inst := r.2 })) ∧
      (∀ f, k.direction_input = some f → gpio_backend_direction_input (some b) pin =
        (f b.inst pin).map fun r => (r.1, some { b with inst := r.2 })) ∧
      (∀ f, k.get_direction = some f → gpio_backend_get_direction (some b) pin =
        (f b.inst pin).map fun r => (r.1, some { b with inst := r.2 })) ∧
      (∀ f, k.get_ngpio = some f → gpio_backend_get_ngpio (some b) =
        (f b.inst).map fun r => (r.1, some { b with inst := r.2 }))) := by
  refine ⟨⟨rfl, rfl, rfl, rfl, rfl, rfl, rfl⟩, ?_, ?_, ?_⟩
  · intro hk
    exact ⟨backend_classop_no_class b _ _ hk, backend_classop_no_class b _ _ hk,
      backend_classop_no_class b _ _ hk, backend_classop_no_class b _ _ hk,
      backend_classop_no_class b _ _ hk, backend_classop_no_class b _ _ hk,
      backend_classop_no_class b _ _ hk⟩
  · intro k hk
    exact ⟨fun h => backend_classop_no_op b k _ _ hk h,
      fun h => backend_classop_no_op b k _ _ hk h,
      fun h => backend_classop_no_op b k _ _ hk h,
      fun h => backend_classop_no_op b k _ _ hk h,
      fun h => backend_classop_no_op b k _ _ hk h,
      fun h => backend_classop_no_op b k _ _ hk h,
      fun h => backend_classop_no_op b k _ _ hk h⟩
  · intro k hk
    exact ⟨fun f h => backend_classop_some b k _ _ f hk h,
      fun f h => backend_classop_some b k _ _ f hk h,
      fun f h => backend_classop_some b k _ _ f hk h,
      fun f h => backend_classop_some b k _ _ f hk h,
      fun f h => backend_classop_some b k _ _ f hk h,
      fun f h => backend_classop_some b k _ _ f hk h,
      fun f h => backend_classop_some b k _ _ f hk h⟩

/-- C16 on `no_ngpio_backend`: `get_ngpio` is unset and yields `-EUNATCH`,
`get_direction` is the builtin operation; and on the same object without
class `request` yields `-EFAULT`. -/
theorem c16_wrappers_dispatch_or_fail_witness :
    gpio_backend_get_ngpio (some no_ngpio_backend) = some (-EUNATCH, some no_ngpio_backend) ∧
    gpio_backend_get_direction (some no_ngpio_backend) 1 =
      (gpio_builtin_get_direction no_ngpio_backend.inst 1).map
        (fun r => (r.1, some { no_ngpio_backend with inst := r.2 })) ∧
    gpio_backend_request (some { no_ngpio_backend with klass := none }) 1 =
      some (-EFAULT, some { no_ngpio_backend with klass := none }) :=
  ⟨((c16_wrappers_dispatch_or_fail no_ngpio_backend 1 0).2.2.1
      { gpio_builtin_class with get_ngpio := none } rfl).2.2.2.2.2.2 rfl,
   ((c16_wrappers_dispatch_or_fail no_ngpio_backend 1 0).2.2.2
      { gpio_builtin_class with get_ngpio := none } rfl).2.2.2.2.2.1
      gpio_builtin_get_direction rfl,
   ((c16_wrappers_dispatch_or_fail { no_ngpio_backend with klass := none } 1 0).2.1 rfl).1⟩

/-! ## The wire record -/

theorem reply_bit_cleared (t : Nat) (h : t < 2 ^ 15) : (t ||| 2 ^ 15) &&& (2 ^ 15 - 1) = t := by
  apply Nat.eq_of_testBit_eq
  intro i
  rw [Nat.testBit_and, Nat.testBit_or, Nat.testBit_two_pow, Nat.testBit_two_pow_sub_one]
  by_cases hi : i < 15
  · have : ¬ (15 = i) := by omega
    simp [hi, this]
  · have hl : t < 2 ^ i := Nat.lt_of_lt_of_le h (Nat.pow_le_pow_right (by decide) (by omega))
    simp [hi, Nat.testBit_lt_two_pow hl]

theorem no_reply_bit_lt (t : Nat) (h16 : t < 65536) (hb : t &&& 2 ^ 15 = 0) : t < 32768 := by
  have h1 : t.testBit 15 = false := by
    have h2 := congrArg (fun x => Nat.testBit x 15) hb
    simp only [Nat.testBit_and, Nat.testBit_two_pow_self, Bool.and_true,
      Nat.zero_testBit] at h2
    exact h2
  rw [Nat.testBit_to_div_mod] at h1
  simp at h1
  omega

theorem event_roundtrip (t p v : Nat) (ht : t < 65536) (hp : p < 65536)
    (hv : v < 4294967296) :
    event_of_bytes (t % 256) (t / 256 % 256) (p % 256) (p / 256 % 256)
      (v % 256) (v / 256 % 256) (v / 65536 % 256) (v / 16777216 % 256) = ⟨t, p, v⟩ := by
  unfold event_of_bytes
  congr 1 <;> omega

/-- C17: for every `type` and `pin` below `2 ^ 16` and `value` below `2 ^ 32`,
the eight bytes `virtio_gpio_reply` writes for the record (16-bit type, 16-bit
pin, 32-bit value, low byte first) are read back by the record loop of
`virtio_gpio_process` as the same record; and for a 16-bit type without the
reply bit, clearing bit `0x8000` of `type | 0x8000` gives `type` back. -/
theorem c17_wire_record_roundtrip (t p v : Nat) (ht : t < 65536) (hp : p < 65536)
    (hv : v < 4294967296) :
    event_bytes ⟨t, p, v⟩ =
      [t % 256, t / 256 % 256, p % 256, p / 256 % 256,
        v % 256, v / 256 % 256, v / 65536 % 256, v / 16777216 % 256] ∧
    event_of_bytes (t % 256) (t / 256 % 256) (p % 256) (p / 256 % 256)
      (v % 256) (v / 256 % 256) (v / 65536 % 256) (v / 16777216 % 256) = ⟨t, p, v⟩ ∧
    (∀ (σ κ : Type) (d : VirtIOGPIO σ κ) (e : VirtQueueElement)
        (rest : List VirtQueueElement),
      d.vq_out.ready = true → d.vq_out.avail = e :: rest → 8 ≤ e.in_sg.length →
      (virtio_gpio_reply d (t : Int) (p : Int) (toInt32 (v : Int))).vq_out.used =
        d.vq_out.used ++ [(⟨e.out_sg, event_bytes ⟨t, p, v⟩ ++ e.in_sg.drop 8⟩, 8)]) ∧
    (∀ (σ κ : Type) (d : VirtIOGPIO σ κ) (tail : List Nat),
      process_records d (event_bytes ⟨t, p, v⟩ ++ tail) =
        (process_record d ⟨t, p, v⟩).bind fun d' => process_records d' tail) ∧
    (t &&& VIRTIO_GPIO_EV_REPLY = 0 →
      (t ||| VIRTIO_GPIO_EV_REPLY) &&& (65535 ^^^ VIRTIO_GPIO_EV_REPLY) = t) := by
  refine ⟨rfl, event_roundtrip t p v ht hp hv, ?_, ?_, ?_⟩
  · intro σ κ d e rest hr ha hl
    rw [reply_pushed d _ _ _ e rest hr ha hl]
    have e1 : (((t : Int) % 65536).toNat) = t := by omega
    have e2 : (((p : Int) % 65536).toNat) = p := by omega
    have e3 : bits32 (toInt32 (v : Int)) = v := by
      rw [bits32_toInt32, bits32_of_nat v hv]
    simp only [e1, e2, e3]
  · intro σ κ d tail
    show process_records d (t % 256 :: t / 256 % 256 :: p % 256 :: p / 256 % 256 ::
      v % 256 :: v / 256 % 256 :: v / 65536 % 256 :: v / 16777216 % 256 :: tail) = _
    rw [process_records, event_roundtrip t p v ht hp hv]
  · intro hb
    have h15 : t < 2 ^ 15 := no_reply_bit_lt t ht hb
    exact reply_bit_cleared t h15

/-- C17 for the reply `(0x8003, 2, 4294967262)` and the request type 3. -/
theorem c17_wire_record_roundtrip_witness :
    event_bytes ⟨0x8003, 2, 4294967262⟩ = [3, 128, 2, 0, 222, 255, 255, 255] ∧
    event_of_bytes 3 128 2 0 222 255 255 255 = ⟨0x8003, 2, 4294967262⟩ ∧
    (3 ||| VIRTIO_GPIO_EV_REPLY) &&& (65535 ^^^ VIRTIO_GPIO_EV_REPLY) = 3 :=
  ⟨(c17_wire_record_roundtrip 0x8003 2 4294967262 (by decide) (by decide) (by decide)).1,
   (c17_wire_record_roundtrip 0x8003 2 4294967262 (by decide) (by decide) (by decide)).2.1,
   (c17_wire_record_roundtrip 3 2 0 (by decide) (by decide) (by decide)).2.2.2.2
     (by decide)⟩

/-! ## Suspension -/

/-- C18, counterexample: on a device the host has marked not running, whose
inbound queue is ready and whose status has `DRIVER_OK`,
`virtio_gpio_handle_rx` pops the inbound buffer, runs `set_value` on the
backend (line 1 becomes active) and pushes the reply; and on a running device
whose status lacks `DRIVER_OK`, `virtio_gpio_set_status` with a status that
has it does the same. -/
theorem c18_counterexample_handle_rx_while_stopped :
    stopped_device.vm_running = false ∧
    (∃ v', virtio_gpio_handle_rx stopped_device = some v' ∧
      v'.vq_in.avail = [] ∧
      v'.vq_in.used = [(⟨[6, 0, 1, 0, 1, 0, 0, 0], []⟩, 8)] ∧
      v'.gpio.map (fun b => b.inst.states) = some [105, 107, 105, 105, 0] ∧
      v'.vq_out.used = [(⟨[], [6, 128, 1, 0, 0, 0, 0, 0]⟩, 8)]) ∧
    driver_not_ok_device.status &&& VIRTIO_CONFIG_S_DRIVER_OK = 0 ∧
    (∃ v', virtio_gpio_set_status driver_not_ok_device 4 = some v' ∧
      v'.vq_in.avail = [] ∧
      v'.gpio.map (fun b => b.inst.states) = some [105, 107, 105, 105, 0] ∧
      v'.vq_out.used = [(⟨[], [6, 128, 1, 0, 0, 0, 0, 0]⟩, 8)]) :=
  ⟨rfl, ⟨_, rfl, rfl, rfl, rfl, rfl⟩, rfl, ⟨_, rfl, rfl, rfl, rfl⟩⟩

theorem process_not_ready {σ κ : Type} (v : VirtIOGPIO σ κ) (h : is_guest_ready v = false) :
    virtio_gpio_process v = some v := by
  unfold virtio_gpio_process
  rw [if_pos h]

theorem is_guest_ready_false_iff {σ κ : Type} (v : VirtIOGPIO σ κ) :
    is_guest_ready v = false ↔
      (v.vq_in.ready = false ∨ v.status &&& VIRTIO_CONFIG_S_DRIVER_OK = 0) := by
  unfold is_guest_ready virtio_queue_ready
  by_cases hr : v.vq_in.ready = true
  · by_cases hs : v.status &&& VIRTIO_CONFIG_S_DRIVER_OK = 0
    · simp [hr, hs]
    · simp [hr, hs]
  · simp [hr]

/-- C18, amended: while the inbound queue is not ready or the device status
lacks `DRIVER_OK`, `virtio_gpio_handle_rx` and `virtio_gpio_vm_state_change`
leave the device as it is, and `virtio_gpio_set_status`, called with a status
under which that still holds, stores the status and nothing else. When the
host has marked the device not running, `virtio_gpio_set_status` leaves the
device as it is, and so does `virtio_gpio_vm_state_change` called with
`running = 0`. -/
theorem c18_no_processing_while_not_ready {σ κ : Type} (v : VirtIOGPIO σ κ) :
    ((v.vq_in.ready = false ∨ v.status &&& VIRTIO_CONFIG_S_DRIVER_OK = 0) →
      virtio_gpio_handle_rx v = some v ∧
      ∀ running : Int, virtio_gpio_vm_state_change v running = some v) ∧
    (∀ status : Nat, (v.vq_in.ready = false ∨ status &&& VIRTIO_CONFIG_S_DRIVER_OK = 0) →
      virtio_gpio_set_status v status = some v ∨
      virtio_gpio_set_status v status = some { v with status := status }) ∧
    (v.vm_running = false → ∀ status : Nat, virtio_gpio_set_status v status = some v) ∧
    virtio_gpio_vm_state_change v 0 = some v := by
  refine ⟨?_, ?_, ?_, ?_⟩
  · intro h
    have hr := (is_guest_ready_false_iff v).mpr h
    refine ⟨process_not_ready v hr, ?_⟩
    intro running
    unfold virtio_gpio_vm_state_change
    rw [if_neg (by rw [hr]; simp)]
  · intro status h
    unfold virtio_gpio_set_status
    by_cases hv : v.vm_running = false
    · left; rw [if_pos hv]
    · right
      rw [if_neg hv]
      exact process_not_ready _ ((is_guest_ready_false_iff _).mpr h)
  · intro hv status
    unfold virtio_gpio_set_status
    rw [if_pos hv]
  · unfold virtio_gpio_vm_state_change
    rw [if_neg (by simp)]

/-- C18, amended, on the device `driver_not_ok_device`, and
`virtio_gpio_set_status` on the device `stopped_device`. -/
theorem c18_no_processing_while_not_ready_witness :
    (virtio_gpio_handle_rx driver_not_ok_device = some driver_not_ok_device ∧
      ∀ running : Int,
        virtio_gpio_vm_state_change driver_not_ok_device running =
          some driver_not_ok_device) ∧
    (∀ status : Nat, virtio_gpio_set_status stopped_device status = some stopped_device) :=
  ⟨(c18_no_processing_while_not_ready driver_not_ok_device).1 (Or.inr rfl),
   (c18_no_processing_while_not_ready stopped_device).2.2.1 rfl⟩

/-! ## Draining one inbound buffer -/

theorem short_of_no_record (bytes : List Nat)
    (h : ∀ b0 b1 b2 b3 b4 b5 b6 b7 rest,
      bytes = b0 :: b1 :: b2 :: b3 :: b4 :: b5 :: b6 :: b7 :: rest → False) :
    bytes.length < 8 := by
  match bytes, h with
  | [], _ => simp
  | [_], _ => simp
  | [_, _], _ => simp
  | [_, _, _], _ => simp
  | [_, _, _, _], _ => simp
  | [_, _, _, _, _], _ => simp
  | [_, _, _, _, _, _], _ => simp
  | [_, _, _, _, _, _, _], _ => simp
  | b0 :: b1 :: b2 :: b3 :: b4 :: b5 :: b6 :: b7 :: rest, h =>
    exact absurd rfl (h b0 b1 b2 b3 b4 b5 b6 b7 rest)

theorem records_of_length (bytes : List Nat) :
    (records_of bytes).length = bytes.length / 8 := by
  induction bytes using records_of.induct with
  | case1 b0 b1 b2 b3 b4 b5 b6 b7 rest ih =>
    simp only [records_of, List.length_cons, ih]
    omega
  | case2 bytes h =>
    have hl : bytes.length < 8 := short_of_no_record bytes h
    rw [records_of]
    · simp only [List.length_nil]
      omega
    · exact h

theorem records_of_short (bytes : List Nat) (h : bytes.length < 8) : records_of bytes = [] := by
  apply List.eq_nil_of_length_eq_zero
  rw [records_of_length]
  omega

theorem records_of_at (bytes : List Nat) :
    ∀ i, (records_of bytes)[i]? = (records_of (iov_to_buf bytes (8 * i) 8)).head? := by
  induction bytes using records_of.induct with
  | case1 b0 b1 b2 b3 b4 b5 b6 b7 rest ih =>
    intro i
    cases i with
    | zero => simp [records_of, iov_to_buf]
    | succ j =>
      have e : iov_to_buf (b0 :: b1 :: b2 :: b3 :: b4 :: b5 :: b6 :: b7 :: rest) (8 * (j + 1)) 8 =
          iov_to_buf rest (8 * j) 8 := by
        unfold iov_to_buf
        rw [show 8 * (j + 1) = 8 * j + 1 + 1 + 1 + 1 + 1 + 1 + 1 + 1 by omega]
        simp only [List.drop_succ_cons]
      rw [e, ← ih j]
      simp [records_of]
  | case2 bytes h =>
    intro i
    have hl : bytes.length < 8 := short_of_no_record bytes h
    rw [records_of_short bytes hl, records_of_short]
    · rfl
    · unfold iov_to_buf
      rw [List.length_take, List.length_drop]
      omega

theorem process_records_eq_list {σ κ : Type} (bytes : List Nat) :
    ∀ v : VirtIOGPIO σ κ, process_records v bytes = process_record_list v (records_of bytes) := by
  induction bytes using records_of.induct with
  | case1 b0 b1 b2 b3 b4 b5 b6 b7 rest ih =>
    intro v
    simp only [process_records, records_of, process_record_list, ih]
  | case2 bytes h =>
    intro v
    rw [process_records, records_of]
    · rfl
    · exact h
    · exact h

/-- What one call of `virtio_gpio_reply` does to the two queues: the inbound
queue is left alone; the outbound queue gets the replies `pushed` (one when it
is ready and offers a buffer, none otherwise) at the end of its returned
buffers and one signal for each of them. -/
theorem reply_effect {σ κ : Type} (v : VirtIOGPIO σ κ) (t p val : Int) :
    (virtio_gpio_reply v t p val).vq_in = v.vq_in ∧
    (virtio_gpio_reply v t p val).vq_out.ready = v.vq_out.ready ∧
    ∃ pushed : List (VirtQueueElement × Nat),
      (virtio_gpio_reply v t p val).vq_out.used = v.vq_out.used ++ pushed ∧
      (virtio_gpio_reply v t p val).vq_out.signals = v.vq_out.signals + pushed.length ∧
      (virtio_gpio_reply v t p val).vq_out.avail = v.vq_out.avail.drop pushed.length ∧
      pushed.length = (if v.vq_out.ready = true then min 1 v.vq_out.avail.length else 0) := by
  by_cases hr : v.vq_out.ready = true
  · cases ha : v.vq_out.avail with
    | nil =>
      rw [reply_dropped v t p val (Or.inr ha)]
      exact ⟨rfl, rfl, [], by simp, rfl, by simp [ha], by simp [hr]⟩
    | cons e rest =>
      have key : ∃ rb el, virtio_gpio_reply v t p val =
          { v with
            reply_buffer := rb
            vq_out :=
              { ready := v.vq_out.ready
                avail := rest
                used := v.vq_out.used ++ [el]
                signals := v.vq_out.signals + 1 } } := by
        unfold virtio_gpio_reply virtio_queue_ready virtqueue_pop
        rw [if_neg (by simp [hr])]
        simp only [ha]
        exact ⟨_, _, rfl⟩
      obtain ⟨rb, el, hk⟩ := key
      rw [hk]
      exact ⟨rfl, rfl, [el], rfl, rfl, by simp, by simp [hr]⟩
  · have hf : v.vq_out.ready = false := by simpa using hr
    rw [reply_dropped v t p val (Or.inl hf)]
    exact ⟨rfl, rfl, [], by simp, rfl, by simp, by simp [hf]⟩

theorem process_record_effect {σ κ : Type} (v v1 : VirtIOGPIO σ κ) (r : virtio_gpio_event)
    (h : process_record v r = some v1) :
    v1.vq_in = v.vq_in ∧
    v1.vq_out.ready = v.vq_out.ready ∧
    ∃ pushed : List (VirtQueueElement × Nat),
      v1.vq_out.used = v.vq_out.used ++ pushed ∧
      v1.vq_out.signals = v.vq_out.signals + pushed.length ∧
      v1.vq_out.avail = v.vq_out.avail.drop pushed.length ∧
      pushed.length = (if v.vq_out.ready = true then min 1 v.vq_out.avail.length else 0) := by
  unfold process_record at h
  cases hd : do_request v r with
  | none => rw [hd] at h; simp at h
  | some x =>
    obtain ⟨ret, v0⟩ := x
    rw [hd] at h
    simp only [Option.map_some', Option.some.injEq] at h
    obtain ⟨g, hg⟩ := do_request_frame v v0 r ret hd
    have e := reply_effect v0 (Int.ofNat (r.type ||| VIRTIO_GPIO_EV_REPLY)) (Int.ofNat r.pin) ret
    rw [h] at e
    have hin : v0.vq_in = v.vq_in := by rw [hg]
    have hout : v0.vq_out = v.vq_out := by rw [hg]
    rw [hin, hout] at e
    exact e

theorem process_record_list_effect {σ κ : Type} (recs : List virtio_gpio_event) :
    ∀ v v1 : VirtIOGPIO σ κ, process_record_list v recs = some v1 →
    v1.vq_in = v.vq_in ∧
    v1.vq_out.ready = v.vq_out.ready ∧
    ∃ pushed : List (VirtQueueElement × Nat),
      v1.vq_out.used = v.vq_out.used ++ pushed ∧
      v1.vq_out.signals = v.vq_out.signals + pushed.length ∧
      v1.vq_out.avail = v.vq_out.avail.drop pushed.length ∧
      pushed.length =
        (if v.vq_out.ready = true then min recs.length v.vq_out.avail.length else 0) := by
  induction recs with
  | nil =>
    intro v v1 h
    simp only [process_record_list, Option.some.injEq] at h
    subst h
    exact ⟨rfl, rfl, [], by simp, rfl, by simp, by simp⟩
  | cons r rs ih =>
    intro v v1 h
    simp only [process_record_list] at h
    cases hp : process_record v r with
    | none => rw [hp] at h; simp at h
    | some v0 =>
      rw [hp, Option.some_bind] at h
      obtain ⟨i1, r1, p1, u1, s1, a1, l1⟩ := process_record_effect v v0 r hp
      obtain ⟨i2, r2, p2, u2, s2, a2, l2⟩ := ih v0 v1 h
      refine ⟨i2.trans i1, r2.trans r1, p1 ++ p2, ?_, ?_, ?_, ?_⟩
      · rw [u2, u1, List.append_assoc]
      · rw [s2, s1, List.length_append, Nat.add_assoc]
      · rw [a2, a1, List.drop_drop, List.length_append, Nat.add_comm]
      · rw [List.length_append, l2, r1, a1, List.length_drop, l1, List.length_cons]
        by_cases hr : v.vq_out.ready = true
        · simp only [hr, if_true]
          omega
        · simp only [hr, if_false]
          rfl

theorem process_record_entry {σ κ : Type} (v v1 : VirtIOGPIO σ κ) (r : virtio_gpio_event)
    (slot : VirtQueueElement) (rest : List VirtQueueElement)
    (h : process_record v r = some v1) (hr : v.vq_out.ready = true)
    (ha : v.vq_out.avail = slot :: rest) :
    ∃ ret vj, do_request v r = some (ret, vj) ∧
      v1.vq_out.used = v.vq_out.used ++
        [reply_entry (Int.ofNat (r.type ||| VIRTIO_GPIO_EV_REPLY)) (Int.ofNat r.pin) ret slot] := by
  unfold process_record at h
  cases hd : do_request v r with
  | none => rw [hd] at h; simp at h
  | some x =>
    obtain ⟨ret, v0⟩ := x
    rw [hd] at h
    simp only [Option.map_some', Option.some.injEq] at h
    obtain ⟨g, hg⟩ := do_request_frame v v0 r ret hd
    have hout : v0.vq_out = v.vq_out := by rw [hg]
    refine ⟨ret, v0, rfl, ?_⟩
    rw [← h, ← hout]
    unfold virtio_gpio_reply virtio_queue_ready virtqueue_pop
    rw [if_neg (by simp [hout, hr])]
    simp only [hout, ha]
    rfl

theorem process_record_list_entries {σ κ : Type} (recs : List virtio_gpio_event) :
    ∀ (v v1 : VirtIOGPIO σ κ) (pushed : List (VirtQueueElement × Nat)),
    process_record_list v recs = some v1 → v.vq_out.ready = true →
    v1.vq_out.used = v.vq_out.used ++ pushed →
    ∀ (i : Nat) (r : virtio_gpio_event) (slot : VirtQueueElement),
      recs[i]? = some r → v.vq_out.avail[i]? = some slot →
      ∃ (vi vj : VirtIOGPIO σ κ) (ret : Int), do_request vi r = some (ret, vj) ∧
        pushed[i]? = some
          (reply_entry (Int.ofNat (r.type ||| VIRTIO_GPIO_EV_REPLY)) (Int.ofNat r.pin) ret slot) := by
  induction recs with
  | nil =>
    intro v v1 pushed _ _ _ i r slot hi _
    simp at hi
  | cons r0 rs ih =>
    intro v v1 pushed h hr hu i r slot hi hs
    simp only [process_record_list] at h
    cases hp : process_record v r0 with
    | none => rw [hp] at h; simp at h
    | some v0 =>
      rw [hp, Option.some_bind] at h
      obtain ⟨_, r1, p1, u1, _, a1, l1⟩ := process_record_effect v v0 r0 hp
      obtain ⟨_, _, p2, u2, _, _, _⟩ := process_record_list_effect rs v0 v1 h
      have hpush : pushed = p1 ++ p2 := by
        have e : v.vq_out.used ++ pushed = v.vq_out.used ++ (p1 ++ p2) := by
          rw [← hu, u2, u1, List.append_assoc]
        exact List.append_cancel_left e
      cases hav : v.vq_out.avail with
      | nil => rw [hav] at hs; simp at hs
      | cons s0 rest =>
        obtain ⟨ret, vj, hd, ue⟩ := process_record_entry v v0 r0 s0 rest hp hr hav
        have hp1 : p1 = [reply_entry (Int.ofNat (r0.type ||| VIRTIO_GPIO_EV_REPLY))
            (Int.ofNat r0.pin) ret s0] := by
          have e := u1.symm.trans ue
          exact List.append_cancel_left e
        cases i with
        | zero =>
          rw [hav] at hs
          simp only [List.getElem?_cons_zero, Option.some.injEq] at hi hs
          subst hi
          subst hs
          exact ⟨v, vj, ret, hd, by rw [hpush, hp1, List.singleton_append, List.getElem?_cons_zero]⟩
        | succ j =>
          rw [hav] at hs
          simp only [List.getElem?_cons_succ] at hi hs
          have a0 : v0.vq_out.avail = rest := by
            rw [a1, hp1, hav]
            rfl
          obtain ⟨vi, vk, ret2, hd2, he2⟩ :=
            ih v0 v1 p2 h (r1.trans hr) u2 j r slot hi (by rw [a0]; exact hs)
          refine ⟨vi, vk, ret2, hd2, ?_⟩
          rw [hpush, hp1, List.singleton_append, List.getElem?_cons_succ]
          exact he2

/-- C19, counterexample: `two_record_device` offers one inbound buffer of 19
bytes, two records and three more bytes.  `virtio_gpio_process` answers both
records and returns the buffer, and it has then signalled the guest three
times: once on the inbound queue for the buffer, and once on the outbound
queue for each of the two replies. -/
theorem c19_counterexample_signal_per_reply :
    two_record_device.vq_in.avail = [two_record_buffer] ∧
    two_record_buffer.out_sg.length = 19 ∧
    two_record_device.vq_in.signals = 0 ∧
    two_record_device.vq_out.signals = 0 ∧
    ∃ v, virtio_gpio_process two_record_device = some v ∧
      v.vq_in.used = [(two_record_buffer, 8)] ∧
      v.vq_out.used =
        [(⟨[], [6, 128, 1, 0, 0, 0, 0, 0]⟩, 8), (⟨[], [5, 128, 1, 0, 1, 0, 0, 0]⟩, 8)] ∧
      v.vq_in.signals = 1 ∧
      v.vq_out.signals = 2 ∧
      v.vq_in.signals + v.vq_out.signals ≠ 1 :=
  ⟨rfl, rfl, rfl, rfl, _, rfl, rfl, rfl, rfl, rfl, by decide⟩

/-- C19, amended: when `virtio_gpio_process` drains an inbound buffer `elem` of
`L` bytes (the loop body of `process_buffers`, with `v2` the device after the
record loop), the records dispatched are `records_of elem.out_sg`, first to
last: there are `L / 8` of them, the `i`-th is the one `iov_to_buf` yields at
offset `8 * i`, and bytes after the last whole record are not looked at.  The
replies are appended to the returned buffers of the outbound queue in the
order of the records, the `i`-th reply in the `i`-th buffer that queue offered,
and the outbound queue is signalled once for every reply pushed (one per
record while that queue is ready and has buffers left).  The inbound queue is
not touched while the records are handled; after the last record the buffer is
returned on it with length 8 and it is signalled exactly once. -/
theorem c19_buffer_drained_in_order {σ κ : Type} (v v2 : VirtIOGPIO σ κ)
    (elem : VirtQueueElement) (rest : List VirtQueueElement)
    (h : process_records { v with vq_in := { v.vq_in with avail := rest } } elem.out_sg =
      some v2) :
    (records_of elem.out_sg).length = elem.out_sg.length / 8 ∧
    (∀ i, (records_of elem.out_sg)[i]? =
      (records_of (iov_to_buf elem.out_sg (8 * i) 8)).head?) ∧
    process_record_list { v with vq_in := { v.vq_in with avail := rest } }
      (records_of elem.out_sg) = some v2 ∧
    v2.vq_in = { v.vq_in with avail := rest } ∧
    process_buffers v (elem :: rest) =
      process_buffers
        { v2 with
          vq_in :=
            { ready := v.vq_in.ready
              avail := rest
              used := v.vq_in.used ++ [(elem, 8)]
              signals := v.vq_in.signals + 1 } }
        rest ∧
    ∃ pushed : List (VirtQueueElement × Nat),
      v2.vq_out.used = v.vq_out.used ++ pushed ∧
      v2.vq_out.signals = v.vq_out.signals + pushed.length ∧
      pushed.length =
        (if v.vq_out.ready = true then min (elem.out_sg.length / 8) v.vq_out.avail.length
         else 0) ∧
      ∀ (i : Nat) (r : virtio_gpio_event) (slot : VirtQueueElement),
        (records_of elem.out_sg)[i]? = some r → v.vq_out.ready = true →
        v.vq_out.avail[i]? = some slot →
        ∃ (vi vj : VirtIOGPIO σ κ) (ret : Int), do_request vi r = some (ret, vj) ∧
          pushed[i]? = some
            (reply_entry (Int.ofNat (r.type ||| VIRTIO_GPIO_EV_REPLY)) (Int.ofNat r.pin) ret
              slot) := by
  have hl := h
  rw [process_records_eq_list] at hl
  obtain ⟨hin, _, pushed, hu, hs, _, hn⟩ :=
    process_record_list_effect (records_of elem.out_sg) _ v2 hl
  refine ⟨records_of_length _, records_of_at _, hl, hin, ?_, pushed, hu, hs, ?_, ?_⟩
  · simp only [process_buffers]
    rw [h, Option.some_bind, hin]
    rfl
  · rw [hn, records_of_length]
  · intro i r slot hi hr ha
    exact process_record_list_entries (records_of elem.out_sg) _ v2 pushed hl hr hu i r slot hi ha

/-- C19, amended, on the buffer of `two_record_device`: two records from 19
bytes, and the state handed to the next round of the buffer loop. -/
theorem c19_buffer_drained_in_order_witness :
    process_records
        { two_record_device with vq_in := { two_record_device.vq_in with avail := [] } }
        two_record_buffer.out_sg = some two_record_answered ∧
    (records_of two_record_buffer.out_sg).length = two_record_buffer.out_sg.length / 8 ∧
    process_buffers two_record_device [two_record_buffer] =
      process_buffers
        { two_record_answered with
          vq_in :=
            { ready := two_record_device.vq_in.ready
              avail := []
              used := two_record_device.vq_in.used ++ [(two_record_buffer, 8)]
              signals := two_record_device.vq_in.signals + 1 } }
        [] :=
  ⟨rfl,
   (c19_buffer_drained_in_order two_record_device two_record_answered two_record_buffer []
      rfl).1,
   (c19_buffer_drained_in_order two_record_device two_record_answered two_record_buffer []
      rfl).2.2.2.2.1⟩

/-! ## Frame of the builtin operations -/

theorem line_active_bit (k : Nat) (hk : k < 8) (h1 : k ≠ 1) :
    Nat.testBit FLAG_LINE_ACTIVE k = false ∧ Nat.testBit (byte_not FLAG_LINE_ACTIVE) k = true := by
  have h : k = 0 ∨ k = 2 ∨ k = 3 ∨ k = 4 ∨ k = 5 ∨ k = 6 ∨ k = 7 := by omega
  rcases h with h | h | h | h | h | h | h <;> subst h <;> exact ⟨by decide, by decide⟩

theorem direction_input_bit (k : Nat) (hk : k < 8) (h0 : k ≠ 0) :
    Nat.testBit FLAG_DIRECTION_INPUT k = false ∧
    Nat.testBit (byte_not FLAG_DIRECTION_INPUT) k = true := by
  have h : k = 1 ∨ k = 2 ∨ k = 3 ∨ k = 4 ∨ k = 5 ∨ k = 6 ∨ k = 7 := by omega
  rcases h with h | h | h | h | h | h | h <;> subst h <;> exact ⟨by decide, by decide⟩

theorem set_value_byte_bits (b : Nat) (state : Int) (k : Nat) (hk : k < 8) (h1 : k ≠ 1) :
    (set_value_byte b state).testBit k = b.testBit k := by
  unfold set_value_byte
  split
  · rw [Nat.testBit_or, (line_active_bit k hk h1).1, Bool.or_false]
  · rw [Nat.testBit_and, (line_active_bit k hk h1).2, Bool.and_true]

theorem load_set_other (mem : List Nat) (p q : Int) (b : Nat) (h0 : 0 ≤ p) (hq : q ≠ p) :
    load (mem.set p.toNat b) q = load mem q := by
  unfold load
  by_cases h : 0 ≤ q
  · rw [if_pos h, if_pos h]
    have hne : p.toNat ≠ q.toNat := by omega
    simp [List.get?_eq_getElem?, List.getElem?_set_ne hne]
  · rw [if_neg h, if_neg h]

theorem other_line_reads (g : GpioBuiltin) (p q : Int) (b : Nat) (h0 : 0 ≤ p) (hq : q ≠ p) :
    (gpio_builtin_get_direction { g with states := g.states.set p.toNat b } q).map Prod.fst =
      (gpio_builtin_get_direction g q).map Prod.fst ∧
    (gpio_builtin_get_value { g with states := g.states.set p.toNat b } q).map Prod.fst =
      (gpio_builtin_get_value g q).map Prod.fst := by
  unfold gpio_builtin_get_direction gpio_builtin_get_value states_test
  simp only [load_set_other g.states p q b h0 hq]
  constructor
  · split
    · rfl
    · simp [Option.map_map, Function.comp_def]
  · split
    · rfl
    · simp [Option.map_map, Function.comp_def]

/-- C20: on every allocated builtin backend state `g`, for every pin `p` in
`0 .. num_gpio - 1` with state byte `b`: `gpio_builtin_set_value` replaces
that byte by one that differs from `b` in no bit other than bit 1 (the active
flag), so the direction flag is kept; `gpio_builtin_direction_input` and
`gpio_builtin_direction_output` replace it by one that differs from `b` in no
bit other than bits 0 and 1 (direction and active flag); whatever byte is put
at `p`, every other line `q` keeps its byte, its direction and its value; and
`gpio_builtin_request`, `gpio_builtin_get_direction` and
`gpio_builtin_get_value` return the state `g` as it was. -/
theorem c20_operations_touch_only_their_line (g : GpioBuiltin) (p v : Int) (hg : g.allocated)
    (h0 : 0 ≤ p) (h1 : p < g.num_gpio) :
    ∃ b, load g.states p = some b ∧
      (∃ b1, gpio_builtin_set_value g p v =
          some (0, { g with states := g.states.set p.toNat b1 }) ∧
        b1 &&& FLAG_DIRECTION_INPUT = b &&& FLAG_DIRECTION_INPUT ∧
        ∀ k, k < 8 → k ≠ 1 → b1.testBit k = b.testBit k) ∧
      (∃ b1, gpio_builtin_direction_input g p =
          some (0, { g with states := g.states.set p.toNat b1 }) ∧
        ∀ k, k < 8 → k ≠ 0 → k ≠ 1 → b1.testBit k = b.testBit k) ∧
      (∃ b1, gpio_builtin_direction_output g p v =
          some (0, { g with states := g.states.set p.toNat b1 }) ∧
        ∀ k, k < 8 → k ≠ 0 → k ≠ 1 → b1.testBit k = b.testBit k) ∧
      (∀ (b1 : Nat) (q : Int), q ≠ p →
        load (g.states.set p.toNat b1) q = load g.states q ∧
        (gpio_builtin_get_direction { g with states := g.states.set p.toNat b1 } q).map
            Prod.fst = (gpio_builtin_get_direction g q).map Prod.fst ∧
        (gpio_builtin_get_value { g with states := g.states.set p.toNat b1 } q).map
            Prod.fst = (gpio_builtin_get_value g q).map Prod.fst) ∧
      (∃ r, gpio_builtin_request g p = some (r, g)) ∧
      (∃ r, gpio_builtin_get_direction g p = some (r, g)) ∧
      (∃ r, gpio_builtin_get_value g p = some (r, g)) := by
  have hlt : p.toNat < g.states.length := in_range_lt g p hg h0 h1
  refine ⟨g.states.get ⟨p.toNat, hlt⟩, load_of_lt _ _ h0 hlt, ?_, ?_, ?_, ?_, ?_, ?_, ?_⟩
  · exact ⟨_, set_value_eq g p v h0 h1 hlt, set_value_byte_direction _ v,
      fun k hk hk1 => set_value_byte_bits _ v k hk hk1⟩
  · refine ⟨_, direction_input_eq g p h0 h1 hlt, fun k hk hk0 hk1 => ?_⟩
    rw [set_value_byte_bits _ 0 k hk hk1, Nat.testBit_or, (direction_input_bit k hk hk0).1,
      Bool.or_false]
  · refine ⟨_, direction_output_eq g p v h0 h1 hlt, fun k hk hk0 hk1 => ?_⟩
    rw [set_value_byte_bits _ v k hk hk1, Nat.testBit_and, (direction_input_bit k hk hk0).2,
      Bool.and_true]
  · intro b1 q hq
    exact ⟨load_set_other g.states p q b1 h0 hq, other_line_reads g p q b1 h0 hq⟩
  · refine ⟨0, ?_⟩
    unfold gpio_builtin_request
    rw [if_neg (by omega)]
  · exact ⟨_, get_direction_eq g p h0 h1 hlt⟩
  · exact ⟨_, get_value_eq g p h0 h1 hlt⟩

/-- C20 on `mixed_lines`, pin 2 and value 0. -/
theorem c20_operations_touch_only_their_line_witness :
    mixed_lines.allocated ∧ (0 : Int) ≤ 2 ∧ (2 : Int) < mixed_lines.num_gpio ∧
    ∃ b, load mixed_lines.states 2 = some b ∧
      (∃ b1, gpio_builtin_set_value mixed_lines 2 0 =
          some (0, { mixed_lines with states := mixed_lines.states.set (2 : Int).toNat b1 }) ∧
        b1 &&& FLAG_DIRECTION_INPUT = b &&& FLAG_DIRECTION_INPUT ∧
        ∀ k, k < 8 → k ≠ 1 → b1.testBit k = b.testBit k) :=
  ⟨by decide, by decide, by decide,
   (c20_operations_touch_only_their_line mixed_lines 2 0 (by decide) (by decide)
      (by decide)).imp fun _ h => ⟨h.1, h.2.1⟩⟩

/-! ## The range guard of the builtin operations -/

theorem load_negative (mem : List Nat) (n : Nat) : load mem (Int.negSucc n) = none := by
  unfold load
  rw [if_neg (by have := Int.negSucc_lt_zero n; omega)]

theorem guard_passes_negative (m n : Nat) : ¬ (Int.negSucc n ≥ (m : Int)) := by
  have := Int.negSucc_lt_zero n
  omega

/-- The guard of `OP_HEAD` on a negative id: on every builtin state whose line
count is not negative and for every negative `id`, the test
`id >= gpio->num_gpio` is false, so `gpio_builtin_request` returns 0 and not
`-ERANGE` although `0 <= id` fails, and each of the other five operations goes
on to `states[id]`, an access before the start of the array. -/
theorem negative_id_passes_guard (states : List Nat) (m n : Nat) (state : Int) :
    ¬ (0 ≤ Int.negSucc n) ∧
    gpio_builtin_request ⟨states, (m : Int)⟩ (Int.negSucc n) = some (0, ⟨states, (m : Int)⟩) ∧
    (0 : Int) ≠ -ERANGE ∧
    load states (Int.negSucc n) = none ∧
    gpio_builtin_set_value ⟨states, (m : Int)⟩ (Int.negSucc n) state = none ∧
    gpio_builtin_direction_input ⟨states, (m : Int)⟩ (Int.negSucc n) = none ∧
    gpio_builtin_direction_output ⟨states, (m : Int)⟩ (Int.negSucc n) state = none ∧
    gpio_builtin_get_direction ⟨states, (m : Int)⟩ (Int.negSucc n) = none ∧
    gpio_builtin_get_value ⟨states, (m : Int)⟩ (Int.negSucc n) = none := by
  have hg := guard_passes_negative m n
  have hl := load_negative states n
  have hset : ∀ s, gpio_builtin_set_value ⟨states, (m : Int)⟩ (Int.negSucc n) s = none := by
    intro s
    unfold gpio_builtin_set_value states_or states_and_not
    rw [if_neg hg, hl]
    split <;> rfl
  refine ⟨by have := Int.negSucc_lt_zero n; omega, ?_, by decide, hl, hset state, ?_, ?_, ?_, ?_⟩
  · unfold gpio_builtin_request
    rw [if_neg hg]
  · unfold gpio_builtin_direction_input states_or
    rw [if_neg hg, hl]
    rfl
  · unfold gpio_builtin_direction_output states_and_not
    rw [if_neg hg, hl]
    rfl
  · unfold gpio_builtin_get_direction states_test
    rw [if_neg hg, hl]
    rfl
  · unfold gpio_builtin_get_value states_test
    rw [if_neg hg, hl]
    rfl

/-- The builtin backend after `set_value`: the line holds bit 0 of the
requested level. -/
theorem set_value_then_get (g : GpioBuiltin) (pin state : Int) (hg : g.allocated)
    (h0 : 0 ≤ pin) (h1 : pin < g.num_gpio) :
    ∃ g', gpio_builtin_set_value g pin state = some (0, g') ∧
      gpio_builtin_get_value g' pin = some (state % 2, g') := by
  have hl := in_range_lt g pin hg h0 h1
  have hl2 : pin.toNat < (g.states.set pin.toNat
      (set_value_byte (g.states.get ⟨pin.toNat, hl⟩) state)).length := by simpa using hl
  refine ⟨_, set_value_eq g pin state h0 h1 hl, ?_⟩
  rw [get_value_eq ⟨g.states.set pin.toNat
    (set_value_byte (g.states.get ⟨pin.toNat, hl⟩) state), g.num_gpio⟩ pin h0 h1 hl2]
  have hb := set_value_byte_active (g.states.get ⟨pin.toNat, hl⟩) state
  simp only [List.get_eq_getElem, List.getElem_set_self] at hb ⊢
  by_cases hs : state % 2 = 1
  · rw [if_pos (hb.mpr hs), hs]; rfl
  · rw [if_neg (fun h => hs (hb.mp h))]
    have h2 : state % 2 = 0 := by omega
    rw [h2]; rfl

/-- C22: on every allocated builtin backend state, for every pin in
`[0, num_gpio)` and every integer `state`, `gpio_builtin_set_value` and
`gpio_builtin_direction_output` return 0 and a following
`gpio_builtin_get_value` returns `state & 1`, which is `state % 2`: 0 for
every even `state`, 2 among them, and 1 for every odd one.  On such a pin
`gpio_builtin_get_value` and `gpio_builtin_get_direction` return 0 or 1. -/
theorem c22_only_bit_zero_of_level (g : GpioBuiltin) (pin state : Int) (hg : g.allocated)
    (h0 : 0 ≤ pin) (h1 : pin < g.num_gpio) :
    (∃ g', gpio_builtin_set_value g pin state = some (0, g') ∧
      gpio_builtin_get_value g' pin = some (int_and state 1, g')) ∧
    (∃ g', gpio_builtin_direction_output g pin state = some (0, g') ∧
      gpio_builtin_get_value g' pin = some (int_and state 1, g')) ∧
    int_and state 1 = state % 2 ∧
    (∃ g', gpio_builtin_set_value g pin 2 = some (0, g') ∧
      gpio_builtin_get_value g' pin = some (QEMU_GPIO_LINE_INACTIVE, g')) ∧
    (∃ r, gpio_builtin_get_value g pin = some (r, g) ∧ (r = 0 ∨ r = 1)) ∧
    (∃ r, gpio_builtin_get_direction g pin = some (r, g) ∧ (r = 0 ∨ r = 1)) := by
  have hand : int_and state 1 = state % 2 := int_and_one state
  have hl := in_range_lt g pin hg h0 h1
  refine ⟨?_, ?_, hand, ?_, ?_, ?_⟩
  · rw [hand]
    exact set_value_then_get g pin state hg h0 h1
  · rw [hand]
    obtain ⟨g', h2, _, h3⟩ := direction_output_then_get g pin state hg h0 h1
    exact ⟨g', h2, h3⟩
  · exact set_value_then_get g pin 2 hg h0 h1
  · refine ⟨_, get_value_eq g pin h0 h1 hl, ?_⟩
    split
    · exact Or.inr rfl
    · exact Or.inl rfl
  · refine ⟨_, get_direction_eq g pin h0 h1 hl, ?_⟩
    split
    · exact Or.inr rfl
    · exact Or.inl rfl

/-- C22 on `mixed_lines`, pin 3 and the level 6. -/
theorem c22_only_bit_zero_of_level_witness :
    mixed_lines.allocated ∧ (0 : Int) ≤ 3 ∧ (3 : Int) < mixed_lines.num_gpio ∧
    (∃ g', gpio_builtin_set_value mixed_lines 3 6 = some (0, g') ∧
      gpio_builtin_get_value g' 3 = some (int_and 6 1, g')) ∧
    int_and 6 1 = 6 % 2 :=
  ⟨by decide, by decide, by decide,
   (c22_only_bit_zero_of_level mixed_lines 3 6 (by decide) (by decide) (by decide)).1,
   (c22_only_bit_zero_of_level mixed_lines 3 6 (by decide) (by decide) (by decide)).2.2.1⟩

/-! ## The pin of a request and the line count of the device -/

theorem do_request_request {κ : Type} (v : VirtIOGPIO GpioBuiltin κ)
    (b : GpioBackend GpioBuiltin κ) (rec : virtio_gpio_event)
    (hb : v.gpio = some b) (hk : b.klass = some gpio_builtin_class) (ht : rec.type = 1) :
    do_request v rec =
      (gpio_builtin_request b.inst rec.pin).map fun r =>
        (r.1, { v with gpio := some { b with inst := r.2 } }) := by
  unfold do_request with_backend
  simp only [ht, hb, VIRTIO_GPIO_EV_GUEST_REQUEST, if_true, gpio_backend_request]
  rw [backend_classop_some b gpio_builtin_class _ _ gpio_builtin_request hk rfl]
  simp only [Option.map_map]
  rfl

theorem do_request_direction_input {κ : Type} (v : VirtIOGPIO GpioBuiltin κ)
    (b : GpioBackend GpioBuiltin κ) (rec : virtio_gpio_event)
    (hb : v.gpio = some b) (hk : b.klass = some gpio_builtin_class) (ht : rec.type = 2) :
    do_request v rec =
      (gpio_builtin_direction_input b.inst rec.pin).map fun r =>
        (r.1, { v with gpio := some { b with inst := r.2 } }) := by
  unfold do_request with_backend
  simp only [ht, hb, VIRTIO_GPIO_EV_GUEST_REQUEST, VIRTIO_GPIO_EV_GUEST_DIRECTION_INPUT,
    if_true, if_false, Nat.reduceEqDiff, OfNat.ofNat_ne_one, gpio_backend_direction_input]
  rw [backend_classop_some b gpio_builtin_class _ _ gpio_builtin_direction_input hk rfl]
  simp only [Option.map_map]
  rfl

theorem do_request_set_value {κ : Type} (v : VirtIOGPIO GpioBuiltin κ)
    (b : GpioBackend GpioBuiltin κ) (rec : virtio_gpio_event)
    (hb : v.gpio = some b) (hk : b.klass = some gpio_builtin_class) (ht : rec.type = 6) :
    do_request v rec =
      (gpio_builtin_set_value b.inst rec.pin (toInt32 rec.value)).map fun r =>
        (r.1, { v with gpio := some { b with inst := r.2 } }) := by
  unfold do_request with_backend
  simp only [ht, hb, VIRTIO_GPIO_EV_GUEST_REQUEST, VIRTIO_GPIO_EV_GUEST_DIRECTION_INPUT,
    VIRTIO_GPIO_EV_GUEST_DIRECTION_OUTPUT, VIRTIO_GPIO_EV_GUEST_GET_DIRECTION,
    VIRTIO_GPIO_EV_GUEST_GET_VALUE, VIRTIO_GPIO_EV_GUEST_SET_VALUE, if_true, if_false,
    Nat.reduceEqDiff, OfNat.ofNat_ne_one, gpio_backend_set_value]
  rw [backend_classop_some b gpio_builtin_class _ _ gpio_builtin_set_value hk rfl]
  simp only [Option.map_map]
  rfl

/-- The result `do_request` gives does not depend on the field `num_gpios` of
the device, and the field is passed on as it is. -/
theorem do_request_num_gpios {σ κ : Type} (w : VirtIOGPIO σ κ) (rec : virtio_gpio_event)
    (n : Nat) :
    do_request { w with num_gpios := n } rec =
      (do_request w rec).map fun r => (r.1, { r.2 with num_gpios := n }) := by
  unfold do_request with_backend
  split
  · simp only [Option.map_map]; rfl
  · split
    · simp only [Option.map_map]; rfl
    · split
      · simp only [Option.map_map]; rfl
      · split
        · simp only [Option.map_map]; rfl
        · split
          · simp only [Option.map_map]; rfl
          · split
            · simp only [Option.map_map]; rfl
            · rfl

theorem instance_init_allocated : gpio_builtin_instance_init.allocated := by
  unfold GpioBuiltin.allocated gpio_builtin_instance_init
  simp only [List.length_append, List.length_replicate, List.length_singleton]
  rfl

theorem unbacked_device_realize :
    virtio_gpio_device_realize unbacked_device (some default_backend) idle_notify () =
      some (none, unbacked_device_realized) := rfl

theorem do_request_in_range {κ : Type} (v : VirtIOGPIO GpioBuiltin κ)
    (b : GpioBackend GpioBuiltin κ) (rec : virtio_gpio_event)
    (hb : v.gpio = some b) (hk : b.klass = some gpio_builtin_class) (hg : b.inst.allocated)
    (hp : (rec.pin : Int) < b.inst.num_gpio) (ht : 1 ≤ rec.type ∧ rec.type ≤ 6) :
    ∃ ret g', do_request v rec = some (ret, { v with gpio := some { b with inst := g' } }) ∧
      (ret = 0 ∨ ret = 1) ∧
      (rec.type = 6 → gpio_builtin_get_value g' rec.pin = some (toInt32 rec.value % 2, g')) := by
  have h0 : (0 : Int) ≤ (rec.pin : Int) := Int.ofNat_nonneg _
  have hl := in_range_lt b.inst rec.pin hg h0 hp
  obtain ⟨t1, t6⟩ := ht
  have h1 : rec.type = 1 ∨ rec.type = 2 ∨ rec.type = 3 ∨ rec.type = 4 ∨ rec.type = 5 ∨
      rec.type = 6 := by omega
  rcases h1 with h | h | h | h | h | h
  · rw [do_request_request v b rec hb hk h]
    refine ⟨0, b.inst, ?_, Or.inl rfl, fun h6 => by omega⟩
    unfold gpio_builtin_request
    rw [if_neg (by omega)]
    rfl
  · rw [do_request_direction_input v b rec hb hk h, direction_input_eq b.inst rec.pin h0 hp hl]
    exact ⟨0, _, rfl, Or.inl rfl, fun h6 => by omega⟩
  · rw [do_request_direction_output v b rec hb hk h,
      direction_output_eq b.inst rec.pin _ h0 hp hl]
    exact ⟨0, _, rfl, Or.inl rfl, fun h6 => by omega⟩
  · rw [do_request_get_direction v b rec hb hk h, get_direction_eq b.inst rec.pin h0 hp hl]
    refine ⟨_, b.inst, rfl, ?_, fun h6 => by omega⟩
    split
    · exact Or.inr rfl
    · exact Or.inl rfl
  · rw [do_request_get_value v b rec hb hk h, get_value_eq b.inst rec.pin h0 hp hl]
    refine ⟨_, b.inst, rfl, ?_, fun h6 => by omega⟩
    split
    · exact Or.inr rfl
    · exact Or.inl rfl
  · obtain ⟨g', hs, hgv⟩ := set_value_then_get b.inst rec.pin (toInt32 rec.value) hg h0 hp
    rw [do_request_set_value v b rec hb hk h, hs]
    exact ⟨0, g', rfl, Or.inl rfl, fun _ => hgv⟩

/-- C23: `do_request` gives the same result whatever the field `num_gpios` of
the device holds, and passes the field on as it is.  So on every device over a
builtin backend with an allocated state, every request of type 1 to 6 for a
pin below the line count of the backend returns 0 or 1 and never `-ERANGE`,
also when the pin is at or beyond `num_gpios` of the device; a set-value
request for such a pin is carried out, the line then holding bit 0 of the
value.  The state `gpio_builtin_instance_init` builds is allocated with 256
lines. -/
theorem c23_pin_checked_by_backend_only {σ κ κ' : Type} (w : VirtIOGPIO σ κ) (n : Nat)
    (v : VirtIOGPIO GpioBuiltin κ') (b : GpioBackend GpioBuiltin κ') (rec : virtio_gpio_event)
    (hb : v.gpio = some b) (hk : b.klass = some gpio_builtin_class) (hg : b.inst.allocated)
    (hp : (rec.pin : Int) < b.inst.num_gpio) (ht : 1 ≤ rec.type ∧ rec.type ≤ 6) :
    do_request { w with num_gpios := n } rec =
      ((do_request w rec).map fun r => (r.1, { r.2 with num_gpios := n })) ∧
    (∃ ret g', do_request v rec = some (ret, { v with gpio := some { b with inst := g' } }) ∧
      (ret = 0 ∨ ret = 1) ∧ ret ≠ -ERANGE ∧
      (rec.type = 6 →
        gpio_builtin_get_value g' rec.pin = some (toInt32 rec.value % 2, g'))) ∧
    gpio_builtin_instance_init.allocated ∧ gpio_builtin_instance_init.num_gpio = 256 := by
  refine ⟨do_request_num_gpios w rec n, ?_, instance_init_allocated, rfl⟩
  obtain ⟨ret, g', hd, hr, h6⟩ := do_request_in_range v b rec hb hk hg hp ht
  refine ⟨ret, g', hd, hr, ?_, h6⟩
  rcases hr with hr | hr <;> rw [hr] <;> decide

/-- C23 on `unbacked_device_realized`, which publishes four lines over the 256
lines of the default backend: a set-value request for pin 200. -/
theorem c23_pin_checked_by_backend_only_witness :
    virtio_gpio_device_realize unbacked_device (some default_backend) idle_notify () =
      some (none, unbacked_device_realized) ∧
    unbacked_device_realized.num_gpios = 4 ∧
    (unbacked_device_realized.config_buf.map fun blob => (blob.drop 2).take 2) =
      some (le16 4) ∧
    ∃ ret g', do_request unbacked_device_realized ⟨6, 200, 1⟩ =
        some (ret, { unbacked_device_realized with
          gpio := some { default_backend with
            notify_proc := some idle_notify
            notify_consumer := some ()
            inst := g' } }) ∧
      (ret = 0 ∨ ret = 1) ∧ ret ≠ -ERANGE ∧
      ((6 : Nat) = 6 → gpio_builtin_get_value g' (200 : Nat) = some (toInt32 1 % 2, g')) :=
  ⟨rfl, rfl, rfl,
   (c23_pin_checked_by_backend_only unbacked_device 7 unbacked_device_realized
      { default_backend with notify_proc := some idle_notify, notify_consumer := some () }
      ⟨6, 200, 1⟩ rfl rfl instance_init_allocated
      (by decide) ⟨by decide, by decide⟩).2.1⟩

/-! ## The value a level notification carries -/

/-- C24, counterexample: a write of 2 to `gpio1.value` on `logging_backend`
sends one level notification with the value 2, while
`gpio_backend_get_value` right after the write returns 0; and on
`no_set_value_backend`, where `gpio_backend_set_value` fails with `-EUNATCH`,
a write of 1 to `gpio1.value` sends the level notification all the same. -/
theorem c24_counterexample_notified_value_is_written_value :
    (∃ b', setattr_value (some logging_backend) (some 2) (some 1) = some (none, some b') ∧
      b'.notify_consumer = some [(1, 1, GPIO_EVENT_LEVEL, 2)] ∧
      gpio_backend_get_value (some b') 1 = some (0, some b') ∧
      (2 : Int) ≠ 0) ∧
    gpio_backend_set_value (some no_set_value_backend) 1 (toInt32 1) =
      some (-EUNATCH, some no_set_value_backend) ∧
    ∃ b', setattr_value (some no_set_value_backend) (some 1) (some 1) = some (none, some b') ∧
      b'.inst = no_set_value_backend.inst ∧
      b'.notify_consumer = some [(1, 1, GPIO_EVENT_LEVEL, 1)] :=
  ⟨⟨_, rfl, rfl, rfl, by decide⟩, rfl, _, rfl, rfl, rfl⟩

/-- C24, amended: on every backend with a notification callback `proc` and
consumer `c`, a write of `val` to `gpio<pin>.value` whose
`gpio_backend_set_value` call returns, with whatever result `r`, makes the one
call `proc(c, pin, GPIO_EVENT_LEVEL, (int) val)` after it and reports no
error: the notification carries the written value.  On a builtin backend with
an allocated state and `pin` in `[0, num_gpio)` the write succeeds and
`gpio_backend_get_value(pin)` right after the write returns `(int) val % 2`,
bit 0 of the written value; for `val` 0 or 1 that is `val`, the value the
notification carries. -/
theorem c24_notification_carries_written_value {σ κ κ' : Type} (b : GpioBackend σ κ)
    (proc : gpio_backend_notify_t κ) (c : κ) (pin val r : Int)
    (g1 : Option (GpioBackend σ κ))
    (bb : GpioBackend GpioBuiltin κ') (proc' : gpio_backend_notify_t κ') (c' : κ')
    (hp : b.notify_proc = some proc) (hc : b.notify_consumer = some c)
    (hset : gpio_backend_set_value (some b) pin (toInt32 val) = some (r, g1)) :
    (∃ b1, g1 = some b1 ∧
      setattr_value (some b) (some val) (some pin) =
        some (none, some { b1 with
          notify_consumer := some (proc c pin GPIO_EVENT_LEVEL (toInt32 val)).2 })) ∧
    (bb.klass = some gpio_builtin_class → bb.inst.allocated →
      bb.notify_proc = some proc' → bb.notify_consumer = some c' →
      0 ≤ pin → pin < bb.inst.num_gpio →
      ∃ g', gpio_backend_set_value (some bb) pin (toInt32 val) =
          some (0, some { bb with inst := g' }) ∧
        setattr_value (some bb) (some val) (some pin) =
          some (none, some { bb with
            inst := g'
            notify_consumer := some (proc' c' pin GPIO_EVENT_LEVEL (toInt32 val)).2 }) ∧
        gpio_backend_get_value (some { bb with
            inst := g'
            notify_consumer := some (proc' c' pin GPIO_EVENT_LEVEL (toInt32 val)).2 }) pin =
          some (toInt32 val % 2, some { bb with
            inst := g'
            notify_consumer := some (proc' c' pin GPIO_EVENT_LEVEL (toInt32 val)).2 })) ∧
    (val = 0 ∨ val = 1 → toInt32 val = val ∧ toInt32 val % 2 = val) := by
  refine ⟨?_, ?_, ?_⟩
  · have hset' := hset
    unfold gpio_backend_set_value at hset'
    obtain ⟨b1, hg1, hp1, hc1, _⟩ := backend_classop_frame b _ _ r g1 hset'
    refine ⟨b1, hg1, ?_⟩
    unfold setattr_value
    simp only [hset, Option.some_bind, hg1]
    unfold gpio_backend_send_notify
    simp only [hp1, hp, hc1, hc, Option.map_some']
  · intro hk hg hp' hc' h0 h1
    obtain ⟨g', hs, hgv⟩ := set_value_then_get bb.inst pin (toInt32 val) hg h0 h1
    have hset2 : gpio_backend_set_value (some bb) pin (toInt32 val) =
        some (0, some { bb with inst := g' }) := by
      unfold gpio_backend_set_value
      rw [backend_classop_some bb gpio_builtin_class _ _ gpio_builtin_set_value hk rfl, hs]
      rfl
    refine ⟨g', hset2, ?_, ?_⟩
    · unfold setattr_value
      simp only [hset2, Option.some_bind]
      unfold gpio_backend_send_notify
      simp only [hp', hc', Option.map_some']
    · have hk2 : ({ bb with
          inst := g'
          notify_consumer := some (proc' c' pin GPIO_EVENT_LEVEL (toInt32 val)).2 } :
          GpioBackend GpioBuiltin κ').klass = some gpio_builtin_class := hk
      unfold gpio_backend_get_value
      rw [backend_classop_some _ gpio_builtin_class _ _ gpio_builtin_get_value hk2 rfl]
      simp only [hgv, Option.map_some']
  · intro hv
    rcases hv with hv | hv
    · rw [hv]; exact ⟨rfl, rfl⟩
    · rw [hv]; exact ⟨rfl, rfl⟩

/-- C24, amended, for a write of 1 to `gpio1.value` on `logging_backend`. -/
theorem c24_notification_carries_written_value_witness :
    gpio_backend_set_value (some logging_backend) 1 (toInt32 1) =
      some (0, some { logging_backend with
        inst := { states := [105, 107, 105, 105, 0], num_gpio := 4 } }) ∧
    (∃ b1, some { logging_backend with
          inst := { states := [105, 107, 105, 105, 0], num_gpio := 4 } } = some b1 ∧
      setattr_value (some logging_backend) (some 1) (some 1) =
        some (none, some { b1 with
          notify_consumer := some (logging_notify 1 0 [] 1 GPIO_EVENT_LEVEL (toInt32 1)).2 })) ∧
    (logging_notify 1 0 [] 1 GPIO_EVENT_LEVEL (toInt32 1)).2 = [(1, 1, 3, 1)] ∧
    (∃ g', gpio_backend_set_value (some logging_backend) 1 (toInt32 1) =
        some (0, some { logging_backend with inst := g' }) ∧
      setattr_value (some logging_backend) (some 1) (some 1) =
        some (none, some { logging_backend with
          inst := g'
          notify_consumer :=
            some (logging_notify 1 0 [] 1 GPIO_EVENT_LEVEL (toInt32 1)).2 }) ∧
      gpio_backend_get_value (some { logging_backend with
          inst := g'
          notify_consumer :=
            some (logging_notify 1 0 [] 1 GPIO_EVENT_LEVEL (toInt32 1)).2 }) 1 =
        some (toInt32 1 % 2, some { logging_backend with
          inst := g'
          notify_consumer :=
            some (logging_notify 1 0 [] 1 GPIO_EVENT_LEVEL (toInt32 1)).2 })) ∧
    (toInt32 1 = 1 ∧ toInt32 1 % 2 = 1) :=
  ⟨rfl,
   (c24_notification_carries_written_value logging_backend (logging_notify 1 0) [] 1 1 0
      (some { logging_backend with
        inst := { states := [105, 107, 105, 105, 0], num_gpio := 4 } })
      logging_backend (logging_notify 1 0) [] rfl rfl rfl).1,
   rfl,
   (c24_notification_carries_written_value logging_backend (logging_notify 1 0) [] 1 1 0
      (some { logging_backend with
        inst := { states := [105, 107, 105, 105, 0], num_gpio := 4 } })
      logging_backend (logging_notify 1 0) [] rfl rfl rfl).2.1 rfl (by decide) rfl rfl
      (by decide) (by decide),
   (c24_notification_carries_written_value logging_backend (logging_notify 1 0) [] 1 1 0
      (some { logging_backend with
        inst := { states := [105, 107, 105, 105, 0], num_gpio := 4 } })
      logging_backend (logging_notify 1 0) [] rfl rfl rfl).2.2 (Or.inr rfl)⟩

/-! ## The range guard on the ids callers pass -/

end QemuGpio
